import Mathlib

/-!
The vysmaw spectrum reader: a shallow embedding of `src/src/spectrum_reader.c`.

The reactor of `spectrum_reader.c` is translated function by function.  C
structures become Lean structures with the same field names, pointers to
connection contexts become addresses into an explicit heap, and every call
into a library (RDMA verbs, the connection manager, the buffer pool, the
loopback pipe) takes its outcome as an explicit argument.  Calls whose only
effect is outside the reactor are recorded in effect logs so that theorems can
speak about them.
-/

namespace SpectrumReader

/-! ## Data model -/

/-- The run states of the reactor (`enum run_state`). -/
inductive run_state where
  | STATE_INIT
  | STATE_RUN
  | STATE_QUIT
  | STATE_DONE
deriving DecidableEq

/-- The outcome slot of a read request (`enum rdma_req_result`). -/
inductive rdma_req_result where
  | RDMA_REQ_SUCCESS
  | RDMA_REQ_READ_FAILURE
  | RDMA_REQ_DIGEST_VERIFICATION_FAILURE
deriving DecidableEq

/-- The value of `IBV_WC_SUCCESS` in `enum ibv_wc_status` (libibverbs). -/
def IBV_WC_SUCCESS : Nat := 0

/-- Modelled from the spec: the macro `VYSMAW_DATA_DIGEST_SIZE` of the missing
header `vysmaw.h`; the spec gives a 16-byte MD5 digest. -/
def VYSMAW_DATA_DIGEST_SIZE : Nat := 16

/-- An IPv4 socket address (`struct sockaddr_in`), the key of the registry. -/
structure sockaddr_in where
  sin_addr : Nat
  sin_port : Nat
deriving DecidableEq

/-- Modelled from the spec: `struct vysmaw_data_info` of the missing header
`vysmaw.h`, with the fields that `new_rdma_req` writes. -/
structure vysmaw_data_info where
  num_channels : Nat
  stations : Nat × Nat
  spectral_window_index : Nat
  stokes_index : Nat
  timestamp : Nat
deriving DecidableEq

/-- Modelled from the spec: `struct vysmaw_spectrum_info` of the missing header
`vysmaw.h`, with the fields the reader uses: remote address of the payload,
timestamp and the expected digest. -/
structure vysmaw_spectrum_info where
  data_addr : Nat
  timestamp : Nat
  digest : List Nat
deriving DecidableEq

/-- Modelled from the spec: `struct signal_msg_payload` of the missing header,
with the fields read by `new_rdma_req` and `on_signal_message`.  `infos` is the
array of spectrum infos, of which the first `num_spectra` are in use. -/
structure signal_msg_payload where
  sockaddr : sockaddr_in
  num_channels : Nat
  stations : Nat × Nat
  spectral_window_index : Nat
  stokes_index : Nat
  num_spectra : Nat
  infos : List vysmaw_spectrum_info
deriving DecidableEq

/-- Modelled from the spec: `struct signal_msg`, a signal datagram. -/
structure signal_msg where
  payload : signal_msg_payload
deriving DecidableEq

/-- Modelled from the spec: the tag of a consumer message (`vysmaw.h`), one
constructor per row of the table of output messages. -/
inductive vysmaw_message_type where
  | VYSMAW_MESSAGE_VALID_BUFFER
  | VYSMAW_MESSAGE_DIGEST_FAILURE
  | VYSMAW_MESSAGE_QUEUE_OVERFLOW
  | VYSMAW_MESSAGE_DATA_BUFFER_STARVATION
  | VYSMAW_MESSAGE_SIGNAL_BUFFER_STARVATION
  | VYSMAW_MESSAGE_SIGNAL_RECEIVE_FAILURE
  | VYSMAW_MESSAGE_RDMA_READ_FAILURE
  | VYSMAW_MESSAGE_END
deriving DecidableEq

/-- Modelled from the spec: `struct vysmaw_message`.  The valid-buffer,
digest-failure and read-failure variants share one message slot: a tag, the
data info, and the variant's content.  `buffer` is the content of the
destination buffer, `none` once the buffer has been released. -/
structure vysmaw_message where
  typ : vysmaw_message_type
  data_info : vysmaw_data_info
  buffer_size : Nat
  buffer : Option (List Nat)
  wc_status : Nat
deriving DecidableEq

/-- A consumer queue, named by its number. -/
abbrev consumer := Nat

/-- A read request (`struct rdma_req`).  `new_rdma_req` leaves `result`,
`status` and `message` unwritten; they are written before they are read
(`message` by `post_server_reads`, the other two by `poll_completions`). -/
structure rdma_req where
  data_info : vysmaw_data_info
  spectrum_info : vysmaw_spectrum_info
  result : rdma_req_result
  status : Nat
  consumers : List consumer
  message : Option vysmaw_message
deriving DecidableEq

/-- A work completion (`struct ibv_wc`) as the reader uses it: `wr_id` is the
read request the work-request id points to, in the state it has when the
completion is reaped (its message buffer holds what the read delivered), and
`status` is the completion status. -/
structure ibv_wc where
  wr_id : rdma_req
  status : Nat
deriving DecidableEq

/-- The connection-manager id of a connection (`struct rdma_cm_id`) as the
reader uses it: the destination address, the fd of the send completion channel
(present once the queue pair exists), and two counters of the completion queue:
events acquired with `ibv_get_cq_event` and events acknowledged with
`ibv_ack_cq_events`. -/
structure rdma_cm_id where
  dst_sin : sockaddr_in
  send_cq_channel : Option Int
  cq_events_acquired : Nat
  cq_events_acked : Nat
deriving DecidableEq

/-- The per-server state (`struct server_connection_context`).  `wcs` is the
capacity of the reap buffer (`none` for a null pointer), `mrs` the table from
buffer-pool id to memory region (`none` for a null pointer), `reqs` the FIFO of
pending read requests with its head first, `last_access` the time the timer
was last started. -/
structure server_connection_context where
  id : rdma_cm_id
  wcs : Option Nat
  mrs : Option (List (Nat × Nat))
  rkey : Nat
  established : Bool
  max_posted_wr : Nat
  num_posted_wr : Nat
  reqs : List rdma_req
  num_not_ack : Nat
  min_ack : Nat
  last_access : Nat
deriving DecidableEq

/-- Modelled from the spec: `struct vysmaw_configuration` (missing header),
the options the reader reads. -/
structure vysmaw_configuration where
  resolve_addr_timeout_ms : Nat
  resolve_route_timeout_ms : Nat
  rdma_read_max_posted : Nat
  rdma_read_min_ack_part : Nat
  preconnect_backlog : Bool
  inactive_server_timeout_sec : Nat
deriving DecidableEq

/-- An entry of the error-record list (`struct error_record`). -/
structure error_record where
  errnum : Int
  desc : String
deriving DecidableEq

/-- Modelled from the spec: the macros `MSG_ERROR` and `VERB_ERR` of a missing
header; they add one record to the error-record list. -/
def MSG_ERROR (error_records : List error_record) (errnum : Int) (desc : String) :
    List error_record :=
  error_records ++ [⟨errnum, desc⟩]

/-! ## Digest verification and read requests -/

/-- `verify_digest`: the checksum is reset, fed `buffer_size` bytes of the
buffer, and its digest is compared over `digest_len` bytes with the expected
one.  The checksum function is the argument `md5`. -/
def verify_digest (md5 : List Nat → List Nat) (buff : List Nat) (buffer_size : Nat)
    (digest : List Nat) : Bool :=
  let buff_digest := md5 (buff.take buffer_size)
  let digest_len := VYSMAW_DATA_DIGEST_SIZE
  decide (buff_digest.take digest_len = digest.take digest_len)

/-- `new_rdma_req`: a read request for one spectrum of a signal. -/
def new_rdma_req (consumers : List consumer) (payload : signal_msg_payload)
    (spectrum_info : vysmaw_spectrum_info) : rdma_req where
  spectrum_info := spectrum_info
  data_info :=
    { num_channels := payload.num_channels
      stations := payload.stations
      spectral_window_index := payload.spectral_window_index
      stokes_index := payload.stokes_index
      timestamp := spectrum_info.timestamp }
  result := rdma_req_result.RDMA_REQ_SUCCESS
  status := 0
  consumers := consumers
  message := none

/-- `set_max_posted_wr`: sets the credit ceiling and the acknowledgement
threshold derived from it; `min_ack_part` is
`config.rdma_read_min_ack_part`. -/
def set_max_posted_wr (min_ack_part : Nat) (conn_ctx : server_connection_context)
    (max_posted_wr : Nat) : server_connection_context :=
  { conn_ctx with
    max_posted_wr := max_posted_wr
    min_ack := max_posted_wr / min_ack_part }

/-- The outcome of a library call that reports failure through its return value
and `errno`: `rc` is what the call returns, `errno` the error number it leaves
behind. -/
structure call_result where
  rc : Int
  errno : Int
deriving DecidableEq

/-- A buffer obtained from the buffer pool: the id of its pool, its size and
its content. -/
structure buffer_alloc where
  pool_id : Nat
  buffer_size : Nat
  buffer : List Nat
deriving DecidableEq

/-- Modelled from the spec: `valid_buffer_message_new` of the missing message
module.  It takes a destination buffer from the buffer pool and wraps it in a
valid-buffer message carrying the data info; it yields no message when the
pool has no buffer.  `alloc` is the outcome of the pool. -/
def valid_buffer_message_new (data_info : vysmaw_data_info) (alloc : Option buffer_alloc) :
    Option (vysmaw_message × Nat) :=
  match alloc with
  | none => none
  | some b =>
    some
      ({ typ := vysmaw_message_type.VYSMAW_MESSAGE_VALID_BUFFER
         data_info := data_info
         buffer_size := b.buffer_size
         buffer := some b.buffer
         wc_status := 0 }, b.pool_id)

/-- Modelled from the spec: `convert_valid_to_digest_failure` of the missing
message module: the tag is flipped and the buffer is released in place. -/
def convert_valid_to_digest_failure (msg : vysmaw_message) : vysmaw_message :=
  { msg with
    typ := vysmaw_message_type.VYSMAW_MESSAGE_DIGEST_FAILURE
    buffer := none }

/-- Modelled from the spec: `convert_valid_to_rdma_read_failure` of the missing
message module: the tag is flipped, the buffer is released in place and the
completion status is stored. -/
def convert_valid_to_rdma_read_failure (msg : vysmaw_message) (status : Nat) :
    vysmaw_message :=
  { msg with
    typ := vysmaw_message_type.VYSMAW_MESSAGE_RDMA_READ_FAILURE
    buffer := none
    wc_status := status }

/-! ## Posting reads -/

/-- The outcome of the library calls of one iteration of the loop of
`post_server_reads`: the buffer pool's answer to `valid_buffer_message_new` and
the result of `rdma_post_read` (read only when a buffer was obtained). -/
structure post_outcome where
  alloc : Option buffer_alloc
  post : call_result
deriving DecidableEq

/-- A work request handed to `rdma_post_read`: the read request (its pointer is
the work-request id, its message holds the destination buffer), the memory
region looked up for the buffer's pool, and the remote key. -/
structure posted_read where
  wr_id : rdma_req
  mr : Option Nat
  rkey : Nat
deriving DecidableEq

/-- The local variables and effects of the loop of `post_server_reads`: the
return code, the posted counter, the one-entry cache of memory region and pool
id, the error records, the work requests posted with success (oldest first)
and the requests destroyed with `free_rdma_req` (oldest first). -/
structure post_state where
  rc : Int
  num_posted_wr : Nat
  mr : Option Nat
  pool_id : Option Nat
  error_records : List error_record
  posted : List posted_read
  freed : List rdma_req
deriving DecidableEq

/-- The lookup `g_hash_table_lookup (conn_ctx->mrs, pool_id)`. -/
def mrs_lookup (mrs : Option (List (Nat × Nat))) (pool_id : Nat) : Option Nat :=
  match mrs with
  | none => none
  | some t => (t.find? (fun e => e.1 == pool_id)).map (fun e => e.2)

/-- The loop of `post_server_reads`, by recursion on the pending FIFO.  The
`k`-th iteration reads its library outcomes from `env k`.  It returns the FIFO
that is left and the final loop state. -/
def post_server_reads_loop (env : Nat → post_outcome) (max_posted_wr : Nat)
    (mrs : Option (List (Nat × Nat))) (rkey : Nat) :
    List rdma_req → Nat → post_state → List rdma_req × post_state
  | [], _, st => ([], st)
  | req :: rest, k, st =>
    if st.rc = 0 ∧ st.num_posted_wr < max_posted_wr then
      match valid_buffer_message_new req.data_info (env k).alloc with
      | some (message, buff_pool_id) =>
        let req1 := { req with message := some message }
        let refresh := st.mr.isNone || decide (some buff_pool_id ≠ st.pool_id)
        let pool_id := if refresh then some buff_pool_id else st.pool_id
        let mr := if refresh then mrs_lookup mrs buff_pool_id else st.mr
        let rc := (env k).post.rc
        if rc = 0 then
          post_server_reads_loop env max_posted_wr mrs rkey rest (k + 1)
            { st with
              rc := rc
              mr := mr
              pool_id := pool_id
              num_posted_wr := st.num_posted_wr + 1
              posted := st.posted ++ [⟨req1, mr, rkey⟩] }
        else
          post_server_reads_loop env max_posted_wr mrs rkey rest (k + 1)
            { st with
              rc := rc
              mr := mr
              pool_id := pool_id
              error_records := MSG_ERROR st.error_records (env k).post.errno "rdma_post_read" }
      | none =>
        post_server_reads_loop env max_posted_wr mrs rkey rest (k + 1)
          { st with freed := st.freed ++ [req] }
    else (req :: rest, st)

/-- What `post_server_reads` leaves behind: the connection, the return code,
the error records, the work requests posted and the requests destroyed. -/
structure post_result where
  conn_ctx : server_connection_context
  rc : Int
  error_records : List error_record
  posted : List posted_read
  freed : List rdma_req
deriving DecidableEq

/-- `post_server_reads`: post pending read requests from the head of the FIFO
while there is credit. -/
def post_server_reads (env : Nat → post_outcome) (conn_ctx : server_connection_context)
    (error_records : List error_record) : post_result :=
  let r := post_server_reads_loop env conn_ctx.max_posted_wr conn_ctx.mrs conn_ctx.rkey
    conn_ctx.reqs 0
    { rc := 0
      num_posted_wr := conn_ctx.num_posted_wr
      mr := none
      pool_id := none
      error_records := error_records
      posted := []
      freed := [] }
  { conn_ctx := { conn_ctx with reqs := r.1, num_posted_wr := r.2.num_posted_wr }
    rc := r.2.rc
    error_records := r.2.error_records
    posted := r.2.posted
    freed := r.2.freed }

/-- `on_server_established`: record the peer's key, tighten the credit ceiling
to the peer's initiator depth, allocate the reap buffer, mark the connection
established and post queued requests. -/
def on_server_established (min_ack_part : Nat) (env : Nat → post_outcome)
    (conn_ctx : server_connection_context) (rkey : Nat) (initiator_depth : Nat)
    (error_records : List error_record) : post_result :=
  let c1 := { conn_ctx with rkey := rkey }
  let c2 := set_max_posted_wr min_ack_part c1 (min c1.max_posted_wr initiator_depth)
  let c3 := { c2 with wcs := some c2.max_posted_wr }
  let c4 := { c3 with established := true }
  post_server_reads env c4 error_records

/-- What `begin_server_disconnect` leaves behind: the connection, the return
code, the error records and the requests destroyed. -/
structure disconnect_result where
  conn_ctx : server_connection_context
  rc : Int
  error_records : List error_record
  freed : List rdma_req
deriving DecidableEq

/-- `begin_server_disconnect`: every pending request is destroyed; an
established connection is marked not established and `rdma_disconnect` is
called, with outcome `disc`. -/
def begin_server_disconnect (disc : call_result) (conn_ctx : server_connection_context)
    (error_records : List error_record) : disconnect_result :=
  let c1 := { conn_ctx with reqs := [] }
  if conn_ctx.established then
    { conn_ctx := { c1 with established := false }
      rc := disc.rc
      error_records :=
        if disc.rc ≠ 0 then MSG_ERROR error_records disc.errno "rdma_disconnect"
        else error_records
      freed := conn_ctx.reqs }
  else
    { conn_ctx := c1
      rc := 0
      error_records := error_records
      freed := conn_ctx.reqs }

/-! ## Completions -/

/-- `ack_completions`: when at least `min_ack` completion events are
unacknowledged, acknowledge them all and reset the counter. -/
def ack_completions (conn_ctx : server_connection_context) (min_ack : Nat) :
    server_connection_context :=
  if conn_ctx.num_not_ack ≥ min_ack then
    { conn_ctx with
      id := { conn_ctx.id with
        cq_events_acked := conn_ctx.id.cq_events_acked + conn_ctx.num_not_ack }
      num_not_ack := 0 }
  else conn_ctx

/-- The outcome of `ibv_poll_cq`: a negative return value with its `errno`, or
the work completions written to the reap buffer, first reaped first. -/
inductive ibv_poll_cq_result where
  | error (errno : Int)
  | completions (wcs : List ibv_wc)
deriving DecidableEq

/-- The body of the loop of `poll_completions` for one work completion: the
request is recovered from the work-request id, the status is stored and the
outcome classified. -/
def classify_completion (md5 : List Nat → List Nat) (wc : ibv_wc) : rdma_req :=
  let req := { wc.wr_id with status := wc.status }
  if req.status = IBV_WC_SUCCESS then
    if verify_digest md5 ((req.message.bind (fun m => m.buffer)).getD [])
        ((req.message.map (fun m => m.buffer_size)).getD 0) req.spectrum_info.digest then
      { req with result := rdma_req_result.RDMA_REQ_SUCCESS }
    else
      { req with result := rdma_req_result.RDMA_REQ_DIGEST_VERIFICATION_FAILURE }
  else
    { req with result := rdma_req_result.RDMA_REQ_READ_FAILURE }

/-- The loop of `poll_completions` over the reap buffer: each classified
request is put in front of the list `reqs` (`g_slist_prepend`). -/
def poll_completions_loop (md5 : List Nat → List Nat) :
    List ibv_wc → List rdma_req → List rdma_req
  | [], reqs => reqs
  | wc :: wcs, reqs => poll_completions_loop md5 wcs (classify_completion md5 wc :: reqs)

/-- What `poll_completions` leaves behind: the connection, the list `*reqs`,
the error records and the return code. -/
structure poll_result where
  conn_ctx : server_connection_context
  reqs : List rdma_req
  error_records : List error_record
  rc : Int
deriving DecidableEq

/-- `poll_completions`: reap the completion queue.  The result is `none` when
the assertion `num_posted_wr >= nc` fails (the program aborts). -/
def poll_completions (md5 : List Nat → List Nat) (conn_ctx : server_connection_context)
    (polled : ibv_poll_cq_result) (error_records : List error_record) :
    Option poll_result :=
  match polled with
  | ibv_poll_cq_result.error errno =>
    some
      { conn_ctx := conn_ctx
        reqs := []
        error_records := MSG_ERROR error_records errno "ibv_poll_cq"
        rc := errno }
  | ibv_poll_cq_result.completions wcs =>
    if wcs.length > 0 then
      if conn_ctx.num_posted_wr ≥ wcs.length then
        some
          { conn_ctx := { conn_ctx with num_posted_wr := conn_ctx.num_posted_wr - wcs.length }
            reqs := poll_completions_loop md5 wcs []
            error_records := error_records
            rc := 0 }
      else none
    else
      some
        { conn_ctx := conn_ctx
          reqs := []
          error_records := error_records
          rc := 0 }

/-- The body of the delivery loop of `on_read_completion` for one request: the
message of a failed request is converted to the failure variant. -/
def completion_message (req : rdma_req) : Option vysmaw_message :=
  match req.result with
  | rdma_req_result.RDMA_REQ_DIGEST_VERIFICATION_FAILURE =>
    req.message.map convert_valid_to_digest_failure
  | rdma_req_result.RDMA_REQ_READ_FAILURE =>
    req.message.map (fun m => convert_valid_to_rdma_read_failure m req.status)
  | rdma_req_result.RDMA_REQ_SUCCESS => req.message

/-- One call of `message_queues_push`: the message and the consumers it is
pushed to. -/
structure queue_push where
  message : Option vysmaw_message
  consumers : List consumer
deriving DecidableEq

/-- The delivery loop of `on_read_completion`: the list is walked from its
head; each request's message is pushed to the request's consumers and the
request is destroyed.  `queues` is the log of pushes, oldest first. -/
def deliver_completions : List rdma_req → List queue_push → List queue_push
  | [], queues => queues
  | req :: reqs, queues =>
    deliver_completions reqs (queues ++ [⟨completion_message req, req.consumers⟩])

/-! ## The reactor context -/

/-- An entry of a pollset (`struct pollfd`). -/
structure pollfd where
  fd : Int
  events : Nat
  revents : Nat
deriving DecidableEq

/-- The value of `POLLIN` (`poll.h`). -/
def POLLIN : Nat := 1

/-- The tag of a control message (`data_path_message`, missing header). -/
inductive data_path_message_type where
  | DATA_PATH_SIGNAL_MSG
  | DATA_PATH_RECEIVE_FAIL
  | DATA_PATH_BUFFER_STARVATION
  | DATA_PATH_QUIT
  | DATA_PATH_END
deriving DecidableEq

/-- Modelled from the spec: `struct data_path_message` of the missing header.
`addr` is the address of the instance: two messages are the same instance when
their addresses are equal.  `consumers` is the array of consumer lists, one
slot per spectrum. -/
structure data_path_message where
  addr : Nat
  typ : data_path_message_type
  signal_msg : signal_msg
  consumers : List (List consumer)
  wc_status : Nat
  error_records : List error_record
deriving DecidableEq

/-- Modelled from the spec: `data_path_message_new` of the missing module; a
new control message with one empty consumer slot per spectrum, at the address
`addr` chosen by the allocator.  The caller sets the tag. -/
def data_path_message_new (addr : Nat) (typ : data_path_message_type) (num_spectra : Nat) :
    data_path_message where
  addr := addr
  typ := typ
  signal_msg := ⟨⟨⟨0, 0⟩, 0, (0, 0), 0, 0, 0, []⟩⟩
  consumers := List.replicate num_spectra []
  wc_status := 0
  error_records := []

/-- Modelled from the spec: `struct spectrum_reader_context` of the missing
header `spectrum_reader.h`, the part shared with the rest of the client.  Of
the handle only the configuration is kept.  The other fields are effect logs,
oldest entry first: `loop_fd` the messages written to the loopback pipe,
`signal_msg_buffers` the signal buffers pushed back to their pool, `queues`
the calls of `message_queues_push`, `receive_failures` the calls of
`mark_signal_receive_failure`, `buffer_starvations` the number of calls of
`mark_signal_buffer_starvation`, `posted` the work requests accepted by
`rdma_post_read`, `freed_reqs` the read requests destroyed with
`free_rdma_req`, `closed` the connection contexts released by
`complete_server_disconnect`, each in its final state. -/
structure spectrum_reader_context where
  config : vysmaw_configuration
  signal_msg_num_spectra : Nat
  loop_fd : List data_path_message
  signal_msg_buffers : List signal_msg
  queues : List queue_push
  receive_failures : List Nat
  buffer_starvations : Nat
  posted : List posted_read
  freed_reqs : List rdma_req
  closed : List server_connection_context
deriving DecidableEq

/-- The reactor's own state (`struct spectrum_reader_context_`).  A pointer to
a connection context is an address; `heap` holds the connection contexts that
are allocated, by address.  `connections` is the hash table from server
address to connection, `fd_connections` the sequence of connections sorted by
completion fd; both are `none` while the C pointer is null. -/
structure spectrum_reader_context_ where
  shared : spectrum_reader_context
  state : run_state
  quit_msg : Option data_path_message
  end_msg : Option data_path_message
  pollfds : List pollfd
  new_pollfds : List pollfd
  event_channel : Option Int
  connections : Option (List (sockaddr_in × Nat))
  fd_connections : Option (List Nat)
  heap : List (Nat × server_connection_context)
deriving DecidableEq

/-- What a handler leaves behind: the context, the error records and the
return code. -/
structure handler_result where
  context : spectrum_reader_context_
  error_records : List error_record
  rc : Int
deriving DecidableEq

/-! ### Tables: the heap and the hash table of connections -/

/-- Lookup in a table kept as a list of key-value pairs. -/
def table_lookup {κ ν : Type} [DecidableEq κ] : List (κ × ν) → κ → Option ν
  | [], _ => none
  | e :: rest, k => if e.1 = k then some e.2 else table_lookup rest k

/-- Insertion into a table: the value of an existing key is replaced. -/
def table_insert {κ ν : Type} [DecidableEq κ] : List (κ × ν) → κ → ν → List (κ × ν)
  | [], k, v => [(k, v)]
  | e :: rest, k, v => if e.1 = k then (k, v) :: rest else e :: table_insert rest k v

/-- Removal of a key from a table. -/
def table_remove {κ ν : Type} [DecidableEq κ] : List (κ × ν) → κ → List (κ × ν)
  | [], _ => []
  | e :: rest, k => if e.1 = k then table_remove rest k else e :: table_remove rest k

/-- `g_hash_table_lookup (context->connections, sockaddr)`. -/
def connections_lookup (connections : Option (List (sockaddr_in × Nat))) (sockaddr : sockaddr_in) :
    Option Nat :=
  match connections with
  | none => none
  | some t => table_lookup t sockaddr

/-- Dereference of a connection pointer. -/
def conn_at (context : spectrum_reader_context_) (p : Nat) : Option server_connection_context :=
  table_lookup context.heap p

/-- Store through a connection pointer. -/
def conn_store (context : spectrum_reader_context_) (p : Nat) (c : server_connection_context) :
    spectrum_reader_context_ :=
  { context with heap := table_insert context.heap p c }

/-- Record calls of `free_rdma_req` in the effect log. -/
def log_freed (context : spectrum_reader_context_) (reqs : List rdma_req) :
    spectrum_reader_context_ :=
  { context with shared := { context.shared with freed_reqs := context.shared.freed_reqs ++ reqs } }

/-- Record work requests accepted by `rdma_post_read` in the effect log. -/
def log_posted (context : spectrum_reader_context_) (wrs : List posted_read) :
    spectrum_reader_context_ :=
  { context with shared := { context.shared with posted := context.shared.posted ++ wrs } }

/-! ### Opening a connection and signal intake -/

/-- The outcome of the library calls of `initiate_server_connection`: the
results of `rdma_create_id` and `rdma_resolve_addr`, the address of the new
connection context, and the time at which its timer is created. -/
structure open_outcome where
  create_id : call_result
  resolve_addr : call_result
  conn_addr : Nat
  now : Nat
deriving DecidableEq

/-- The connection context that `initiate_server_connection` builds: zeroed,
with the new id, not established, an empty FIFO and the configured credit
ceiling. -/
def new_server_connection (config : vysmaw_configuration) (sockaddr : sockaddr_in) (now : Nat) :
    server_connection_context :=
  set_max_posted_wr config.rdma_read_min_ack_part
    { id := ⟨sockaddr, none, 0, 0⟩
      wcs := none
      mrs := none
      rkey := 0
      established := false
      max_posted_wr := 0
      num_posted_wr := 0
      reqs := []
      num_not_ack := 0
      min_ack := 0
      last_access := now }
    config.rdma_read_max_posted

/-- `initiate_server_connection`: the result is the new connection pointer, or
`none` for a null result. -/
def initiate_server_connection (env : open_outcome) (context : spectrum_reader_context_)
    (sockaddr : sockaddr_in) (error_records : List error_record) :
    spectrum_reader_context_ × List error_record × Option Nat :=
  if env.create_id.rc ≠ 0 then
    (context, MSG_ERROR error_records env.create_id.errno "rdma_create_id", none)
  else if env.resolve_addr.rc ≠ 0 then
    (context, MSG_ERROR error_records env.resolve_addr.errno "rdma_resolve_addr", none)
  else
    let result := new_server_connection context.shared.config sockaddr env.now
    ({ context with
        heap := table_insert context.heap env.conn_addr result
        connections := context.connections.map (fun t => table_insert t sockaddr env.conn_addr) },
      error_records, some env.conn_addr)

/-- What `find_connection` leaves behind: the context, the error records, the
return code, the connection pointer `*conn_ctx` and whether `*req_queue` is
the connection's FIFO (`true`) or null (`false`). -/
structure find_result where
  context : spectrum_reader_context_
  error_records : List error_record
  rc : Int
  conn_ctx : Option Nat
  req_queue : Bool
deriving DecidableEq

/-- `find_connection`: look the address up in the registry, open a connection
when there is none, and hand out the connection's FIFO when the connection is
established or requests are backlogged before connection. -/
def find_connection (env : open_outcome) (context : spectrum_reader_context_)
    (sockaddr : sockaddr_in) (error_records : List error_record) : find_result :=
  let found : spectrum_reader_context_ × List error_record × Option Nat :=
    match connections_lookup context.connections sockaddr with
    | some p => (context, error_records, some p)
    | none => initiate_server_connection env context sockaddr error_records
  match found.2.2 with
  | none => ⟨found.1, found.2.1, -1, none, false⟩
  | some p =>
    let established := ((conn_at found.1 p).map (fun c => c.established)).getD false
    ⟨found.1, found.2.1, 0, some p,
      established || context.shared.config.preconnect_backlog⟩

/-- The loop of `on_signal_message`: `n` counts the entries still to visit,
`infos` and `consumers` are the rest of the two arrays, `reqs` is the FIFO.
An entry with a consumer list gets a read request at the tail of the FIFO;
every visited consumer slot is set to the empty list.  The result is the FIFO
and the consumer array after the loop.  The arrays of a signal message have at
least `num_spectra` entries; the loop stops should one be shorter. -/
def on_signal_message_loop (payload : signal_msg_payload) :
    Nat → List vysmaw_spectrum_info → List (List consumer) → List rdma_req →
      List rdma_req × List (List consumer)
  | 0, _, consumers, reqs => (reqs, consumers)
  | n + 1, info :: infos, c :: consumers, reqs =>
    let r := on_signal_message_loop payload n infos consumers
      (if c ≠ [] then reqs ++ [new_rdma_req c payload info] else reqs)
    (r.1, [] :: r.2)
  | _ + 1, _, consumers, reqs => (reqs, consumers)

/-- `on_signal_message`: the result holds the context, the error records, the
return code, and the array of consumer lists as the function leaves it. -/
def on_signal_message (env : open_outcome) (context : spectrum_reader_context_)
    (msg : signal_msg) (consumers : List (List consumer)) (error_records : List error_record) :
    handler_result × List (List consumer) :=
  let payload := msg.payload
  let f := find_connection env context payload.sockaddr error_records
  match f.conn_ctx with
  | some p =>
    match conn_at f.context p with
    | some c =>
      if f.rc = 0 ∧ f.req_queue = true then
        let r := on_signal_message_loop payload payload.num_spectra payload.infos consumers c.reqs
        (⟨conn_store f.context p { c with reqs := r.1 }, f.error_records, f.rc⟩, r.2)
      else (⟨f.context, f.error_records, f.rc⟩, consumers)
    | none => (⟨f.context, f.error_records, f.rc⟩, consumers)
  | none => (⟨f.context, f.error_records, f.rc⟩, consumers)

/-! ### The quit protocol -/

/-- `loopback_msg`: the message pointer is written to the loopback pipe.  The
write loop (retried on `EINTR`, re-driven after a partial write) is taken as a
whole: `write` is its outcome, `rc = 0` when all bytes were written, otherwise
the failure and its `errno`. -/
def loopback_msg (write : call_result) (context : spectrum_reader_context_)
    (msg : data_path_message) (error_records : List error_record) : handler_result :=
  if write.rc = 0 then
    ⟨{ context with shared := { context.shared with loop_fd := context.shared.loop_fd ++ [msg] } },
      error_records, 0⟩
  else
    ⟨context, MSG_ERROR error_records write.errno "Failed to write to loop pipe", -1⟩

/-- The outcome of the library calls of `to_quit_state` and of the quit branch
of `on_data_path_message`: the result of `rdma_disconnect` for the connection
at each address, the address of a newly allocated control message, and the
outcome of the loopback write. -/
structure quit_outcome where
  disconnect : Nat → call_result
  new_msg : Nat
  write : call_result

/-- The loop of `to_quit_state` over the sequence `fd_connections`: disconnect
is begun on each connection in turn; the return codes are not used. -/
def to_quit_state_loop (disconnect : Nat → call_result) :
    List Nat → spectrum_reader_context_ × List error_record →
      spectrum_reader_context_ × List error_record
  | [], st => st
  | p :: rest, st =>
    match conn_at st.1 p with
    | some c =>
      let d := begin_server_disconnect (disconnect p) c st.2
      to_quit_state_loop disconnect rest
        (log_freed (conn_store st.1 p d.conn_ctx) d.freed, d.error_records)
    | none => to_quit_state_loop disconnect rest st

/-- `to_quit_state`: `none` when the assertion `state != STATE_DONE` fails. -/
def to_quit_state (env : quit_outcome) (context : spectrum_reader_context_)
    (quit_msg : Option data_path_message) (error_records : List error_record) :
    Option handler_result :=
  if context.state = run_state.STATE_DONE then none
  else if context.state ≠ run_state.STATE_QUIT then
    let st : spectrum_reader_context_ × List error_record :=
      match context.fd_connections with
      | some seq => to_quit_state_loop env.disconnect seq (context, error_records)
      | none => (context, error_records)
    let quit_msg1 : data_path_message :=
      match quit_msg with
      | some m => m
      | none =>
        data_path_message_new env.new_msg data_path_message_type.DATA_PATH_QUIT
          context.shared.signal_msg_num_spectra
    let l := loopback_msg env.write st.1 quit_msg1 st.2
    some ⟨{ l.context with state := run_state.STATE_QUIT, quit_msg := some quit_msg1 },
      l.error_records, l.rc⟩
  else some ⟨context, error_records, 0⟩

/-- `on_data_path_message`: dispatch of one control message.  `none` when an
assertion fails. -/
def on_data_path_message (open_env : open_outcome) (env : quit_outcome)
    (context : spectrum_reader_context_) (msg : data_path_message)
    (error_records : List error_record) : Option handler_result :=
  match msg.typ with
  | data_path_message_type.DATA_PATH_SIGNAL_MSG =>
    let r : handler_result :=
      if context.state = run_state.STATE_RUN then
        (on_signal_message open_env context msg.signal_msg msg.consumers error_records).1
      else ⟨context, error_records, 0⟩
    some ⟨{ r.context with
            shared := { r.context.shared with
              signal_msg_buffers := r.context.shared.signal_msg_buffers ++ [msg.signal_msg] } },
      r.error_records, r.rc⟩
  | data_path_message_type.DATA_PATH_RECEIVE_FAIL =>
    some ⟨{ context with
            shared := { context.shared with
              receive_failures := context.shared.receive_failures ++ [msg.wc_status] } },
      error_records, 0⟩
  | data_path_message_type.DATA_PATH_BUFFER_STARVATION =>
    some ⟨{ context with
            shared := { context.shared with
              buffer_starvations := context.shared.buffer_starvations + 1 } },
      error_records, 0⟩
  | data_path_message_type.DATA_PATH_QUIT =>
    match context.quit_msg with
    | none => to_quit_state env context (some msg) error_records
    | some q =>
      if q.addr = msg.addr then
        let end_msg := data_path_message_new env.new_msg data_path_message_type.DATA_PATH_END
          context.shared.signal_msg_num_spectra
        let l := loopback_msg env.write { context with end_msg := some end_msg } end_msg
          error_records
        some ⟨{ l.context with quit_msg := none }, l.error_records, l.rc⟩
      else some ⟨context, error_records, 0⟩
  | data_path_message_type.DATA_PATH_END =>
    some ⟨{ context with state := run_state.STATE_DONE }, error_records, 0⟩

/-! ### Connection-manager events -/

/-- The outcome of the library calls of `on_server_addr_resolved`: the return
code of `ibv_query_device` and the device attribute `max_qp_init_rd_atom` (as
the unsigned value it is compared as), the result of `rdma_create_qp` with the
capacity `max_send_wr` it reports back and the fd of the completion channel it
creates, and the results of `ibv_resize_cq` and `rdma_resolve_route`. -/
structure addr_resolved_outcome where
  query_device : Int
  max_qp_init_rd_atom : Nat
  create_qp : call_result
  max_send_wr : Nat
  send_cq_channel : Int
  resize_cq : call_result
  resolve_route : call_result
deriving DecidableEq

/-- What `on_server_addr_resolved` does to the connection itself; `inserted`
tells whether the function got as far as inserting the connection in the
sequence sorted by completion fd. -/
structure addr_resolved_result where
  conn_ctx : server_connection_context
  error_records : List error_record
  rc : Int
  inserted : Bool
deriving DecidableEq

/-- The part of `on_server_addr_resolved` that acts on the connection. -/
def on_server_addr_resolved_conn (min_ack_part : Nat) (env : addr_resolved_outcome)
    (conn_ctx : server_connection_context) (error_records : List error_record) :
    addr_resolved_result :=
  if env.query_device ≠ 0 then
    ⟨conn_ctx, MSG_ERROR error_records env.query_device "ibv_query_device", -1, false⟩
  else
    let c1 := set_max_posted_wr min_ack_part conn_ctx
      (min conn_ctx.max_posted_wr env.max_qp_init_rd_atom)
    if env.create_qp.rc ≠ 0 then
      ⟨c1, MSG_ERROR error_records env.create_qp.errno "rdma_create_qp", -1, false⟩
    else
      let c2 := { c1 with id := { c1.id with send_cq_channel := some env.send_cq_channel } }
      let c3 := set_max_posted_wr min_ack_part c2 (min c2.max_posted_wr env.max_send_wr)
      if env.resize_cq.rc ≠ 0 then
        ⟨c3, MSG_ERROR error_records env.resize_cq.errno "ibv_resize_cq", -1, false⟩
      else if env.resolve_route.rc ≠ 0 then
        ⟨c3, MSG_ERROR error_records env.resolve_route.errno "rdma_resolve_route",
          env.resolve_route.rc, true⟩
      else ⟨c3, error_records, env.resolve_route.rc, true⟩

/-- The completion fd of the connection at `p` (`id->send_cq_channel->fd`).
Every connection of the sorted sequence has a completion channel. -/
def comp_ch_fd (context : spectrum_reader_context_) (p : Nat) : Int :=
  ((conn_at context p).bind (fun c => c.id.send_cq_channel)).getD 0

/-- `g_sequence_insert_sorted` with `compare_server_comp_ch_fd` (GLib): on a
sorted sequence the new element goes behind the elements that do not compare
greater. -/
def g_sequence_insert_sorted (context : spectrum_reader_context_) : List Nat → Nat → List Nat
  | [], p => [p]
  | q :: rest, p =>
    if comp_ch_fd context q - comp_ch_fd context p ≤ 0 then
      q :: g_sequence_insert_sorted context rest p
    else p :: q :: rest

/-- `on_server_addr_resolved` for the connection at `p`. -/
def on_server_addr_resolved (env : addr_resolved_outcome) (context : spectrum_reader_context_)
    (p : Nat) (error_records : List error_record) : handler_result :=
  match conn_at context p with
  | none => ⟨context, error_records, -1⟩
  | some c =>
    let r := on_server_addr_resolved_conn context.shared.config.rdma_read_min_ack_part env c
      error_records
    let context1 := conn_store context p r.conn_ctx
    if r.inserted then
      ⟨{ context1 with
          fd_connections :=
            context1.fd_connections.map (fun seq => g_sequence_insert_sorted context1 seq p) },
        r.error_records, r.rc⟩
    else ⟨context1, r.error_records, r.rc⟩

/-- The outcome of the library calls of `on_server_route_resolved`: the table
of memory regions registered by `register_spectrum_buffer_pools` (`none` for a
null result), the return code of `ibv_req_notify_cq` and the result of
`rdma_connect`. -/
structure route_resolved_outcome where
  mrs : Option (List (Nat × Nat))
  req_notify_cq : Int
  connect : call_result
deriving DecidableEq

/-- An edit of the staging pollset: it is first filled with a copy of the
active pollset when it is empty. -/
def staged_pollfds (context : spectrum_reader_context_) : List pollfd :=
  if context.new_pollfds.length = 0 then context.new_pollfds ++ context.pollfds
  else context.new_pollfds

/-- `on_server_route_resolved` for the connection at `p`. -/
def on_server_route_resolved (env : route_resolved_outcome) (context : spectrum_reader_context_)
    (p : Nat) (error_records : List error_record) : handler_result :=
  match conn_at context p with
  | none => ⟨context, error_records, -1⟩
  | some c =>
    let context1 := conn_store context p { c with mrs := env.mrs }
    match env.mrs with
    | none => ⟨context1, error_records, -1⟩
    | some _ =>
      let fd := comp_ch_fd context1 p
      let context2 :=
        { context1 with new_pollfds := staged_pollfds context1 ++ [⟨fd, POLLIN, 0⟩] }
      if env.req_notify_cq ≠ 0 then
        ⟨context2, MSG_ERROR error_records env.req_notify_cq "ibv_req_notify_cq",
          env.req_notify_cq⟩
      else if env.connect.rc ≠ 0 then
        ⟨context2, MSG_ERROR error_records env.connect.errno "rdma_connect", env.connect.rc⟩
      else ⟨context2, error_records, env.connect.rc⟩

/-! ### Lookup by completion fd -/

/-- `g_sequence_search` with `compare_server_comp_ch_fd` (GLib): the position
of the first element of a sorted sequence that compares greater than the
needle, the length of the sequence when there is none. -/
def g_sequence_search (context : spectrum_reader_context_) (seq : List Nat) (fd : Int) : Nat :=
  (seq.takeWhile (fun q => decide (comp_ch_fd context q - fd ≤ 0))).length

/-- `find_server_connection_context_iter`: the position found by the search,
moved one back unless it is the begin position. -/
def find_server_connection_context_iter (context : spectrum_reader_context_) (fd : Int) : Nat :=
  let iter := g_sequence_search context (context.fd_connections.getD []) fd
  if iter ≠ 0 then iter - 1 else iter

/-- `find_server_connection_context`: no connection when the position is the
end of the sequence, else the connection at that position. -/
def find_server_connection_context (context : spectrum_reader_context_) (fd : Int) :
    Option Nat :=
  (context.fd_connections.getD [])[find_server_connection_context_iter context fd]?

/-! ### Completing a disconnect -/

/-- The outcome of the library calls of `complete_server_disconnect`: the
result of `rdma_dereg_mr` for each memory region and of `rdma_destroy_id`. -/
structure teardown_outcome where
  dereg_mr : Nat → call_result
  destroy_id : call_result

/-- The loop over the table of memory regions in
`complete_server_disconnect`. -/
def dereg_mrs (dereg_mr : Nat → call_result) :
    List (Nat × Nat) → List error_record → List error_record
  | [], error_records => error_records
  | e :: rest, error_records =>
    dereg_mrs dereg_mr rest
      (if (dereg_mr e.2).rc ≠ 0 then MSG_ERROR error_records (dereg_mr e.2).errno "rdma_dereg_mr"
       else error_records)

/-- The loop of `complete_server_disconnect` over the staging pollset: the
first entry with the given fd is removed. -/
def remove_pollfd (fd : Int) : List pollfd → List pollfd
  | [] => []
  | pfd :: rest => if pfd.fd = fd then rest else pfd :: remove_pollfd fd rest

/-- `complete_server_disconnect` for the connection at `p`: the connection
leaves the registry, the sorted sequence and the staging pollset, its
completion events are acknowledged, its memory regions deregistered, its id
destroyed and its context released.  `none` when the connection has no
completion channel (the C code dereferences a null pointer). -/
def complete_server_disconnect (env : teardown_outcome) (context : spectrum_reader_context_)
    (p : Nat) (error_records : List error_record) : Option handler_result :=
  match conn_at context p with
  | none => none
  | some c =>
    match c.id.send_cq_channel with
    | none => none
    | some fd =>
      let removed := (connections_lookup context.connections c.id.dst_sin).isSome
      let errs1 :=
        if removed then error_records
        else MSG_ERROR error_records (-1) "failed to remove server connection record from client"
      let iter := find_server_connection_context_iter context fd
      let c1 := ack_completions { c with reqs := [] } 1
      let errs2 :=
        match c.mrs with
        | some mrs => dereg_mrs env.dereg_mr mrs errs1
        | none => errs1
      let errs3 :=
        if env.destroy_id.rc ≠ 0 then MSG_ERROR errs2 env.destroy_id.errno "rdma_destroy_id"
        else errs2
      some
        ⟨{ context with
            connections := context.connections.map (fun t => table_remove t c.id.dst_sin)
            fd_connections := context.fd_connections.map (fun seq => seq.eraseIdx iter)
            new_pollfds := remove_pollfd fd (staged_pollfds context)
            heap := table_remove context.heap p
            shared := { context.shared with closed := context.shared.closed ++ [c1] } },
          errs3, if errs3 ≠ [] then -1 else 0⟩

/-! ### Read completions -/

/-- The outcome of the library calls of `on_read_completion`: the result of
`ibv_get_cq_event`, the return code of `ibv_req_notify_cq`, what `ibv_poll_cq`
yields, the time at which the access timer is restarted, the outcomes of the
posting loop, and the outcomes of the teardown. -/
structure completion_outcome where
  get_cq_event : call_result
  req_notify_cq : Int
  polled : ibv_poll_cq_result
  now : Nat
  post : Nat → post_outcome
  teardown : teardown_outcome

/-- The part of `get_completed_requests` that acts on the connection once it
has been found: acquire the completion event, count it, acknowledge in bulk,
re-arm the completion queue and reap.  `none` when the assertion of
`poll_completions` fails. -/
def get_completed_requests_conn (md5 : List Nat → List Nat) (env : completion_outcome)
    (conn_ctx : server_connection_context) (error_records : List error_record) :
    Option poll_result :=
  if env.get_cq_event.rc ≠ 0 then
    some ⟨conn_ctx, [], MSG_ERROR error_records env.get_cq_event.errno "ibv_get_cq_event",
      env.get_cq_event.rc⟩
  else
    let c1 := { conn_ctx with
      id := { conn_ctx.id with cq_events_acquired := conn_ctx.id.cq_events_acquired + 1 }
      num_not_ack := conn_ctx.num_not_ack + 1 }
    let c2 := ack_completions c1 c1.min_ack
    if env.req_notify_cq ≠ 0 then
      some ⟨c2, [], MSG_ERROR error_records env.req_notify_cq "ibv_req_notify_cq",
        env.req_notify_cq⟩
    else poll_completions md5 c2 env.polled error_records

/-- What `get_completed_requests` leaves behind: the context, the connection
pointer `*conn_ctx`, the list `*reqs`, the error records and the return
code. -/
structure completed_result where
  context : spectrum_reader_context_
  conn_ctx : Option Nat
  reqs : List rdma_req
  error_records : List error_record
  rc : Int
deriving DecidableEq

/-- `get_completed_requests`: look the connection up by completion fd and reap
its completion queue. -/
def get_completed_requests (md5 : List Nat → List Nat) (env : completion_outcome)
    (context : spectrum_reader_context_) (fd : Int) (error_records : List error_record) :
    Option completed_result :=
  match find_server_connection_context context fd with
  | none =>
    some ⟨context, none, [],
      MSG_ERROR error_records (-1) "failed to find server context for read completion", -1⟩
  | some p =>
    match conn_at context p with
    | none => none
    | some c =>
      (get_completed_requests_conn md5 env c error_records).map
        (fun r => ⟨conn_store context p r.conn_ctx, some p, r.reqs, r.error_records, r.rc⟩)

/-- `on_read_completion` for the pollset entry with index `pfd`: reap the
completions of the entry's connection, restart its access timer, post further
reads, deliver the reaped requests from the head of the list, and complete the
disconnect of a connection that is not established and has nothing posted. -/
def on_read_completion (md5 : List Nat → List Nat) (env : completion_outcome)
    (context : spectrum_reader_context_) (pfd : Nat) (error_records : List error_record) :
    Option handler_result :=
  match context.pollfds[pfd]? with
  | none => none
  | some pollfd =>
    match get_completed_requests md5 env context pollfd.fd error_records with
    | none => none
    | some g =>
      if g.rc ≠ 0 then some ⟨g.context, g.error_records, g.rc⟩
      else
        match g.conn_ctx with
        | none => none
        | some p =>
          match conn_at g.context p with
          | none => none
          | some c =>
            let post := post_server_reads env.post { c with last_access := env.now }
              g.error_records
            let context1 :=
              log_freed (log_posted (conn_store g.context p post.conn_ctx) post.posted) post.freed
            if post.rc ≠ 0 then some ⟨context1, post.error_records, post.rc⟩
            else
              let context2 := log_freed
                { context1 with
                  shared := { context1.shared with
                    queues := deliver_completions g.reqs context1.shared.queues } }
                g.reqs
              if post.conn_ctx.established = false ∧ post.conn_ctx.num_posted_wr = 0 then
                complete_server_disconnect env.teardown context2 p post.error_records
              else some ⟨context2, post.error_records, post.rc⟩

/-! ## Operations on one connection -/

/-- The part of `on_signal_message` that acts on the connection found for the
signal's address: when the connection is established or requests are
backlogged before connection (`find_connection` hands out the FIFO), the loop
appends the read requests of the signal. -/
def on_signal_message_conn (config : vysmaw_configuration) (payload : signal_msg_payload)
    (consumers : List (List consumer)) (conn_ctx : server_connection_context) :
    server_connection_context :=
  if (conn_ctx.established || config.preconnect_backlog) = true then
    { conn_ctx with
      reqs := (on_signal_message_loop payload payload.num_spectra payload.infos consumers
        conn_ctx.reqs).1 }
  else conn_ctx

/-- The reactor operations that act on a connection after it has been opened,
each with the outcomes of its library calls: the three connection-manager
events of the handshake, signal intake, `post_server_reads`, the reaping of
the completion queue by `get_completed_requests`, the restart of the access
timer, and `begin_server_disconnect`.  Read-completion handling is a reap, a
restart of the access timer and a post. -/
inductive conn_op where
  | addr_resolved (env : addr_resolved_outcome)
  | route_resolved (env : route_resolved_outcome)
  | established (rkey : Nat) (initiator_depth : Nat) (env : Nat → post_outcome)
  | signal (payload : signal_msg_payload) (consumers : List (List consumer))
  | post (env : Nat → post_outcome)
  | reap (env : completion_outcome)
  | access (now : Nat)
  | begin_disconnect (disc : call_result)

/-- The effect of one operation on the connection.  `none` when the assertion
of `poll_completions` fails, that is when a reap yields more completions than
reads are outstanding. -/
def conn_step (config : vysmaw_configuration) (md5 : List Nat → List Nat) :
    conn_op → server_connection_context → Option server_connection_context
  | conn_op.addr_resolved env, c =>
    some (on_server_addr_resolved_conn config.rdma_read_min_ack_part env c []).conn_ctx
  | conn_op.route_resolved env, c => some { c with mrs := env.mrs }
  | conn_op.established rkey initiator_depth env, c =>
    some (on_server_established config.rdma_read_min_ack_part env c rkey initiator_depth
      []).conn_ctx
  | conn_op.signal payload consumers, c => some (on_signal_message_conn config payload consumers c)
  | conn_op.post env, c => some (post_server_reads env c []).conn_ctx
  | conn_op.reap env, c =>
    (get_completed_requests_conn md5 env c []).map (fun r => r.conn_ctx)
  | conn_op.access now, c => some { c with last_access := now }
  | conn_op.begin_disconnect disc, c => some (begin_server_disconnect disc c []).conn_ctx

/-- The effect of a sequence of operations, first operation first. -/
def conn_run (config : vysmaw_configuration) (md5 : List Nat → List Nat) :
    List conn_op → server_connection_context → Option server_connection_context
  | [], c => some c
  | op :: ops, c => (conn_step config md5 op c).bind (conn_run config md5 ops)

/-- The operations other than the handshake events. -/
def conn_op.neutral : conn_op → Bool
  | conn_op.addr_resolved _ => false
  | conn_op.route_resolved _ => false
  | conn_op.established _ _ _ => false
  | _ => true

/-! ## The loop without poll events -/

/-- What one iteration of `spectrum_reader_loop` receives when `poll` reports
no event: the message popped from the request queue (`none` when the queue is
empty) and the outcomes of the library calls of its handling. -/
structure tick_input where
  msg : Option data_path_message
  open_env : open_outcome
  env : quit_outcome

/-- The loop condition of `spectrum_reader_loop`: the state is done and the
registry is null or empty. -/
def loop_quit (context : spectrum_reader_context_) : Bool :=
  decide (context.state = run_state.STATE_DONE) &&
    (match context.connections with
     | none => true
     | some t => decide (t.length = 0))

/-- One iteration of `spectrum_reader_loop` in which `poll` reports no event
(`nfd = 0`, so `rc = 0`): a message popped from the request queue is
dispatched, and a non-zero result takes the reactor to the quit state.  The
return code of the result is the value the iteration leaves in `result`, 0
when it leaves `result` alone.  `none` when an assertion fails. -/
def message_tick (input : tick_input) (context : spectrum_reader_context_)
    (error_records : List error_record) : Option handler_result :=
  let r1 : Option handler_result :=
    match input.msg with
    | some msg => on_data_path_message input.open_env input.env context msg error_records
    | none => some ⟨context, error_records, 0⟩
  r1.bind (fun r =>
    if r.rc ≠ 0 then
      (to_quit_state input.env r.context none r.error_records).map
        (fun q => ⟨q.context, q.error_records, -1⟩)
    else some ⟨r.context, r.error_records, 0⟩)

/-- Iterations of `spectrum_reader_loop` without poll events, one per input,
until the loop condition ends the loop.  The return code accumulates the
loop's `result`. -/
def message_ticks : List tick_input → handler_result → Option handler_result
  | [], r => some r
  | input :: inputs, r =>
    (message_tick input r.context r.error_records).bind (fun r1 =>
      let r2 : handler_result := ⟨r1.context, r1.error_records, if r1.rc ≠ 0 then -1 else r.rc⟩
      if loop_quit r1.context = true then some r2 else message_ticks inputs r2)

/-! ## Example data -/

/-- Data info of the example spectrum with timestamp `t`. -/
def example_info (t : Nat) : vysmaw_data_info := ⟨1, (0, 1), 0, 0, t⟩

/-- A posted example request with timestamp `t`, for consumer 7: its message
is a valid-buffer message with an empty buffer, its expected digest is
`digest`. -/
def example_req (t : Nat) (digest : List Nat) : rdma_req where
  data_info := example_info t
  spectrum_info := ⟨t, t, digest⟩
  result := rdma_req_result.RDMA_REQ_SUCCESS
  status := 0
  consumers := [7]
  message := some ⟨vysmaw_message_type.VYSMAW_MESSAGE_VALID_BUFFER, example_info t, 0, some [], 0⟩

/-- An established example connection to the server `1:1` with completion fd
`fd`, a credit ceiling of 4, `posted` reads outstanding and the pending FIFO
`reqs`. -/
def example_conn (fd : Int) (posted : Nat) (reqs : List rdma_req) : server_connection_context where
  id := ⟨⟨1, 1⟩, some fd, 0, 0⟩
  wcs := some 4
  mrs := some []
  rkey := 9
  established := true
  max_posted_wr := 4
  num_posted_wr := posted
  reqs := reqs
  num_not_ack := 0
  min_ack := 4
  last_access := 0

/-- An example configuration: a credit ceiling of 4 and no backlog before
connection. -/
def example_config : vysmaw_configuration := ⟨1000, 1000, 4, 1, false, 60⟩

/-- The example reactor context in state run with the given registry, sorted
sequence and heap; the pollset has the two fixed entries and one entry for the
completion fd 5. -/
def example_context (config : vysmaw_configuration) (connections : List (sockaddr_in × Nat))
    (fd_connections : List Nat) (heap : List (Nat × server_connection_context)) :
    spectrum_reader_context_ where
  shared := ⟨config, 2, [], [], [], [], 0, [], [], []⟩
  state := run_state.STATE_RUN
  quit_msg := none
  end_msg := none
  pollfds := [⟨3, POLLIN, 0⟩, ⟨4, POLLIN, 0⟩, ⟨5, POLLIN, POLLIN⟩]
  new_pollfds := []
  event_channel := some 3
  connections := some connections
  fd_connections := some fd_connections
  heap := heap

/-- Library outcomes in which every call succeeds and the buffer pool hands
out an empty buffer of pool 0. -/
def post_ok : Nat → post_outcome := fun _ => ⟨some ⟨0, 0, []⟩, ⟨0, 0⟩⟩

/-- Teardown outcomes in which every call succeeds. -/
def teardown_ok : teardown_outcome := ⟨fun _ => ⟨0, 0⟩, ⟨0, 0⟩⟩

/-- Completion outcomes in which every call succeeds and `ibv_poll_cq` yields
the completions `wcs`. -/
def completion_ok (wcs : List ibv_wc) : completion_outcome :=
  ⟨⟨0, 0⟩, 0, ibv_poll_cq_result.completions wcs, 1, post_ok, teardown_ok⟩

/-- A checksum function for examples: the digest of every buffer is empty. -/
def example_md5 : List Nat → List Nat := fun _ => []

/-- A checksum function for examples: the digest of every buffer is sixteen
zero bytes. -/
def zero_md5 : List Nat → List Nat := fun _ => List.replicate 16 0

/-- Three example completions: a successful read whose digest matches, a
successful read whose expected digest differs, and a failed read with status
5. -/
def three_completions : List ibv_wc :=
  [⟨example_req 1 (List.replicate 16 0), IBV_WC_SUCCESS⟩,
   ⟨example_req 2 (List.replicate 16 1), IBV_WC_SUCCESS⟩,
   ⟨example_req 3 (List.replicate 16 0), 5⟩]

/-- A configuration for examples with a credit ceiling of 256, an
acknowledgement part of 4 and backlog before connection. -/
def backlog_config : vysmaw_configuration := ⟨1000, 1000, 256, 4, true, 60⟩

/-- Handshake outcomes for examples: every call succeeds, the device allows
64 outstanding reads, the queue pair is created with 64 send work requests and
the completion fd 5. -/
def addr_resolved_ok : addr_resolved_outcome := ⟨0, 64, ⟨0, 0⟩, 64, 5, ⟨0, 0⟩, ⟨0, 0⟩⟩

/-- An example signal from the server `1:1` announcing three spectra. -/
def example_payload : signal_msg_payload :=
  ⟨⟨1, 1⟩, 1, (0, 1), 0, 0, 3, [⟨10, 1, []⟩, ⟨20, 2, []⟩, ⟨30, 3, []⟩]⟩

/-- An example life of a connection: a signal is backlogged, the handshake
completes with a peer depth of 2, a further signal arrives, a completion is
reaped and further reads are posted, and the disconnect is begun. -/
def example_life : List conn_op :=
  [conn_op.signal example_payload [[7], [], [8]],
   conn_op.addr_resolved addr_resolved_ok,
   conn_op.route_resolved ⟨some [(0, 1)], 0, ⟨0, 0⟩⟩,
   conn_op.established 9 2 post_ok,
   conn_op.signal example_payload [[7], [7], [7]],
   conn_op.reap (completion_ok [⟨example_req 1 [], IBV_WC_SUCCESS⟩]),
   conn_op.access 2,
   conn_op.post post_ok,
   conn_op.begin_disconnect ⟨0, 0⟩]

/-- Outcomes of opening a connection in which every call succeeds and the new
connection context is placed at address 100. -/
def open_ok : open_outcome := ⟨⟨0, 0⟩, ⟨0, 0⟩, 100, 0⟩

/-- Quit outcomes for examples: every call succeeds and a new control message
is placed at address 200. -/
def quit_ok : quit_outcome := ⟨fun _ => ⟨0, 0⟩, 200, ⟨0, 0⟩⟩

/-- A connection that is still resolving its address (it has no completion
channel and is not in the sorted sequence) with one backlogged request. -/
def resolving_conn : server_connection_context :=
  { new_server_connection backlog_config ⟨1, 1⟩ 0 with
    reqs := [new_rdma_req [7] example_payload ⟨10, 1, []⟩] }

/-- A quit message at address 300. -/
def quit_message : data_path_message :=
  data_path_message_new 300 data_path_message_type.DATA_PATH_QUIT 2

/-- An End message at address 200. -/
def end_message : data_path_message :=
  data_path_message_new 200 data_path_message_type.DATA_PATH_END 2

/-- A second quit message, at address 301. -/
def second_quit_message : data_path_message :=
  data_path_message_new 301 data_path_message_type.DATA_PATH_QUIT 2

/-- The example context in state quit with the quit message in the quit slot
and in the loopback pipe, as the first Quit leaves it. -/
def quit_context : spectrum_reader_context_ :=
  { example_context example_config [] [] [] with
    state := run_state.STATE_QUIT
    quit_msg := some quit_message
    shared := ⟨example_config, 2, [quit_message], [], [], [], 0, [], [], []⟩ }

/-! ## Connection-manager event dispatch -/

/-- The event types of the connection manager (`enum rdma_cm_event_type`,
librdmacm). -/
inductive rdma_cm_event_type where
  | RDMA_CM_EVENT_ADDR_RESOLVED
  | RDMA_CM_EVENT_ADDR_ERROR
  | RDMA_CM_EVENT_ROUTE_RESOLVED
  | RDMA_CM_EVENT_ROUTE_ERROR
  | RDMA_CM_EVENT_CONNECT_REQUEST
  | RDMA_CM_EVENT_CONNECT_RESPONSE
  | RDMA_CM_EVENT_CONNECT_ERROR
  | RDMA_CM_EVENT_UNREACHABLE
  | RDMA_CM_EVENT_REJECTED
  | RDMA_CM_EVENT_ESTABLISHED
  | RDMA_CM_EVENT_DISCONNECTED
  | RDMA_CM_EVENT_DEVICE_REMOVAL
  | RDMA_CM_EVENT_MULTICAST_JOIN
  | RDMA_CM_EVENT_MULTICAST_ERROR
  | RDMA_CM_EVENT_ADDR_CHANGE
  | RDMA_CM_EVENT_TIMEWAIT_EXIT
deriving DecidableEq

/-- The name of an event type as `rdma_event_str` gives it (librdmacm). -/
def rdma_event_str : rdma_cm_event_type → String
  | rdma_cm_event_type.RDMA_CM_EVENT_ADDR_RESOLVED => "RDMA_CM_EVENT_ADDR_RESOLVED"
  | rdma_cm_event_type.RDMA_CM_EVENT_ADDR_ERROR => "RDMA_CM_EVENT_ADDR_ERROR"
  | rdma_cm_event_type.RDMA_CM_EVENT_ROUTE_RESOLVED => "RDMA_CM_EVENT_ROUTE_RESOLVED"
  | rdma_cm_event_type.RDMA_CM_EVENT_ROUTE_ERROR => "RDMA_CM_EVENT_ROUTE_ERROR"
  | rdma_cm_event_type.RDMA_CM_EVENT_CONNECT_REQUEST => "RDMA_CM_EVENT_CONNECT_REQUEST"
  | rdma_cm_event_type.RDMA_CM_EVENT_CONNECT_RESPONSE => "RDMA_CM_EVENT_CONNECT_RESPONSE"
  | rdma_cm_event_type.RDMA_CM_EVENT_CONNECT_ERROR => "RDMA_CM_EVENT_CONNECT_ERROR"
  | rdma_cm_event_type.RDMA_CM_EVENT_UNREACHABLE => "RDMA_CM_EVENT_UNREACHABLE"
  | rdma_cm_event_type.RDMA_CM_EVENT_REJECTED => "RDMA_CM_EVENT_REJECTED"
  | rdma_cm_event_type.RDMA_CM_EVENT_ESTABLISHED => "RDMA_CM_EVENT_ESTABLISHED"
  | rdma_cm_event_type.RDMA_CM_EVENT_DISCONNECTED => "RDMA_CM_EVENT_DISCONNECTED"
  | rdma_cm_event_type.RDMA_CM_EVENT_DEVICE_REMOVAL => "RDMA_CM_EVENT_DEVICE_REMOVAL"
  | rdma_cm_event_type.RDMA_CM_EVENT_MULTICAST_JOIN => "RDMA_CM_EVENT_MULTICAST_JOIN"
  | rdma_cm_event_type.RDMA_CM_EVENT_MULTICAST_ERROR => "RDMA_CM_EVENT_MULTICAST_ERROR"
  | rdma_cm_event_type.RDMA_CM_EVENT_ADDR_CHANGE => "RDMA_CM_EVENT_ADDR_CHANGE"
  | rdma_cm_event_type.RDMA_CM_EVENT_TIMEWAIT_EXIT => "RDMA_CM_EVENT_TIMEWAIT_EXIT"

/-- The five event types that `on_cm_event` records as an error. -/
def rdma_cm_event_type.is_error : rdma_cm_event_type → Bool
  | rdma_cm_event_type.RDMA_CM_EVENT_ADDR_ERROR => true
  | rdma_cm_event_type.RDMA_CM_EVENT_ROUTE_ERROR => true
  | rdma_cm_event_type.RDMA_CM_EVENT_CONNECT_ERROR => true
  | rdma_cm_event_type.RDMA_CM_EVENT_UNREACHABLE => true
  | rdma_cm_event_type.RDMA_CM_EVENT_REJECTED => true
  | _ => false

/-- A connection-manager event (`struct rdma_cm_event`) as `on_cm_event` reads
it: the destination address of the event's id, the event type, the first 32
bits of the private data (the peer's key) and the initiator depth. -/
structure rdma_cm_event where
  dst_sin : sockaddr_in
  event : rdma_cm_event_type
  rkey : Nat
  initiator_depth : Nat
deriving DecidableEq

/-- The outcome of the library calls of `on_cm_event`: the result of
`rdma_get_cm_event` and the event it yields, the result of
`rdma_ack_cm_event`, the outcomes of the handler the event is dispatched to,
and the text `inet_ntop` writes for the pointer it is handed. -/
structure cm_event_outcome where
  get_cm_event : call_result
  event : rdma_cm_event
  ack_cm_event : call_result
  addr_resolved : addr_resolved_outcome
  route_resolved : route_resolved_outcome
  post : Nat → post_outcome
  disconnect : call_result
  teardown : teardown_outcome
  addr_text : String

/-- `on_server_established` for the connection at `p`: the handler acts on the
connection; the posted and destroyed requests go to the effect logs. -/
def on_server_established_at (env : Nat → post_outcome) (context : spectrum_reader_context_)
    (p : Nat) (rkey : Nat) (initiator_depth : Nat) (error_records : List error_record) :
    handler_result :=
  match conn_at context p with
  | none => ⟨context, error_records, -1⟩
  | some c =>
    let r := on_server_established context.shared.config.rdma_read_min_ack_part env c rkey
      initiator_depth error_records
    ⟨log_freed (log_posted (conn_store context p r.conn_ctx) r.posted) r.freed,
      r.error_records, r.rc⟩

/-- `begin_server_disconnect` for the connection at `p`. -/
def begin_server_disconnect_at (disc : call_result) (context : spectrum_reader_context_)
    (p : Nat) (error_records : List error_record) : handler_result :=
  match conn_at context p with
  | none => ⟨context, error_records, 0⟩
  | some c =>
    let d := begin_server_disconnect disc c error_records
    ⟨log_freed (conn_store context p d.conn_ctx) d.freed, d.error_records, d.rc⟩

/-- `on_cm_event`: one connection-manager event is taken from the event
channel, acknowledged and dispatched by type.  `none` when the teardown
dereferences a null pointer. -/
def on_cm_event (env : cm_event_outcome) (context : spectrum_reader_context_)
    (error_records : List error_record) : Option handler_result :=
  if env.get_cm_event.rc ≠ 0 then
    some ⟨context, MSG_ERROR error_records env.get_cm_event.errno "rdma_get_cm_event",
      env.get_cm_event.rc⟩
  else
    let conn_ctx := connections_lookup context.connections env.event.dst_sin
    let errs1 :=
      if conn_ctx.isNone then
        MSG_ERROR error_records (-1)
          ("failed to find connection for event " ++ rdma_event_str env.event.event)
      else error_records
    let errs2 :=
      if env.ack_cm_event.rc ≠ 0 then MSG_ERROR errs1 env.ack_cm_event.errno "rdma_ack_cm_event"
      else errs1
    if errs2 ≠ [] then some ⟨context, errs2, -1⟩
    else
      match conn_ctx with
      | none => some ⟨context, errs2, -1⟩
      | some p =>
        match env.event.event with
        | rdma_cm_event_type.RDMA_CM_EVENT_ADDR_RESOLVED =>
          some (on_server_addr_resolved env.addr_resolved context p errs2)
        | rdma_cm_event_type.RDMA_CM_EVENT_ROUTE_RESOLVED =>
          some (on_server_route_resolved env.route_resolved context p errs2)
        | rdma_cm_event_type.RDMA_CM_EVENT_ESTABLISHED =>
          some (on_server_established_at env.post context p env.event.rkey
            env.event.initiator_depth errs2)
        | rdma_cm_event_type.RDMA_CM_EVENT_DISCONNECTED =>
          let b := begin_server_disconnect_at env.disconnect context p errs2
          if b.rc = 0 ∧ ((conn_at b.context p).map (fun c => c.num_posted_wr)) = some 0 then
            complete_server_disconnect env.teardown b.context p b.error_records
          else some b
        | rdma_cm_event_type.RDMA_CM_EVENT_ADDR_ERROR
        | rdma_cm_event_type.RDMA_CM_EVENT_ROUTE_ERROR
        | rdma_cm_event_type.RDMA_CM_EVENT_CONNECT_ERROR
        | rdma_cm_event_type.RDMA_CM_EVENT_UNREACHABLE
        | rdma_cm_event_type.RDMA_CM_EVENT_REJECTED =>
          some ⟨context,
            MSG_ERROR errs2 (-1) (rdma_event_str env.event.event ++ " on " ++ env.addr_text),
            -1⟩
        | _ => some ⟨context, errs2, env.ack_cm_event.rc⟩

/-! ## The inactivity timer -/

/-- The outcome of the library calls of `on_inactivity_timer_event`: the time
at which the timers are read and the result of `rdma_disconnect` for the
connection at each address. -/
structure inactivity_outcome where
  now : Nat
  disconnect : Nat → call_result

/-- The elapsed time of the access timer of a connection (`g_timer_elapsed`)
at time `now`. -/
def g_timer_elapsed (conn_ctx : server_connection_context) (now : Nat) : Nat :=
  now - conn_ctx.last_access

/-- The sweep of `on_inactivity_timer_event` over the entries of the registry
(`g_hash_table_foreach` with `disconnect_inactive`): the disconnect is begun on
each connection whose access timer has run for at least the timeout. -/
def disconnect_inactive_loop (env : inactivity_outcome) (timeout : Nat) :
    List (sockaddr_in × Nat) → spectrum_reader_context_ × List error_record →
      spectrum_reader_context_ × List error_record
  | [], st => st
  | e :: rest, st =>
    match conn_at st.1 e.2 with
    | some c =>
      if g_timer_elapsed c env.now ≥ timeout then
        let d := begin_server_disconnect (env.disconnect e.2) c st.2
        disconnect_inactive_loop env timeout rest
          (log_freed (conn_store st.1 e.2 d.conn_ctx) d.freed, d.error_records)
      else disconnect_inactive_loop env timeout rest st
    | none => disconnect_inactive_loop env timeout rest st

/-- `on_inactivity_timer_event`: the timer counter is drained and the registry
is swept. -/
def on_inactivity_timer_event (env : inactivity_outcome) (context : spectrum_reader_context_)
    (error_records : List error_record) : handler_result :=
  let st := disconnect_inactive_loop env context.shared.config.inactive_server_timeout_sec
    (context.connections.getD []) (context, error_records)
  ⟨st.1, st.2, if st.2 ≠ [] then -1 else 0⟩

/-! ## Dispatch of poll events and one iteration of the loop -/

/-- The value of `POLLERR` (`poll.h`). -/
def POLLERR : Nat := 8

/-- The value of `POLLHUP` (`poll.h`). -/
def POLLHUP : Nat := 16

/-- The value of `EINTR` (`errno.h`). -/
def EINTR : Int := 4

/-- The outcome of the library calls of `on_poll_events`: the outcomes of the
connection-manager event, of the inactivity sweep and of the read completion
of each pollset index, and the value that the variable `rc1`, which the loop
over the completion fds leaves unset for an entry without events, is found to
hold at each index. -/
structure poll_events_outcome where
  cm : cm_event_outcome
  timer : inactivity_outcome
  completion : Nat → completion_outcome
  rc1_unset : Nat → Int

/-- The loop of `on_poll_events` over the completion fds, by recursion on the
entries of the active pollset from index `i` on.  The result carries the
return code `rc` of `on_poll_events`. -/
def on_poll_events_loop (md5 : List Nat → List Nat) (env : poll_events_outcome) :
    List pollfd → Nat → handler_result → Option handler_result
  | [], _, r => some r
  | ev_pollfd :: rest, i, r =>
    let h1 : Option handler_result :=
      if ev_pollfd.revents &&& POLLIN ≠ 0 then
        on_read_completion md5 (env.completion i) r.context i r.error_records
      else if ev_pollfd.revents &&& (POLLERR ||| POLLHUP) ≠ 0 then
        some ⟨r.context,
          MSG_ERROR r.error_records (-1) "connection event channel ERR or HUP", -1⟩
      else some ⟨r.context, r.error_records, env.rc1_unset i⟩
    h1.bind (fun h =>
      on_poll_events_loop md5 env rest (i + 1)
        ⟨h.context, h.error_records, if r.rc = 0 ∧ h.rc ≠ 0 then h.rc else r.rc⟩)

/-- The end of `on_poll_events`: a staging pollset that is not empty is
swapped in, and the staging pollset is emptied. -/
def swap_pollfds (context : spectrum_reader_context_) : spectrum_reader_context_ :=
  if context.new_pollfds.length > 0 then
    { context with pollfds := context.new_pollfds, new_pollfds := [] }
  else context

/-- `on_poll_events`: the connection-manager channel, the inactivity timer and
the completion channels are served in this order, then the staging pollset is
swapped in.  `none` when a handler fails an assertion or the pollset lacks its
two fixed entries. -/
def on_poll_events (md5 : List Nat → List Nat) (env : poll_events_outcome)
    (context : spectrum_reader_context_) (error_records : List error_record) :
    Option handler_result :=
  match context.pollfds[0]?, context.pollfds[1]? with
  | some cm_pollfd, some tm_pollfd =>
    let h1 : Option handler_result :=
      if cm_pollfd.revents &&& POLLIN ≠ 0 then on_cm_event env.cm context error_records
      else if cm_pollfd.revents &&& (POLLERR ||| POLLHUP) ≠ 0 then
        some ⟨context, MSG_ERROR error_records (-1) "rdma cm event channel ERR or HUP", -1⟩
      else some ⟨context, error_records, 0⟩
    h1.bind (fun r1 =>
      let r2 : handler_result :=
        if tm_pollfd.revents &&& POLLIN ≠ 0 then
          on_inactivity_timer_event env.timer r1.context r1.error_records
        else r1
      (on_poll_events_loop md5 env (r2.context.pollfds.drop 2) 2 r2).map
        (fun r3 => ⟨swap_pollfds r3.context, r3.error_records, r3.rc⟩))
  | _, _ => none

/-- The outcome of `poll`: its return value, its `errno`, and the events it
reports for the entries of the pollset, in order. -/
structure poll_outcome where
  nfd : Int
  errno : Int
  revents : List Nat
deriving DecidableEq

/-- What one iteration of `spectrum_reader_loop` receives: the outcome of
`poll`, the outcomes of the dispatch of its events, the message popped from
the request queue (`none` when the queue is empty) and the outcomes of its
handling. -/
structure tick_outcome where
  poll : poll_outcome
  events : poll_events_outcome
  msg : Option data_path_message
  open_env : open_outcome
  env : quit_outcome

/-- The events reported by `poll` written to the entries of the pollset. -/
def set_revents : List pollfd → List Nat → List pollfd
  | [], _ => []
  | pfd :: rest, [] => { pfd with revents := 0 } :: set_revents rest []
  | pfd :: rest, ev :: evs => { pfd with revents := ev } :: set_revents rest evs

/-- One iteration of `spectrum_reader_loop`: poll, dispatch of the poll
events, one message from the request queue, and the move to the quit state
when either part reports an error.  The return code of the result is the value
the iteration leaves in `result`, 0 when it leaves `result` alone.  `none` when
an assertion fails. -/
def spectrum_reader_tick (md5 : List Nat → List Nat) (input : tick_outcome)
    (context : spectrum_reader_context_) (error_records : List error_record) :
    Option handler_result :=
  let polled : spectrum_reader_context_ :=
    if input.poll.nfd ≥ 0 then
      { context with pollfds := set_revents context.pollfds input.poll.revents }
    else context
  let h1 : Option handler_result :=
    if input.poll.nfd > 0 then on_poll_events md5 input.events polled error_records
    else if input.poll.nfd < 0 ∧ input.poll.errno ≠ EINTR then
      some ⟨polled, MSG_ERROR error_records input.poll.errno "spectrum_reader poll failed", -1⟩
    else some ⟨polled, error_records, 0⟩
  h1.bind (fun r =>
    let h2 : Option handler_result :=
      match input.msg with
      | some msg => on_data_path_message input.open_env input.env r.context msg r.error_records
      | none => some ⟨r.context, r.error_records, 0⟩
    h2.bind (fun r1 =>
      if r.rc ≠ 0 ∨ r1.rc ≠ 0 then
        (to_quit_state input.env r1.context none r1.error_records).map
          (fun q => ⟨q.context, q.error_records, -1⟩)
      else some ⟨r1.context, r1.error_records, 0⟩))

/-! ## The final result -/

/-- The result codes of a client (`enum result_code` of `vysmaw.h`). -/
inductive vysmaw_result_code where
  | VYSMAW_NO_ERROR
  | VYSMAW_SYSERR
  | VYSMAW_ERROR_BUFFPOOL
deriving DecidableEq

/-- The result carried by the end message (`struct vysmaw_result`):
`syserr_desc` is `none` for a null pointer. -/
structure vysmaw_result where
  code : vysmaw_result_code
  syserr_desc : Option String
deriving DecidableEq

/-- The loop of `spectrum_reader` that appends the description of each error
record and a newline to the string. -/
def append_descriptions : List error_record → String → String
  | [], str => str
  | er :: rest, str => append_descriptions rest (str ++ er.desc ++ "\n")

/-- The end of `spectrum_reader`: the error records of the reactor are put in
front of those attached to the end message, and the result for the end message
of the consumers is made from the combined list.  `none` when the assertion
that the end message exists and is an End message fails. -/
def spectrum_reader_result (error_records : List error_record)
    (end_msg : Option data_path_message) : Option vysmaw_result :=
  match end_msg with
  | none => none
  | some m =>
    if m.typ ≠ data_path_message_type.DATA_PATH_END then none
    else
      let records := error_records ++ m.error_records
      match records with
      | [] => some ⟨vysmaw_result_code.VYSMAW_NO_ERROR, none⟩
      | _ :: _ => some ⟨vysmaw_result_code.VYSMAW_SYSERR, some (append_descriptions records "")⟩

/-- The buffer pool had no buffer for the request of this iteration. -/
def post_outcome.alloc_failed (o : post_outcome) : Bool := o.alloc.isNone

/-- The request of this iteration got a buffer and `rdma_post_read` returned
0. -/
def post_outcome.accepted (o : post_outcome) : Bool := o.alloc.isSome && decide (o.post.rc = 0)

/-- The request of this iteration got a buffer and `rdma_post_read` returned
an error. -/
def post_outcome.post_failed (o : post_outcome) : Bool :=
  o.alloc.isSome && decide (o.post.rc ≠ 0)

/-- Posting outcomes for examples in which the buffer pool hands out a buffer
and `rdma_post_read` fails with return value -1. -/
def post_fails : Nat → post_outcome := fun _ => ⟨some ⟨0, 0, []⟩, ⟨-1, 5⟩⟩

/-- Completion outcomes in which the completion queue yields the completions
`wcs` and the follow-up post fails. -/
def completion_post_fails (wcs : List ibv_wc) : completion_outcome :=
  ⟨⟨0, 0⟩, 0, ibv_poll_cq_result.completions wcs, 1, post_fails, teardown_ok⟩

/-- An inactivity sweep for examples at time 100 in which every
`rdma_disconnect` succeeds. -/
def sweep_ok : inactivity_outcome := ⟨100, fun _ => ⟨0, 0⟩⟩

/-- Connection-manager outcomes in which `rdma_get_cm_event` yields a
REJECTED event for the server `1:1`, every call succeeds and `inet_ntop`
writes the text `1.0.0.0`. -/
def rejected_event : cm_event_outcome :=
  ⟨⟨0, 0⟩, ⟨⟨1, 1⟩, rdma_cm_event_type.RDMA_CM_EVENT_REJECTED, 0, 0⟩, ⟨0, 0⟩, addr_resolved_ok,
    ⟨some [], 0, ⟨0, 0⟩⟩, post_ok, ⟨0, 0⟩, teardown_ok, "1.0.0.0"⟩

/-- A loop iteration in which `poll` reports the connection-manager channel
as the only readable fd, the event is `rejected_event` and the request queue
is empty. -/
def rejected_tick : tick_outcome :=
  ⟨⟨1, 0, [POLLIN]⟩, ⟨rejected_event, sweep_ok, fun _ => completion_ok [], fun _ => 0⟩, none,
    open_ok, quit_ok⟩

/-- A connection to the server `1:1` that waits for its ESTABLISHED event,
with completion fd 5 and one backlogged read request. -/
def connecting_conn : server_connection_context :=
  { example_conn 5 0 [example_req 1 []] with established := false }

/-- An established connection to the server `2:2` with completion fd 6, one
read posted and one pending read request. -/
def other_conn : server_connection_context :=
  { example_conn 6 1 [example_req 2 []] with id := ⟨⟨2, 2⟩, some 6, 0, 0⟩ }

/-- A reactor in state run with the connections `connecting_conn` (address
100) and `other_conn` (address 101), both registered and in the fd index. -/
def two_context : spectrum_reader_context_ :=
  { example_context example_config [(⟨1, 1⟩, 100), (⟨2, 2⟩, 101)] [100, 101]
      [(100, connecting_conn), (101, other_conn)] with
    pollfds := [⟨3, POLLIN, 0⟩, ⟨4, POLLIN, 0⟩, ⟨5, POLLIN, 0⟩, ⟨6, POLLIN, 0⟩] }

/-! ## Edits of the pollset -/

/-- An edit of the staging pollset: the append of an entry
(`g_array_append_val` in `on_server_route_resolved`) or the removal of the
first entry with a given fd (the loop of `complete_server_disconnect`). -/
inductive pollset_edit where
  | append (pfd : pollfd)
  | remove (fd : Int)
deriving DecidableEq

/-- The effect of an edit on a pollset. -/
def pollset_edit.apply : pollset_edit → List pollfd → List pollfd
  | pollset_edit.append pfd, l => l ++ [pfd]
  | pollset_edit.remove fd, l => remove_pollfd fd l

/-- No connection of the heap has `fd0` or `fd1` as its completion fd: the fds
of the connection-manager channel and of the inactivity timer are not
completion fds. -/
def channels_apart (fd0 fd1 : Int) (heap : List (Nat × server_connection_context)) : Prop :=
  ∀ e ∈ heap, e.2.id.send_cq_channel ≠ some fd0 ∧ e.2.id.send_cq_channel ≠ some fd1

instance channels_apart_decidable (fd0 fd1 : Int)
    (heap : List (Nat × server_connection_context)) :
    Decidable (channels_apart fd0 fd1 heap) := by
  unfold channels_apart
  infer_instance

/-- Dispatch outcomes in which every call succeeds, no completion is reaped
and the variable `rc1` is found to hold 0. -/
def idle_events : poll_events_outcome :=
  ⟨rejected_event, sweep_ok, fun _ => completion_ok [], fun _ => 0⟩

/-! ## The loop -/

/-- `spectrum_reader_loop`: iterations of the loop, one per input, until the
loop condition ends the loop.  The return code accumulates the loop's
`result`.  `none` when an assertion fails. -/
def spectrum_reader_loop (md5 : List Nat → List Nat) :
    List tick_outcome → handler_result → Option handler_result
  | [], r => some r
  | input :: inputs, r =>
    (spectrum_reader_tick md5 input r.context r.error_records).bind (fun r1 =>
      let r2 : handler_result := ⟨r1.context, r1.error_records, if r1.rc ≠ 0 then -1 else r.rc⟩
      if loop_quit r1.context = true then some r2 else spectrum_reader_loop md5 inputs r2)

/-- The reactor as `spectrum_reader` hands it to the loop: state run, an empty
registry, and a pollset with the two fixed entries. -/
def start_context (config : vysmaw_configuration) : spectrum_reader_context_ :=
  { example_context config [] [] [] with
    pollfds := [⟨3, POLLIN, 0⟩, ⟨4, POLLIN, 0⟩] }

/-- A signal control message at address `addr`. -/
def signal_message (addr : Nat) (payload : signal_msg_payload)
    (consumers : List (List consumer)) : data_path_message :=
  { data_path_message_new addr data_path_message_type.DATA_PATH_SIGNAL_MSG 0 with
    signal_msg := ⟨payload⟩
    consumers := consumers }

/-- A loop iteration in which `poll` reports no event and the message `msg` is
popped from the request queue; every library call succeeds. -/
def message_input (msg : data_path_message) : tick_outcome :=
  ⟨⟨0, 0, []⟩, idle_events, some msg, open_ok, quit_ok⟩

/-- Connection-manager outcomes in which `rdma_get_cm_event` yields the event
`ev` for the server `1:1`, with key 9 and initiator depth 4 in its connection
parameters, and every call succeeds. -/
def cm_event_ok (ev : rdma_cm_event_type) : cm_event_outcome :=
  ⟨⟨0, 0⟩, ⟨⟨1, 1⟩, ev, 9, 4⟩, ⟨0, 0⟩, addr_resolved_ok, ⟨some [(0, 1)], 0, ⟨0, 0⟩⟩, post_ok,
    ⟨0, 0⟩, teardown_ok, "1.0.0.0"⟩

/-- A loop iteration in which `poll` reports the connection-manager channel
as the only readable fd, the event is `ev` for the server `1:1`, and the
request queue is empty. -/
def cm_input (ev : rdma_cm_event_type) : tick_outcome :=
  ⟨⟨1, 0, [POLLIN]⟩, ⟨cm_event_ok ev, sweep_ok, fun _ => completion_ok [], fun _ => 0⟩, none,
    open_ok, quit_ok⟩

/-- A loop iteration in which `poll` fails with `EBADF` and the request queue
is empty. -/
def poll_failure_input : tick_outcome :=
  ⟨⟨-1, 9, []⟩, idle_events, none, open_ok, quit_ok⟩

/-- A shutdown while a connection is still resolving its address: a signal
from the server `1:1` opens a connection, the client's Quit arrives, comes
back through the loopback pipe and is answered with the End message, and the
End message arrives. -/
def shutdown_inputs : List tick_outcome :=
  [message_input (signal_message 400 example_payload [[7], [], [8]]),
   message_input quit_message,
   message_input quit_message,
   message_input end_message]

/-- A loop iteration in which `poll` reports the completion fd at pollset
index 2 as the only readable fd, `ibv_poll_cq` yields the completions `wcs`,
every library call succeeds and the request queue is empty. -/
def completion_input (wcs : List ibv_wc) : tick_outcome :=
  ⟨⟨1, 0, [0, 0, POLLIN]⟩,
    ⟨cm_event_ok rdma_cm_event_type.RDMA_CM_EVENT_ESTABLISHED, sweep_ok,
      fun _ => completion_ok wcs, fun _ => 0⟩,
    none, open_ok, quit_ok⟩

/-- A life of a reactor that backlogs requests before connection: a signal
from the server `1:1` with two requests opens a connection; the handshake
completes and the two requests are posted; the peer disconnects, so the
disconnect of the connection is begun with two reads outstanding; a further
signal from `1:1` brings three requests. -/
def peer_disconnect_inputs : List tick_outcome :=
  [message_input (signal_message 400 example_payload [[7], [], [8]]),
   cm_input rdma_cm_event_type.RDMA_CM_EVENT_ADDR_RESOLVED,
   cm_input rdma_cm_event_type.RDMA_CM_EVENT_ROUTE_RESOLVED,
   cm_input rdma_cm_event_type.RDMA_CM_EVENT_ESTABLISHED,
   cm_input rdma_cm_event_type.RDMA_CM_EVENT_DISCONNECTED,
   message_input (signal_message 401 example_payload [[7], [7], [7]])]

theorem table_lookup_insert_same {κ ν : Type} [DecidableEq κ] (t : List (κ × ν)) (k : κ) (v : ν) :
    table_lookup (table_insert t k v) k = some v := by
  induction t with
  | nil => simp [table_insert, table_lookup]
  | cons e rest ih =>
    by_cases h : e.1 = k
    · simp [table_insert, table_lookup, h]
    · simp [table_insert, table_lookup, h, ih]

theorem table_lookup_insert_other {κ ν : Type} [DecidableEq κ] (t : List (κ × ν)) (k k' : κ)
    (v : ν) (hk : k' ≠ k) : table_lookup (table_insert t k v) k' = table_lookup t k' := by
  induction t with
  | nil => simp [table_insert, table_lookup, Ne.symm hk]
  | cons e rest ih =>
    by_cases h : e.1 = k
    · have h' : ¬ e.1 = k' := fun h2 => hk (h2.symm.trans h)
      simp [table_insert, table_lookup, h, h', Ne.symm hk]
    · simp only [table_insert, h, if_false, table_lookup, ih]

theorem table_insert_lookup_self {κ ν : Type} [DecidableEq κ] (t : List (κ × ν)) (k : κ) (v : ν)
    (h : table_lookup t k = some v) : table_insert t k v = t := by
  induction t with
  | nil => simp [table_lookup] at h
  | cons e rest ih =>
    by_cases hk : e.1 = k
    · simp only [table_lookup, hk, if_true, Option.some.injEq] at h
      simp only [table_insert, hk, if_true]
      rw [← hk, ← h]
    · simp only [table_lookup, hk, if_false] at h
      simp [table_insert, hk, ih h]

theorem conn_at_conn_store (context : spectrum_reader_context_) (p : Nat)
    (c : server_connection_context) : conn_at (conn_store context p c) p = some c := by
  simp [conn_at, conn_store, table_lookup_insert_same]

theorem conn_at_conn_store_other (context : spectrum_reader_context_) (p q : Nat)
    (c : server_connection_context) (h : q ≠ p) :
    conn_at (conn_store context p c) q = conn_at context q := by
  simp [conn_at, conn_store, table_lookup_insert_other _ _ _ _ h]

theorem poll_completions_loop_eq (md5 : List Nat → List Nat) (wcs : List ibv_wc)
    (reqs : List rdma_req) :
    poll_completions_loop md5 wcs reqs = (wcs.map (classify_completion md5)).reverse ++ reqs := by
  induction wcs generalizing reqs with
  | nil => simp [poll_completions_loop]
  | cons wc rest ih => simp [poll_completions_loop, ih]

theorem deliver_completions_eq (reqs : List rdma_req) (queues : List queue_push) :
    deliver_completions reqs queues
      = queues ++ reqs.map (fun req => ⟨completion_message req, req.consumers⟩) := by
  induction reqs generalizing queues with
  | nil => simp [deliver_completions]
  | cons req rest ih => simp [deliver_completions, ih]

/-- The delivery loop fed with the list built by the reaping loop pushes the
messages of the completions in the reverse of the order of reaping. -/
theorem deliver_poll_completions_reversed (md5 : List Nat → List Nat) (wcs : List ibv_wc)
    (queues : List queue_push) :
    deliver_completions (poll_completions_loop md5 wcs []) queues
      = queues ++ (wcs.reverse.map
          (fun wc => ⟨completion_message (classify_completion md5 wc), wc.wr_id.consumers⟩)) := by
  rw [deliver_completions_eq, poll_completions_loop_eq]
  simp only [List.append_nil, List.map_reverse, List.map_map]
  congr 2
  apply List.map_congr_left
  intro wc _
  simp only [Function.comp, classify_completion]
  split_ifs <;> rfl

/-! ## Lemmas on read-completion handling -/

theorem post_server_reads_loop_rc_zero (env : Nat → post_outcome) (max_posted_wr : Nat)
    (mrs : Option (List (Nat × Nat))) (rkey : Nat) (henv : ∀ k, (env k).post.rc = 0)
    (reqs : List rdma_req) (k : Nat) (st : post_state) (hst : st.rc = 0) :
    (post_server_reads_loop env max_posted_wr mrs rkey reqs k st).2.rc = 0 := by
  induction reqs generalizing k st with
  | nil => simpa [post_server_reads_loop] using hst
  | cons req rest ih =>
    unfold post_server_reads_loop
    split_ifs with h
    · cases hv : valid_buffer_message_new req.data_info (env k).alloc with
      | none => exact ih _ _ hst
      | some mp =>
        simp only [henv k, if_true]
        exact ih _ _ rfl
    · exact hst

theorem post_server_reads_rc_zero (env : Nat → post_outcome) (conn_ctx : server_connection_context)
    (error_records : List error_record) (henv : ∀ k, (env k).post.rc = 0) :
    (post_server_reads env conn_ctx error_records).rc = 0 :=
  post_server_reads_loop_rc_zero env _ _ _ henv _ _ _ rfl

theorem get_completed_requests_ok (md5 : List Nat → List Nat) (env : completion_outcome)
    (context : spectrum_reader_context_) (fd : Int) (error_records : List error_record)
    (p : Nat) (c : server_connection_context) (wcs : List ibv_wc)
    (hfind : find_server_connection_context context fd = some p)
    (hconn : conn_at context p = some c)
    (hev : env.get_cq_event.rc = 0) (hnotify : env.req_notify_cq = 0)
    (hpoll : env.polled = ibv_poll_cq_result.completions wcs)
    (hn : wcs.length ≤ c.num_posted_wr) :
    ∃ c1 : server_connection_context,
      c1.id.send_cq_channel = c.id.send_cq_channel ∧
      get_completed_requests md5 env context fd error_records
        = some ⟨conn_store context p c1, some p, poll_completions_loop md5 wcs [],
            error_records, 0⟩ := by
  have hack : ∀ (d : server_connection_context) (n : Nat),
      (ack_completions d n).id.send_cq_channel = d.id.send_cq_channel ∧
      (ack_completions d n).num_posted_wr = d.num_posted_wr := by
    intro d n
    unfold ack_completions
    split_ifs <;> simp
  obtain ⟨hch, hnum⟩ := hack
    { c with
      id := { c.id with cq_events_acquired := c.id.cq_events_acquired + 1 }
      num_not_ack := c.num_not_ack + 1 } c.min_ack
  simp only [get_completed_requests, hfind, hconn, get_completed_requests_conn, hev, hnotify,
    hpoll, poll_completions, ne_eq, not_true_eq_false, if_false]
  by_cases hpos : wcs.length > 0
  · have hn' : wcs.length ≤ (ack_completions
        { c with
          id := { c.id with cq_events_acquired := c.id.cq_events_acquired + 1 }
          num_not_ack := c.num_not_ack + 1 } c.min_ack).num_posted_wr := by
      rw [hnum]; exact hn
    simp only [hpos, if_true, ge_iff_le, hn', Option.map_some']
    refine ⟨_, ?_, rfl⟩
    exact hch
  · have hnil : wcs = [] := by
      cases wcs with
      | nil => rfl
      | cons _ _ => simp at hpos
    subst hnil
    simp only [List.length_nil, gt_iff_lt, lt_self_iff_false, if_false, Option.map_some',
      poll_completions_loop]
    refine ⟨_, ?_, rfl⟩
    exact hch

theorem on_read_completion_delivers (md5 : List Nat → List Nat) (env : completion_outcome)
    (context : spectrum_reader_context_) (pfd : Nat) (error_records : List error_record)
    (pollfd : pollfd) (p : Nat) (c : server_connection_context) (chfd : Int) (wcs : List ibv_wc)
    (hpfd : context.pollfds[pfd]? = some pollfd)
    (hfind : find_server_connection_context context pollfd.fd = some p)
    (hconn : conn_at context p = some c)
    (hch : c.id.send_cq_channel = some chfd)
    (hev : env.get_cq_event.rc = 0) (hnotify : env.req_notify_cq = 0)
    (hpoll : env.polled = ibv_poll_cq_result.completions wcs)
    (hn : wcs.length ≤ c.num_posted_wr)
    (hpost : ∀ k, (env.post k).post.rc = 0) :
    ∃ r : handler_result,
      on_read_completion md5 env context pfd error_records = some r ∧
      r.context.shared.queues
        = context.shared.queues ++ wcs.reverse.map
            (fun wc => ⟨completion_message (classify_completion md5 wc), wc.wr_id.consumers⟩) := by
  obtain ⟨c1, hc1, hget⟩ := get_completed_requests_ok md5 env context pollfd.fd error_records
    p c wcs hfind hconn hev hnotify hpoll hn
  have hrc := post_server_reads_rc_zero env.post { c1 with last_access := env.now }
    error_records hpost
  have hq := deliver_poll_completions_reversed md5 wcs context.shared.queues
  simp only [on_read_completion, hpfd, hget, ne_eq, not_true_eq_false, if_false,
    conn_at_conn_store, hrc]
  split_ifs with hdone
  · simp only [complete_server_disconnect, log_freed, log_posted, conn_at, conn_store,
      table_lookup_insert_same]
    have hch' : (post_server_reads env.post { c1 with last_access := env.now }
        error_records).conn_ctx.id.send_cq_channel = some chfd := by
      rw [← hch, ← hc1]; rfl
    simp only [hch']
    exact ⟨_, rfl, hq⟩
  · exact ⟨_, rfl, hq⟩

theorem completion_message_classify (md5 : List Nat → List Nat) (wc : ibv_wc)
    (hmd5 : ∀ b, (md5 b).length = VYSMAW_DATA_DIGEST_SIZE)
    (hdigest : wc.wr_id.spectrum_info.digest.length = VYSMAW_DATA_DIGEST_SIZE)
    (hmsg : ∃ m b, wc.wr_id.message = some m ∧
      m.typ = vysmaw_message_type.VYSMAW_MESSAGE_VALID_BUFFER ∧ m.buffer = some b) :
    completion_message (classify_completion md5 wc)
      = wc.wr_id.message.map (fun m =>
          if wc.status = IBV_WC_SUCCESS then
            if md5 ((m.buffer.getD []).take m.buffer_size) = wc.wr_id.spectrum_info.digest then
              { m with typ := vysmaw_message_type.VYSMAW_MESSAGE_VALID_BUFFER }
            else
              { m with
                typ := vysmaw_message_type.VYSMAW_MESSAGE_DIGEST_FAILURE
                buffer := none }
          else
            { m with
              typ := vysmaw_message_type.VYSMAW_MESSAGE_RDMA_READ_FAILURE
              buffer := none
              wc_status := wc.status }) := by
  obtain ⟨m, b, hm, htyp, hb⟩ := hmsg
  have htake : ∀ x : List Nat, (md5 x).take VYSMAW_DATA_DIGEST_SIZE = md5 x := fun x =>
    List.take_of_length_le (le_of_eq (hmd5 x))
  have htake' : wc.wr_id.spectrum_info.digest.take VYSMAW_DATA_DIGEST_SIZE
      = wc.wr_id.spectrum_info.digest := List.take_of_length_le (le_of_eq hdigest)
  unfold classify_completion
  by_cases hs : wc.status = IBV_WC_SUCCESS
  · by_cases hd : md5 (b.take m.buffer_size) = wc.wr_id.spectrum_info.digest
    · simp [completion_message, verify_digest, hm, hb, hs, hd, htake, htake', ← htyp]
      rw [← hb]
    · simp [completion_message, verify_digest, hm, hb, hs, hd, htake, htake',
        convert_valid_to_digest_failure]
  · simp [completion_message, hm, hs, convert_valid_to_rdma_read_failure]

/-! ## Lemmas on the credit of a connection -/

theorem post_server_reads_loop_num_le (env : Nat → post_outcome) (max_posted_wr : Nat)
    (mrs : Option (List (Nat × Nat))) (rkey : Nat) (reqs : List rdma_req) (k : Nat)
    (st : post_state) (hst : st.num_posted_wr ≤ max_posted_wr) :
    (post_server_reads_loop env max_posted_wr mrs rkey reqs k st).2.num_posted_wr
      ≤ max_posted_wr := by
  induction reqs generalizing k st with
  | nil => simpa [post_server_reads_loop] using hst
  | cons req rest ih =>
    unfold post_server_reads_loop
    split_ifs with h
    · cases hv : valid_buffer_message_new req.data_info (env k).alloc with
      | none => exact ih _ _ hst
      | some mp =>
        have h2 := h.2
        simp only
        split_ifs <;> apply ih <;> simp only <;> omega
    · exact hst

theorem post_server_reads_num_le (env : Nat → post_outcome) (c : server_connection_context)
    (error_records : List error_record) (h : c.num_posted_wr ≤ c.max_posted_wr) :
    (post_server_reads env c error_records).conn_ctx.num_posted_wr
      ≤ (post_server_reads env c error_records).conn_ctx.max_posted_wr :=
  post_server_reads_loop_num_le env _ _ _ _ _ _ h

theorem ack_completions_frame (c : server_connection_context) (n : Nat) :
    (ack_completions c n).num_posted_wr = c.num_posted_wr ∧
    (ack_completions c n).max_posted_wr = c.max_posted_wr ∧
    (ack_completions c n).min_ack = c.min_ack ∧
    (ack_completions c n).established = c.established ∧
    (ack_completions c n).reqs = c.reqs := by
  unfold ack_completions
  split_ifs <;> simp

theorem poll_completions_frame (md5 : List Nat → List Nat) (c : server_connection_context)
    (polled : ibv_poll_cq_result) (error_records : List error_record) (r : poll_result)
    (h : poll_completions md5 c polled error_records = some r) :
    r.conn_ctx.num_posted_wr ≤ c.num_posted_wr ∧
    r.conn_ctx.max_posted_wr = c.max_posted_wr ∧
    r.conn_ctx.min_ack = c.min_ack ∧
    r.conn_ctx.established = c.established ∧
    r.conn_ctx.reqs = c.reqs := by
  unfold poll_completions at h
  cases polled with
  | error errno =>
    simp only [Option.some.injEq] at h
    subst h
    simp
  | completions wcs =>
    simp only at h
    split_ifs at h with h1 h2
    · simp only [Option.some.injEq] at h
      subst h
      simp
    · simp only [Option.some.injEq] at h
      subst h
      simp

theorem get_completed_requests_conn_frame (md5 : List Nat → List Nat) (env : completion_outcome)
    (c : server_connection_context) (error_records : List error_record) (r : poll_result)
    (h : get_completed_requests_conn md5 env c error_records = some r) :
    r.conn_ctx.num_posted_wr ≤ c.num_posted_wr ∧
    r.conn_ctx.max_posted_wr = c.max_posted_wr ∧
    r.conn_ctx.min_ack = c.min_ack ∧
    r.conn_ctx.established = c.established ∧
    r.conn_ctx.reqs = c.reqs := by
  unfold get_completed_requests_conn at h
  have hack := ack_completions_frame
    { c with
      id := { c.id with cq_events_acquired := c.id.cq_events_acquired + 1 }
      num_not_ack := c.num_not_ack + 1 } c.min_ack
  split_ifs at h with h1 h2
  · simp only [Option.some.injEq] at h
    subst h
    simp
  · simp only [Option.some.injEq] at h
    subst h
    simp only at hack
    exact ⟨le_of_eq hack.1, hack.2⟩
  · have hp := poll_completions_frame md5 _ _ _ r h
    simp only at hack
    obtain ⟨a1, a2, a3, a4, a5⟩ := hack
    obtain ⟨p1, p2, p3, p4, p5⟩ := hp
    exact ⟨p1.trans (le_of_eq a1), p2.trans a2, p3.trans a3, p4.trans a4, p5.trans a5⟩

theorem on_server_addr_resolved_conn_frame (min_ack_part : Nat) (env : addr_resolved_outcome)
    (c : server_connection_context) (error_records : List error_record) :
    (on_server_addr_resolved_conn min_ack_part env c error_records).conn_ctx.num_posted_wr
        = c.num_posted_wr ∧
    (on_server_addr_resolved_conn min_ack_part env c error_records).conn_ctx.max_posted_wr
        ≤ c.max_posted_wr := by
  unfold on_server_addr_resolved_conn
  split_ifs <;> simp [set_max_posted_wr]

theorem begin_server_disconnect_frame (disc : call_result) (c : server_connection_context)
    (error_records : List error_record) :
    (begin_server_disconnect disc c error_records).conn_ctx.num_posted_wr = c.num_posted_wr ∧
    (begin_server_disconnect disc c error_records).conn_ctx.max_posted_wr = c.max_posted_wr := by
  unfold begin_server_disconnect
  split_ifs <;> simp

theorem on_signal_message_conn_frame (config : vysmaw_configuration)
    (payload : signal_msg_payload) (consumers : List (List consumer))
    (c : server_connection_context) :
    (on_signal_message_conn config payload consumers c).num_posted_wr = c.num_posted_wr ∧
    (on_signal_message_conn config payload consumers c).max_posted_wr = c.max_posted_wr := by
  unfold on_signal_message_conn
  split_ifs <;> simp

/-- One operation never raises the credit ceiling. -/
theorem conn_step_max_posted_le (config : vysmaw_configuration) (md5 : List Nat → List Nat)
    (op : conn_op) (c c' : server_connection_context)
    (hstep : conn_step config md5 op c = some c') :
    c'.max_posted_wr ≤ c.max_posted_wr := by
  cases op with
  | addr_resolved env =>
    simp only [conn_step, Option.some.injEq] at hstep
    subst hstep
    exact (on_server_addr_resolved_conn_frame _ env c []).2
  | route_resolved env =>
    simp only [conn_step, Option.some.injEq] at hstep
    subst hstep
    exact le_refl _
  | established rkey depth env =>
    simp only [conn_step, Option.some.injEq] at hstep
    subst hstep
    exact Nat.min_le_left _ _
  | signal payload consumers =>
    simp only [conn_step, Option.some.injEq] at hstep
    subst hstep
    exact le_of_eq (on_signal_message_conn_frame config payload consumers c).2
  | post env =>
    simp only [conn_step, Option.some.injEq] at hstep
    subst hstep
    exact le_refl _
  | reap env =>
    simp only [conn_step, Option.map_eq_some'] at hstep
    obtain ⟨r, hr, hrc⟩ := hstep
    subst hrc
    exact le_of_eq (get_completed_requests_conn_frame md5 env c [] r hr).2.1
  | access now =>
    simp only [conn_step, Option.some.injEq] at hstep
    subst hstep
    exact le_refl _
  | begin_disconnect disc =>
    simp only [conn_step, Option.some.injEq] at hstep
    subst hstep
    exact le_of_eq (begin_server_disconnect_frame disc c []).2

theorem begin_server_disconnect_min_ack (disc : call_result) (c : server_connection_context)
    (error_records : List error_record) :
    (begin_server_disconnect disc c error_records).conn_ctx.min_ack = c.min_ack := by
  unfold begin_server_disconnect
  split_ifs <;> simp

theorem on_signal_message_conn_min_ack (config : vysmaw_configuration)
    (payload : signal_msg_payload) (consumers : List (List consumer))
    (c : server_connection_context) :
    (on_signal_message_conn config payload consumers c).min_ack = c.min_ack := by
  unfold on_signal_message_conn
  split_ifs <;> simp

/-- An operation other than a handshake event leaves the credit ceiling and
the acknowledgement threshold as they are. -/
theorem conn_step_neutral (config : vysmaw_configuration) (md5 : List Nat → List Nat)
    (op : conn_op) (c c' : server_connection_context) (hop : op.neutral = true)
    (hstep : conn_step config md5 op c = some c') :
    c'.max_posted_wr = c.max_posted_wr ∧ c'.min_ack = c.min_ack := by
  cases op with
  | addr_resolved env => simp [conn_op.neutral] at hop
  | route_resolved env => simp [conn_op.neutral] at hop
  | established rkey depth env => simp [conn_op.neutral] at hop
  | signal payload consumers =>
    simp only [conn_step, Option.some.injEq] at hstep
    subst hstep
    exact ⟨(on_signal_message_conn_frame config payload consumers c).2,
      on_signal_message_conn_min_ack config payload consumers c⟩
  | post env =>
    simp only [conn_step, Option.some.injEq] at hstep
    subst hstep
    exact ⟨rfl, rfl⟩
  | reap env =>
    simp only [conn_step, Option.map_eq_some'] at hstep
    obtain ⟨r, hr, hrc⟩ := hstep
    subst hrc
    have hf := get_completed_requests_conn_frame md5 env c [] r hr
    exact ⟨hf.2.1, hf.2.2.1⟩
  | access now =>
    simp only [conn_step, Option.some.injEq] at hstep
    subst hstep
    exact ⟨rfl, rfl⟩
  | begin_disconnect disc =>
    simp only [conn_step, Option.some.injEq] at hstep
    subst hstep
    exact ⟨(begin_server_disconnect_frame disc c []).2, begin_server_disconnect_min_ack disc c []⟩

theorem conn_run_neutral (config : vysmaw_configuration) (md5 : List Nat → List Nat)
    (ops : List conn_op) (c c' : server_connection_context)
    (hops : ∀ op ∈ ops, op.neutral = true)
    (hrun : conn_run config md5 ops c = some c') :
    c'.max_posted_wr = c.max_posted_wr ∧ c'.min_ack = c.min_ack := by
  induction ops generalizing c with
  | nil =>
    simp only [conn_run, Option.some.injEq] at hrun
    subst hrun
    exact ⟨rfl, rfl⟩
  | cons op ops ih =>
    simp only [conn_run] at hrun
    cases hstep : conn_step config md5 op c with
    | none => simp [hstep] at hrun
    | some c1 =>
      simp only [hstep, Option.some_bind] at hrun
      have h1 := conn_step_neutral config md5 op c c1 (hops op (List.mem_cons_self _ _)) hstep
      have h2 := ih c1 (fun o ho => hops o (List.mem_cons_of_mem _ ho)) hrun
      exact ⟨h2.1.trans h1.1, h2.2.trans h1.2⟩

theorem conn_run_append (config : vysmaw_configuration) (md5 : List Nat → List Nat)
    (xs ys : List conn_op) (c : server_connection_context) :
    conn_run config md5 (xs ++ ys) c
      = (conn_run config md5 xs c).bind (conn_run config md5 ys) := by
  induction xs generalizing c with
  | nil => simp [conn_run]
  | cons op xs ih =>
    simp only [List.cons_append, conn_run]
    cases conn_step config md5 op c with
    | none => simp
    | some c1 => simp [ih]

theorem conn_run_max_posted_le (config : vysmaw_configuration) (md5 : List Nat → List Nat)
    (ops : List conn_op) (c c' : server_connection_context)
    (hrun : conn_run config md5 ops c = some c') :
    c'.max_posted_wr ≤ c.max_posted_wr := by
  induction ops generalizing c with
  | nil =>
    simp only [conn_run, Option.some.injEq] at hrun
    subst hrun
    exact le_refl _
  | cons op ops ih =>
    simp only [conn_run] at hrun
    cases hstep : conn_step config md5 op c with
    | none => simp [hstep] at hrun
    | some c1 =>
      simp only [hstep, Option.some_bind] at hrun
      exact (ih c1 hrun).trans (conn_step_max_posted_le config md5 op c c1 hstep)

/-! ## Lemmas on signal intake -/

theorem on_signal_message_loop_eq (payload : signal_msg_payload) (n : Nat)
    (infos : List vysmaw_spectrum_info) (consumers : List (List consumer)) (reqs : List rdma_req)
    (hinfos : n ≤ infos.length) (hcons : n ≤ consumers.length) :
    on_signal_message_loop payload n infos consumers reqs
      = (reqs ++ (((consumers.zip infos).take n).filter (fun e => decide (e.1 ≠ []))).map
            (fun e => new_rdma_req e.1 payload e.2),
          List.replicate n [] ++ consumers.drop n) := by
  induction n generalizing infos consumers reqs with
  | zero => simp [on_signal_message_loop]
  | succ n ih =>
    cases infos with
    | nil => simp at hinfos
    | cons info infos =>
      cases consumers with
      | nil => simp at hcons
      | cons c consumers =>
        simp only [List.length_cons, Nat.add_le_add_iff_right] at hinfos hcons
        simp only [on_signal_message_loop, ih infos consumers _ hinfos hcons]
        by_cases hc : c = []
        · simp [hc, List.replicate_succ]
        · simp [hc, List.replicate_succ]

theorem on_signal_message_loop_empty (payload : signal_msg_payload) (n : Nat)
    (infos : List vysmaw_spectrum_info) (consumers : List (List consumer)) (reqs : List rdma_req)
    (hempty : ∀ cs ∈ consumers.take n, cs = []) :
    (on_signal_message_loop payload n infos consumers reqs).1 = reqs := by
  induction n generalizing infos consumers reqs with
  | zero => simp [on_signal_message_loop]
  | succ n ih =>
    cases infos with
    | nil => cases consumers <;> simp [on_signal_message_loop]
    | cons info infos =>
      cases consumers with
      | nil => simp [on_signal_message_loop]
      | cons c consumers =>
        have hc : c = [] := hempty c (by simp)
        have hrest : ∀ cs ∈ consumers.take n, cs = [] := fun cs h => hempty cs (by simp [h])
        simp only [on_signal_message_loop, hc, ne_eq, not_true_eq_false, if_false]
        exact ih infos consumers reqs hrest

theorem find_connection_known (env : open_outcome) (context : spectrum_reader_context_)
    (sockaddr : sockaddr_in) (error_records : List error_record) (p : Nat)
    (c : server_connection_context)
    (hlookup : connections_lookup context.connections sockaddr = some p)
    (hconn : conn_at context p = some c) :
    find_connection env context sockaddr error_records
      = ⟨context, error_records, 0, some p,
          c.established || context.shared.config.preconnect_backlog⟩ := by
  simp [find_connection, hlookup, hconn]

theorem find_connection_opened (env : open_outcome) (context : spectrum_reader_context_)
    (sockaddr : sockaddr_in) (error_records : List error_record)
    (hlookup : connections_lookup context.connections sockaddr = none)
    (hid : env.create_id.rc = 0) (haddr : env.resolve_addr.rc = 0) :
    find_connection env context sockaddr error_records
      = ⟨{ context with
            heap := table_insert context.heap env.conn_addr
              (new_server_connection context.shared.config sockaddr env.now)
            connections :=
              context.connections.map (fun t => table_insert t sockaddr env.conn_addr) },
          error_records, 0, some env.conn_addr, context.shared.config.preconnect_backlog⟩ := by
  simp [find_connection, hlookup, initiate_server_connection, hid, haddr, conn_at,
    table_lookup_insert_same, new_server_connection, set_max_posted_wr]

theorem on_signal_message_of_find (env : open_outcome) (context context1 : spectrum_reader_context_)
    (msg : signal_msg) (consumers : List (List consumer)) (error_records : List error_record)
    (p : Nat) (c : server_connection_context) (queue : Bool)
    (hf : find_connection env context msg.payload.sockaddr error_records
      = ⟨context1, error_records, 0, some p, queue⟩)
    (hconn : conn_at context1 p = some c) :
    on_signal_message env context msg consumers error_records
      = if queue = true then
          (⟨conn_store context1 p
              { c with
                reqs := (on_signal_message_loop msg.payload msg.payload.num_spectra
                  msg.payload.infos consumers c.reqs).1 },
            error_records, 0⟩,
            (on_signal_message_loop msg.payload msg.payload.num_spectra
              msg.payload.infos consumers c.reqs).2)
        else (⟨context1, error_records, 0⟩, consumers) := by
  simp only [on_signal_message, hf, hconn, true_and]

theorem on_signal_message_found (env : open_outcome) (context : spectrum_reader_context_)
    (msg : signal_msg) (consumers : List (List consumer)) (error_records : List error_record)
    (p : Nat) (c : server_connection_context)
    (hfound :
      (connections_lookup context.connections msg.payload.sockaddr = some p ∧
        conn_at context p = some c) ∨
      (connections_lookup context.connections msg.payload.sockaddr = none ∧
        env.create_id.rc = 0 ∧ env.resolve_addr.rc = 0 ∧ p = env.conn_addr ∧
        c = new_server_connection context.shared.config msg.payload.sockaddr env.now)) :
    ∃ context1 : spectrum_reader_context_,
      conn_at context1 p = some c ∧
      (∀ q, q ≠ p → conn_at context1 q = conn_at context q) ∧
      on_signal_message env context msg consumers error_records
        = if (c.established || context.shared.config.preconnect_backlog) = true then
            (⟨conn_store context1 p
                { c with
                  reqs := (on_signal_message_loop msg.payload msg.payload.num_spectra
                    msg.payload.infos consumers c.reqs).1 },
              error_records, 0⟩,
              (on_signal_message_loop msg.payload msg.payload.num_spectra
                msg.payload.infos consumers c.reqs).2)
          else (⟨context1, error_records, 0⟩, consumers) := by
  rcases hfound with ⟨hlookup, hconn⟩ | ⟨hlookup, hid, haddr, hp, hc⟩
  · exact ⟨context, hconn, fun _ _ => rfl,
      on_signal_message_of_find env context context msg consumers error_records p c _
        (find_connection_known env context _ error_records p c hlookup hconn) hconn⟩
  · subst hp hc
    have hf := find_connection_opened env context msg.payload.sockaddr error_records hlookup
      hid haddr
    refine ⟨{ context with
        heap := table_insert context.heap env.conn_addr
          (new_server_connection context.shared.config msg.payload.sockaddr env.now)
        connections :=
          context.connections.map (fun t => table_insert t msg.payload.sockaddr env.conn_addr) },
      ?_, ?_, ?_⟩
    · simp [conn_at, table_lookup_insert_same]
    · intro q hq
      simp [conn_at, table_lookup_insert_other _ _ _ _ hq]
    · have hfalse : (new_server_connection context.shared.config msg.payload.sockaddr
          env.now).established = false := rfl
      rw [hfalse, Bool.false_or]
      exact on_signal_message_of_find env context _ msg consumers error_records _ _ _ hf
        (by simp [conn_at, table_lookup_insert_same])

theorem conn_store_self (context : spectrum_reader_context_) (p : Nat)
    (c : server_connection_context) (h : conn_at context p = some c) :
    conn_store context p c = context := by
  unfold conn_store
  rw [table_insert_lookup_self context.heap p c h]

theorem find_connection_failed (env : open_outcome) (context : spectrum_reader_context_)
    (sockaddr : sockaddr_in) (error_records : List error_record)
    (hlookup : connections_lookup context.connections sockaddr = none)
    (hfail : env.create_id.rc ≠ 0 ∨ env.resolve_addr.rc ≠ 0) :
    (find_connection env context sockaddr error_records).context = context ∧
    (find_connection env context sockaddr error_records).conn_ctx = none := by
  by_cases hid : env.create_id.rc = 0
  · have haddr : env.resolve_addr.rc ≠ 0 := by
      rcases hfail with h | h
      · exact absurd hid h
      · exact h
    simp [find_connection, hlookup, initiate_server_connection, hid, haddr]
  · simp [find_connection, hlookup, initiate_server_connection, hid]

/-- What signal intake does to the context when every consumer set of the
signal is empty: nothing but the find-or-open of `find_connection`. -/
theorem on_signal_message_empty (env : open_outcome) (context : spectrum_reader_context_)
    (msg : signal_msg) (consumers : List (List consumer)) (error_records : List error_record)
    (hempty : ∀ cs ∈ consumers.take msg.payload.num_spectra, cs = []) :
    (on_signal_message env context msg consumers error_records).1.context
      = (find_connection env context msg.payload.sockaddr error_records).context := by
  simp only [on_signal_message]
  cases hp : (find_connection env context msg.payload.sockaddr error_records).conn_ctx with
  | none => rfl
  | some p =>
    simp only
    cases hc : conn_at (find_connection env context msg.payload.sockaddr error_records).context
        p with
    | none => rfl
    | some c =>
      simp only
      split_ifs
      · simp only [on_signal_message_loop_empty _ _ _ _ _ hempty]
        exact conn_store_self _ p c hc
      · rfl

/-! ## Lemmas on the quit protocol -/

theorem on_data_path_message_quit_again (open_env : open_outcome) (env : quit_outcome)
    (context : spectrum_reader_context_) (msg : data_path_message)
    (error_records : List error_record)
    (hstate : context.state = run_state.STATE_QUIT)
    (htyp : msg.typ = data_path_message_type.DATA_PATH_QUIT)
    (hdiff : ∀ q, context.quit_msg = some q → q.addr ≠ msg.addr) :
    on_data_path_message open_env env context msg error_records
      = some ⟨context, error_records, 0⟩ := by
  unfold on_data_path_message
  rw [htyp]
  simp only
  cases hq : context.quit_msg with
  | none =>
    simp [to_quit_state, hstate]
  | some q =>
    simp [hdiff q hq]

theorem on_data_path_message_quit_returned (open_env : open_outcome) (env : quit_outcome)
    (context : spectrum_reader_context_) (msg q : data_path_message)
    (error_records : List error_record)
    (htyp : msg.typ = data_path_message_type.DATA_PATH_QUIT)
    (hq : context.quit_msg = some q) (hsame : q.addr = msg.addr) (hw : env.write.rc = 0) :
    on_data_path_message open_env env context msg error_records
      = some
          ⟨{ context with
              end_msg := some (data_path_message_new env.new_msg
                data_path_message_type.DATA_PATH_END context.shared.signal_msg_num_spectra)
              quit_msg := none
              shared := { context.shared with
                loop_fd := context.shared.loop_fd ++
                  [data_path_message_new env.new_msg data_path_message_type.DATA_PATH_END
                    context.shared.signal_msg_num_spectra] } },
            error_records, 0⟩ := by
  unfold on_data_path_message
  rw [htyp]
  simp [hq, hsame, loopback_msg, hw]

theorem on_data_path_message_end (open_env : open_outcome) (env : quit_outcome)
    (context : spectrum_reader_context_) (msg : data_path_message)
    (error_records : List error_record)
    (htyp : msg.typ = data_path_message_type.DATA_PATH_END) :
    on_data_path_message open_env env context msg error_records
      = some ⟨{ context with state := run_state.STATE_DONE }, error_records, 0⟩ := by
  unfold on_data_path_message
  rw [htyp]

theorem on_data_path_message_first_quit (open_env : open_outcome) (env : quit_outcome)
    (context : spectrum_reader_context_) (msg : data_path_message)
    (error_records : List error_record)
    (htyp : msg.typ = data_path_message_type.DATA_PATH_QUIT)
    (hrun : context.state = run_state.STATE_RUN) (hnone : context.quit_msg = none) :
    ∃ r : handler_result,
      on_data_path_message open_env env context msg error_records = some r ∧
      r.context.state = run_state.STATE_QUIT ∧ r.context.quit_msg = some msg ∧
      (env.write.rc = 0 → ∃ pipe, r.context.shared.loop_fd = pipe ++ [msg]) := by
  unfold on_data_path_message
  rw [htyp]
  simp only [hnone, to_quit_state, hrun]
  refine ⟨_, rfl, rfl, rfl, ?_⟩
  intro hw
  simp only [loopback_msg, hw, if_true]
  exact ⟨_, rfl⟩

theorem to_quit_state_loop_frame (disconnect : Nat → call_result) (seq : List Nat)
    (st : spectrum_reader_context_ × List error_record) :
    (to_quit_state_loop disconnect seq st).1.state = st.1.state ∧
    (to_quit_state_loop disconnect seq st).1.quit_msg = st.1.quit_msg ∧
    (to_quit_state_loop disconnect seq st).1.end_msg = st.1.end_msg ∧
    (to_quit_state_loop disconnect seq st).1.connections = st.1.connections ∧
    (to_quit_state_loop disconnect seq st).1.fd_connections = st.1.fd_connections ∧
    (to_quit_state_loop disconnect seq st).1.shared.loop_fd = st.1.shared.loop_fd ∧
    (to_quit_state_loop disconnect seq st).1.shared.signal_msg_num_spectra
      = st.1.shared.signal_msg_num_spectra := by
  induction seq generalizing st with
  | nil => simp [to_quit_state_loop]
  | cons p rest ih =>
    unfold to_quit_state_loop
    cases conn_at st.1 p with
    | none => exact ih st
    | some c =>
      simp only
      have h := ih (log_freed (conn_store st.1 p (begin_server_disconnect (disconnect p) c
        st.2).conn_ctx) (begin_server_disconnect (disconnect p) c st.2).freed,
        (begin_server_disconnect (disconnect p) c st.2).error_records)
      simpa [log_freed, conn_store] using h

/-! ## C1: order of delivery -/

/-- C1 (the code at a failing input): one connection with two reads
outstanding; the completion queue yields the completions of the requests with
timestamps 1 and 2, in that order, and the follow-up posting succeeds.
`on_read_completion` pushes the message of request 2 first and the message of
request 1 second. -/
theorem C1_two_completions_delivered_in_reverse :
    (on_read_completion example_md5
        (completion_ok [⟨example_req 1 [], IBV_WC_SUCCESS⟩, ⟨example_req 2 [], IBV_WC_SUCCESS⟩])
        (example_context example_config [(⟨1, 1⟩, 100)] [100] [(100, example_conn 5 2 [])]) 2 []).map
      (fun r => r.context.shared.queues.map
        (fun q => q.message.map (fun m => (m.typ, m.data_info.timestamp))))
    = some [some (vysmaw_message_type.VYSMAW_MESSAGE_VALID_BUFFER, 2),
        some (vysmaw_message_type.VYSMAW_MESSAGE_VALID_BUFFER, 1)] := by
  decide

/-! ## C2: classification of completions -/

/-- C2: when read-completion handling reaps the work completions `wcs` of
posted requests (each request carries a valid-buffer message with its
destination buffer and a 16-byte expected digest) and the follow-up posting
succeeds, `on_read_completion` returns, and it pushes exactly one message per
completion, to that request's consumers: the valid-buffer message if the
status is success and the MD5 of the first `buffer_size` bytes of the buffer
equals the expected digest; the message turned into a digest failure if the
status is success and the digests differ; the message turned into a read
failure carrying the completion's status if the status is not success.  The
three cases are the branches of one conditional, so they are exhaustive and
exclusive.  The checksum `md5` is an arbitrary function with 16-byte
results. -/
theorem C2_delivered_message_classification (md5 : List Nat → List Nat)
    (env : completion_outcome) (context : spectrum_reader_context_) (pfd : Nat)
    (error_records : List error_record) (pollfd : pollfd) (p : Nat)
    (c : server_connection_context) (chfd : Int) (wcs : List ibv_wc)
    (hpfd : context.pollfds[pfd]? = some pollfd)
    (hfind : find_server_connection_context context pollfd.fd = some p)
    (hconn : conn_at context p = some c)
    (hch : c.id.send_cq_channel = some chfd)
    (hev : env.get_cq_event.rc = 0) (hnotify : env.req_notify_cq = 0)
    (hpoll : env.polled = ibv_poll_cq_result.completions wcs)
    (hn : wcs.length ≤ c.num_posted_wr)
    (hpost : ∀ k, (env.post k).post.rc = 0)
    (hmd5 : ∀ b, (md5 b).length = VYSMAW_DATA_DIGEST_SIZE)
    (hwcs : ∀ wc ∈ wcs,
      wc.wr_id.spectrum_info.digest.length = VYSMAW_DATA_DIGEST_SIZE ∧
      ∃ m b, wc.wr_id.message = some m ∧
        m.typ = vysmaw_message_type.VYSMAW_MESSAGE_VALID_BUFFER ∧ m.buffer = some b) :
    ∃ r : handler_result,
      on_read_completion md5 env context pfd error_records = some r ∧
      r.context.shared.queues
        = context.shared.queues ++ wcs.reverse.map (fun wc =>
            ⟨wc.wr_id.message.map (fun m =>
              if wc.status = IBV_WC_SUCCESS then
                if md5 ((m.buffer.getD []).take m.buffer_size)
                    = wc.wr_id.spectrum_info.digest then
                  { m with typ := vysmaw_message_type.VYSMAW_MESSAGE_VALID_BUFFER }
                else
                  { m with
                    typ := vysmaw_message_type.VYSMAW_MESSAGE_DIGEST_FAILURE
                    buffer := none }
              else
                { m with
                  typ := vysmaw_message_type.VYSMAW_MESSAGE_RDMA_READ_FAILURE
                  buffer := none
                  wc_status := wc.status }),
             wc.wr_id.consumers⟩) := by
  obtain ⟨r, hr, hq⟩ := on_read_completion_delivers md5 env context pfd error_records pollfd p c
    chfd wcs hpfd hfind hconn hch hev hnotify hpoll hn hpost
  refine ⟨r, hr, ?_⟩
  rw [hq]
  congr 1
  apply List.map_congr_left
  intro wc hwc
  have hmem : wc ∈ wcs := List.mem_reverse.mp hwc
  rw [completion_message_classify md5 wc hmd5 (hwcs wc hmem).1 (hwcs wc hmem).2]

/-- C2 at a concrete input: three reads outstanding, reaped as a match, a
digest mismatch and a failed read. -/
theorem C2_delivered_message_classification_witness :
    ∃ r : handler_result,
      on_read_completion zero_md5 (completion_ok three_completions)
        (example_context example_config [(⟨1, 1⟩, 100)] [100] [(100, example_conn 5 3 [])]) 2 []
        = some r ∧
      r.context.shared.queues
        = [] ++ three_completions.reverse.map (fun wc =>
            ⟨wc.wr_id.message.map (fun m =>
              if wc.status = IBV_WC_SUCCESS then
                if zero_md5 ((m.buffer.getD []).take m.buffer_size)
                    = wc.wr_id.spectrum_info.digest then
                  { m with typ := vysmaw_message_type.VYSMAW_MESSAGE_VALID_BUFFER }
                else
                  { m with
                    typ := vysmaw_message_type.VYSMAW_MESSAGE_DIGEST_FAILURE
                    buffer := none }
              else
                { m with
                  typ := vysmaw_message_type.VYSMAW_MESSAGE_RDMA_READ_FAILURE
                  buffer := none
                  wc_status := wc.status }),
             wc.wr_id.consumers⟩) :=
  C2_delivered_message_classification zero_md5 (completion_ok three_completions)
    (example_context example_config [(⟨1, 1⟩, 100)] [100] [(100, example_conn 5 3 [])]) 2 []
    ⟨5, POLLIN, POLLIN⟩ 100 (example_conn 5 3 []) 5 three_completions
    (by decide) (by decide) (by decide) (by decide) (by decide) (by decide) rfl (by decide)
    (fun _ => rfl) (fun _ => rfl)
    (by
      intro wc hwc
      simp only [three_completions, List.mem_cons, List.mem_singleton, List.not_mem_nil,
        or_false] at hwc
      rcases hwc with rfl | rfl | rfl <;> exact ⟨rfl, _, _, rfl, rfl, rfl⟩)

/-- C4: a connection is opened and goes through address resolved (device
query and queue-pair creation succeed), route resolved and established, with
any operations other than handshake events in between and afterwards.  Its
final `max_posted_wr` is the minimum of the configured ceiling, the device's
`max_qp_init_rd_atom`, the queue pair's `max_send_wr` and the peer's initiator
depth, and `min_ack` is that value divided by `rdma_read_min_ack_part` by
integer division: the largest `k` with `k * part ≤ max_posted_wr`. -/
theorem C4_credit_negotiation (config : vysmaw_configuration) (md5 : List Nat → List Nat)
    (sockaddr : sockaddr_in) (now : Nat) (a : addr_resolved_outcome)
    (r : route_resolved_outcome) (rkey initiator_depth : Nat) (post : Nat → post_outcome)
    (s0 s1 s2 s3 : List conn_op) (c : server_connection_context)
    (hpart : 0 < config.rdma_read_min_ack_part)
    (hquery : a.query_device = 0) (hqp : a.create_qp.rc = 0)
    (hs : ∀ op ∈ s0 ++ s1 ++ s2 ++ s3, op.neutral = true)
    (hrun : conn_run config md5
      (s0 ++ conn_op.addr_resolved a :: (s1 ++ conn_op.route_resolved r ::
        (s2 ++ conn_op.established rkey initiator_depth post :: s3)))
      (new_server_connection config sockaddr now) = some c) :
    c.max_posted_wr
      = min (min (min config.rdma_read_max_posted a.max_qp_init_rd_atom) a.max_send_wr)
          initiator_depth ∧
    c.min_ack = c.max_posted_wr / config.rdma_read_min_ack_part ∧
    c.min_ack * config.rdma_read_min_ack_part ≤ c.max_posted_wr ∧
    c.max_posted_wr < (c.min_ack + 1) * config.rdma_read_min_ack_part := by
  have hs0 : ∀ op ∈ s0, op.neutral = true := fun op h => hs op (by simp [h])
  have hs1 : ∀ op ∈ s1, op.neutral = true := fun op h => hs op (by simp [h])
  have hs2 : ∀ op ∈ s2, op.neutral = true := fun op h => hs op (by simp [h])
  have hs3 : ∀ op ∈ s3, op.neutral = true := fun op h => hs op (by simp [h])
  rw [conn_run_append] at hrun
  obtain ⟨c0, h0, hrun⟩ := Option.bind_eq_some.mp hrun
  have e0 := conn_run_neutral config md5 s0 _ c0 hs0 h0
  simp only [conn_run, conn_step, Option.some_bind] at hrun
  rw [conn_run_append] at hrun
  obtain ⟨c1, h1, hrun⟩ := Option.bind_eq_some.mp hrun
  have e1 := conn_run_neutral config md5 s1 _ c1 hs1 h1
  simp only [conn_run, conn_step, Option.some_bind] at hrun
  rw [conn_run_append] at hrun
  obtain ⟨c2, h2, hrun⟩ := Option.bind_eq_some.mp hrun
  have e2 := conn_run_neutral config md5 s2 _ c2 hs2 h2
  simp only [conn_run, conn_step, Option.some_bind] at hrun
  have e3 := conn_run_neutral config md5 s3 _ c hs3 hrun
  have hnew : (new_server_connection config sockaddr now).max_posted_wr
      = config.rdma_read_max_posted := rfl
  have hmax : c.max_posted_wr
      = min (min (min config.rdma_read_max_posted a.max_qp_init_rd_atom) a.max_send_wr)
          initiator_depth := by
    rw [e3.1]
    simp only [on_server_established, post_server_reads, set_max_posted_wr]
    rw [e2.1, e1.1]
    simp only [on_server_addr_resolved_conn, hquery, hqp, ne_eq, not_true_eq_false, if_false,
      set_max_posted_wr]
    split_ifs <;> simp only [e0.1, hnew]
  have hack : c.min_ack = c.max_posted_wr / config.rdma_read_min_ack_part := by
    rw [e3.2, e3.1]
    simp only [on_server_established, post_server_reads, set_max_posted_wr]
  refine ⟨hmax, hack, ?_, ?_⟩
  · rw [hack]
    exact Nat.div_mul_le_self _ _
  · rw [hack]
    rw [Nat.mul_comm]
    exact Nat.lt_mul_div_succ _ hpart

/-- C4 at the input of the spec's scenario: configured ceiling 256, device
limit 64, queue pair of 64, peer depth 16 and acknowledgement part 4 give
`max_posted_wr = 16` and `min_ack = 4`. -/
theorem C4_credit_negotiation_witness :
    ∃ c, conn_run backlog_config example_md5
        ([] ++ conn_op.addr_resolved addr_resolved_ok ::
          ([] ++ conn_op.route_resolved ⟨some [(0, 1)], 0, ⟨0, 0⟩⟩ ::
            ([] ++ conn_op.established 9 16 post_ok :: [])))
        (new_server_connection backlog_config ⟨1, 1⟩ 0) = some c ∧
      c.max_posted_wr = 16 ∧ c.min_ack = 4 := by
  have h : (conn_run backlog_config example_md5
      ([] ++ conn_op.addr_resolved addr_resolved_ok ::
        ([] ++ conn_op.route_resolved ⟨some [(0, 1)], 0, ⟨0, 0⟩⟩ ::
          ([] ++ conn_op.established 9 16 post_ok :: [])))
      (new_server_connection backlog_config ⟨1, 1⟩ 0)).isSome = true := by decide
  obtain ⟨c, hc⟩ := Option.isSome_iff_exists.mp h
  have hw := C4_credit_negotiation backlog_config example_md5 ⟨1, 1⟩ 0 addr_resolved_ok
    ⟨some [(0, 1)], 0, ⟨0, 0⟩⟩ 9 16 post_ok [] [] [] [] c (by decide) rfl rfl
    (by simp) hc
  refine ⟨c, hc, ?_, ?_⟩
  · rw [hw.1]; decide
  · rw [hw.2.1, hw.1]; decide

/-! ## C5: the credit ceiling never increases -/

/-- C5: for a connection in any state `c` reached after it was opened and
every sequence of reactor operations applied to it (in particular every single
operation), the value of `max_posted_wr` after the operations is at most its
value before. -/
theorem C5_max_posted_never_increases (config : vysmaw_configuration)
    (md5 : List Nat → List Nat) (ops : List conn_op) (c c' : server_connection_context)
    (hrun : conn_run config md5 ops c = some c') :
    c'.max_posted_wr ≤ c.max_posted_wr :=
  conn_run_max_posted_le config md5 ops c c' hrun

/-- C5 at a concrete input: over the example life the ceiling goes from the
configured 256 down to the value the run ends with. -/
theorem C5_max_posted_never_increases_witness :
    ∃ c, conn_run backlog_config example_md5 example_life
        (new_server_connection backlog_config ⟨1, 1⟩ 0) = some c ∧
      c.max_posted_wr ≤ (new_server_connection backlog_config ⟨1, 1⟩ 0).max_posted_wr := by
  have h : (conn_run backlog_config example_md5 example_life
      (new_server_connection backlog_config ⟨1, 1⟩ 0)).isSome = true := by decide
  obtain ⟨c, hc⟩ := Option.isSome_iff_exists.mp h
  exact ⟨c, hc, C5_max_posted_never_increases backlog_config example_md5 example_life _ c hc⟩

/-! ## C6: signal intake -/

/-- C6: signal intake for a signal whose arrays hold at least `num_spectra`
entries.  Let `c` be the connection for the signal's address at `p`: the one
in the registry, or the one `find_connection` opens (with success) when the
address is not in the registry.  `on_signal_message` returns 0.  If `c` is
established or `preconnect_backlog` is true, afterwards the connection's
pending FIFO is the old pending followed by one read request for each of the
first `num_spectra` entries whose consumer list is not empty, in entry order,
each made by `new_rdma_req` from that entry's consumer list and spectrum info,
and every consumer slot of those entries is emptied.  Otherwise (not
established and no backlog) the connection, with its pending FIFO, and the
consumer slots are unchanged.  In both cases every other connection is
unchanged.  The request that `new_rdma_req` makes holds the consumer list and
the spectrum info it is given, and as data info the signal's channel count,
stations, spectral window and Stokes index with the timestamp of the spectrum
info. -/
theorem C6_signal_intake (env : open_outcome) (context : spectrum_reader_context_)
    (msg : signal_msg) (consumers : List (List consumer)) (error_records : List error_record)
    (p : Nat) (c : server_connection_context)
    (hinfos : msg.payload.num_spectra ≤ msg.payload.infos.length)
    (hcons : msg.payload.num_spectra ≤ consumers.length)
    (hfound :
      (connections_lookup context.connections msg.payload.sockaddr = some p ∧
        conn_at context p = some c) ∨
      (connections_lookup context.connections msg.payload.sockaddr = none ∧
        env.create_id.rc = 0 ∧ env.resolve_addr.rc = 0 ∧ p = env.conn_addr ∧
        c = new_server_connection context.shared.config msg.payload.sockaddr env.now)) :
    (on_signal_message env context msg consumers error_records).1.rc = 0 ∧
    ((c.established = true ∨ context.shared.config.preconnect_backlog = true) →
      conn_at (on_signal_message env context msg consumers error_records).1.context p
        = some { c with
            reqs := c.reqs ++
              (((consumers.zip msg.payload.infos).take msg.payload.num_spectra).filter
                (fun e => decide (e.1 ≠ []))).map
                (fun e => new_rdma_req e.1 msg.payload e.2) } ∧
      (on_signal_message env context msg consumers error_records).2
        = List.replicate msg.payload.num_spectra [] ++ consumers.drop msg.payload.num_spectra) ∧
    ((c.established = false ∧ context.shared.config.preconnect_backlog = false) →
      conn_at (on_signal_message env context msg consumers error_records).1.context p = some c ∧
      (on_signal_message env context msg consumers error_records).2 = consumers) ∧
    (∀ q, q ≠ p →
      conn_at (on_signal_message env context msg consumers error_records).1.context q
        = conn_at context q) ∧
    (∀ (cs : List consumer) (info : vysmaw_spectrum_info),
      (new_rdma_req cs msg.payload info).consumers = cs ∧
      (new_rdma_req cs msg.payload info).spectrum_info = info ∧
      (new_rdma_req cs msg.payload info).data_info
        = ⟨msg.payload.num_channels, msg.payload.stations, msg.payload.spectral_window_index,
            msg.payload.stokes_index, info.timestamp⟩) := by
  obtain ⟨context1, hconn1, hother, heq⟩ :=
    on_signal_message_found env context msg consumers error_records p c hfound
  rw [heq]
  by_cases hq : (c.established || context.shared.config.preconnect_backlog) = true
  · simp only [hq, if_true, on_signal_message_loop_eq _ _ _ _ _ hinfos hcons,
      conn_at_conn_store]
    refine ⟨trivial, fun _ => ⟨trivial, trivial⟩, ?_, ?_, fun cs info => ⟨rfl, rfl, rfl⟩⟩
    · rintro ⟨h1, h2⟩
      simp [h1, h2] at hq
    · intro q hqp
      rw [conn_at_conn_store_other _ _ _ _ hqp]
      exact hother q hqp
  · simp only [hq, Bool.false_eq_true, if_false]
    refine ⟨trivial, ?_, fun _ => ⟨hconn1, trivial⟩, hother, fun cs info => ⟨rfl, rfl, rfl⟩⟩
    rintro (h | h)
    · simp [h] at hq
    · simp [h] at hq

/-- C6 at a concrete input: an established connection receives a signal of
three spectra of which the second has no consumer.  Two requests are queued:
the first holds the consumer list `[7]` and the first spectrum info, the second
the consumer list `[8]` and the third spectrum info. -/
theorem C6_signal_intake_witness :
    conn_at (on_signal_message open_ok
        (example_context example_config [(⟨1, 1⟩, 100)] [100] [(100, example_conn 5 0 [])])
        ⟨example_payload⟩ [[7], [], [8]] []).1.context 100
      = some { example_conn 5 0 [] with
          reqs := [] ++
            ((([[7], [], [8]].zip example_payload.infos).take example_payload.num_spectra).filter
              (fun e => decide (e.1 ≠ []))).map
              (fun e => new_rdma_req e.1 example_payload e.2) } ∧
    (((([[7], [], [8]].zip example_payload.infos).take example_payload.num_spectra).filter
        (fun e => decide (e.1 ≠ []))).map (fun e => new_rdma_req e.1 example_payload e.2)).map
      (fun r => (r.consumers, r.spectrum_info, r.data_info))
      = [([7], ⟨10, 1, []⟩, ⟨1, (0, 1), 0, 0, 1⟩), ([8], ⟨30, 3, []⟩, ⟨1, (0, 1), 0, 0, 3⟩)] ∧
    (new_rdma_req [7] example_payload ⟨10, 1, []⟩).consumers = [7] ∧
    (new_rdma_req [7] example_payload ⟨10, 1, []⟩).spectrum_info = ⟨10, 1, []⟩ :=
  ⟨((C6_signal_intake open_ok
      (example_context example_config [(⟨1, 1⟩, 100)] [100] [(100, example_conn 5 0 [])])
      ⟨example_payload⟩ [[7], [], [8]] [] 100 (example_conn 5 0 []) (by decide) (by decide)
      (Or.inl ⟨by decide, by decide⟩)).2.1 (Or.inl rfl)).1,
    by decide,
    ((C6_signal_intake open_ok
      (example_context example_config [(⟨1, 1⟩, 100)] [100] [(100, example_conn 5 0 [])])
      ⟨example_payload⟩ [[7], [], [8]] [] 100 (example_conn 5 0 []) (by decide) (by decide)
      (Or.inl ⟨by decide, by decide⟩)).2.2.2.2 [7] ⟨10, 1, []⟩).1,
    ((C6_signal_intake open_ok
      (example_context example_config [(⟨1, 1⟩, 100)] [100] [(100, example_conn 5 0 [])])
      ⟨example_payload⟩ [[7], [], [8]] [] 100 (example_conn 5 0 []) (by decide) (by decide)
      (Or.inl ⟨by decide, by decide⟩)).2.2.2.2 [7] ⟨10, 1, []⟩).2.1⟩

/-! ## C7: a signal without consumers -/

/-- C7 as stated fails: the registry is empty and a signal from the server
`1:1` arrives whose consumer set is empty for every spectrum.  After
`on_signal_message` the context differs from the one before: the registry maps
the address to a new connection. -/
theorem C7_empty_signal_changes_registry :
    (∀ cs ∈ [([] : List consumer), [], []], cs = []) ∧
    connections_lookup (example_context example_config [] [] []).connections ⟨1, 1⟩ = none ∧
    connections_lookup
      (on_signal_message open_ok (example_context example_config [] [] []) ⟨example_payload⟩
        [[], [], []] []).1.context.connections ⟨1, 1⟩ = some 100 ∧
    (on_signal_message open_ok (example_context example_config [] [] []) ⟨example_payload⟩
        [[], [], []] []).1.context ≠ example_context example_config [] [] [] := by
  decide

/-- C7 (amended): processing a signal whose consumer set is empty for every
spectrum appends no read request to any pending FIFO and changes no existing
connection.  When the signal's address is in the registry, or when it is not
and the open fails, the context is unchanged.  When the address is not in the
registry and the open succeeds, the context changes in exactly one way: a new
connection with an empty pending FIFO is allocated and entered in the registry
under the address.  The address handed out by the allocator is not in use. -/
theorem C7_empty_signal_opens_connection (env : open_outcome)
    (context : spectrum_reader_context_) (msg : signal_msg) (consumers : List (List consumer))
    (error_records : List error_record)
    (hempty : ∀ cs ∈ consumers.take msg.payload.num_spectra, cs = [])
    (hfresh : conn_at context env.conn_addr = none) :
    (connections_lookup context.connections msg.payload.sockaddr ≠ none →
      (on_signal_message env context msg consumers error_records).1.context = context) ∧
    (connections_lookup context.connections msg.payload.sockaddr = none →
      (env.create_id.rc ≠ 0 ∨ env.resolve_addr.rc ≠ 0) →
      (on_signal_message env context msg consumers error_records).1.context = context) ∧
    (connections_lookup context.connections msg.payload.sockaddr = none →
      env.create_id.rc = 0 → env.resolve_addr.rc = 0 →
      (on_signal_message env context msg consumers error_records).1.context
        = { context with
            heap := table_insert context.heap env.conn_addr
              (new_server_connection context.shared.config msg.payload.sockaddr env.now)
            connections := context.connections.map
              (fun t => table_insert t msg.payload.sockaddr env.conn_addr) } ∧
      (new_server_connection context.shared.config msg.payload.sockaddr env.now).reqs = []) ∧
    (∀ q c, conn_at context q = some c →
      conn_at (on_signal_message env context msg consumers error_records).1.context q
        = some c) := by
  rw [on_signal_message_empty env context msg consumers error_records hempty]
  have hknown : connections_lookup context.connections msg.payload.sockaddr ≠ none →
      (find_connection env context msg.payload.sockaddr error_records).context = context := by
    intro h
    obtain ⟨p, hp⟩ := Option.ne_none_iff_exists'.mp h
    simp [find_connection, hp]
  have hopened : connections_lookup context.connections msg.payload.sockaddr = none →
      env.create_id.rc = 0 → env.resolve_addr.rc = 0 →
      (find_connection env context msg.payload.sockaddr error_records).context
        = { context with
            heap := table_insert context.heap env.conn_addr
              (new_server_connection context.shared.config msg.payload.sockaddr env.now)
            connections := context.connections.map
              (fun t => table_insert t msg.payload.sockaddr env.conn_addr) } := by
    intro h hid haddr
    rw [find_connection_opened env context _ error_records h hid haddr]
  refine ⟨hknown, ?_, ?_, ?_⟩
  · intro h hfail
    exact (find_connection_failed env context _ error_records h hfail).1
  · intro h hid haddr
    exact ⟨hopened h hid haddr, rfl⟩
  · intro q c hq
    by_cases h : connections_lookup context.connections msg.payload.sockaddr = none
    · by_cases hid : env.create_id.rc = 0
      · by_cases haddr : env.resolve_addr.rc = 0
        · rw [hopened h hid haddr]
          have hne : q ≠ env.conn_addr := by
            intro heq
            rw [heq, hfresh] at hq
            exact Option.noConfusion hq
          simp only [conn_at] at hq ⊢
          rw [table_lookup_insert_other _ _ _ _ hne]
          exact hq
        · rw [(find_connection_failed env context _ error_records h (Or.inr haddr)).1]
          exact hq
      · rw [(find_connection_failed env context _ error_records h (Or.inl hid)).1]
        exact hq
    · rw [hknown h]
      exact hq

/-- C7 (amended) at a concrete input: the address of the signal is in the
registry and the context is unchanged. -/
theorem C7_empty_signal_opens_connection_witness :
    (on_signal_message open_ok
        (example_context example_config [(⟨1, 1⟩, 7)] [7] [(7, example_conn 5 0 [])])
        ⟨example_payload⟩ [[], [], []] []).1.context
      = example_context example_config [(⟨1, 1⟩, 7)] [7] [(7, example_conn 5 0 [])] :=
  (C7_empty_signal_opens_connection open_ok
      (example_context example_config [(⟨1, 1⟩, 7)] [7] [(7, example_conn 5 0 [])])
      ⟨example_payload⟩ [[], [], []] [] (by decide) (by decide)).1 (by decide)

/-! ## C8: first phase of quit -/

/-- C8 (the code at a failing input): with backlog before connection, the
registry holds one connection that is still resolving its address and has one
backlogged request; it is not yet in the sequence sorted by completion fd.  A
Quit message arrives in state run with the quit slot empty.  Afterwards the
state is quit, the quit slot holds that message, the message has been written
to the loopback pipe, and the connection is still registered with its pending
request: `to_quit_state` begins the disconnect only on the connections of the
sorted sequence. -/
theorem C8_quit_skips_connection_resolving_address :
    (on_data_path_message open_ok quit_ok
        (example_context backlog_config [(⟨1, 1⟩, 100)] [] [(100, resolving_conn)])
        quit_message []).map
      (fun r => (r.context.state, r.context.quit_msg.map (fun m => m.addr),
        r.context.shared.loop_fd.map (fun m => m.addr),
        connections_lookup r.context.connections ⟨1, 1⟩,
        (conn_at r.context 100).map (fun c => (c.established, c.reqs.length))))
    = some (run_state.STATE_QUIT, some 300, [300], some 100, some (false, 1)) := by
  rfl

/-! ## C9: second phase of quit -/

/-- C9: `q` is a Quit message, `e` an End message, and the loopback write of
the second phase succeeds.  (1) When `q` arrives while the quit slot holds the
same instance, the reactor allocates one End message, stores it as `end_msg`,
appends it to the loopback pipe, clears the quit slot, returns 0 and changes
nothing else, so it stays in the state it is in.  (2) When an End message
arrives, the state becomes done.  (3) Hence from state run with an empty quit
slot, the messages `q`, `q`, `e` are all handled and take the reactor through
the states run, quit, quit, done. -/
theorem C9_quit_second_phase (open_env : open_outcome) (env1 env2 env3 : quit_outcome)
    (context : spectrum_reader_context_) (q e : data_path_message)
    (error_records : List error_record)
    (hq : q.typ = data_path_message_type.DATA_PATH_QUIT)
    (he : e.typ = data_path_message_type.DATA_PATH_END)
    (hw : env2.write.rc = 0) :
    (∀ (ctx : spectrum_reader_context_) (recorded : data_path_message)
        (errs : List error_record),
      ctx.quit_msg = some recorded → recorded.addr = q.addr →
      on_data_path_message open_env env2 ctx q errs
        = some
            ⟨{ ctx with
                end_msg := some (data_path_message_new env2.new_msg
                  data_path_message_type.DATA_PATH_END ctx.shared.signal_msg_num_spectra)
                quit_msg := none
                shared := { ctx.shared with
                  loop_fd := ctx.shared.loop_fd ++
                    [data_path_message_new env2.new_msg data_path_message_type.DATA_PATH_END
                      ctx.shared.signal_msg_num_spectra] } },
              errs, 0⟩) ∧
    (∀ (ctx : spectrum_reader_context_) (errs : List error_record),
      on_data_path_message open_env env3 ctx e errs
        = some ⟨{ ctx with state := run_state.STATE_DONE }, errs, 0⟩) ∧
    (context.state = run_state.STATE_RUN → context.quit_msg = none →
      ∃ r1 r2 r3 : handler_result,
        on_data_path_message open_env env1 context q error_records = some r1 ∧
        r1.context.state = run_state.STATE_QUIT ∧
        r1.context.quit_msg = some q ∧
        on_data_path_message open_env env2 r1.context q r1.error_records = some r2 ∧
        r2.context.state = run_state.STATE_QUIT ∧
        r2.context.quit_msg = none ∧
        r2.context.end_msg = some (data_path_message_new env2.new_msg
          data_path_message_type.DATA_PATH_END context.shared.signal_msg_num_spectra) ∧
        r2.context.shared.loop_fd = r1.context.shared.loop_fd ++
          [data_path_message_new env2.new_msg data_path_message_type.DATA_PATH_END
            context.shared.signal_msg_num_spectra] ∧
        on_data_path_message open_env env3 r2.context e r2.error_records = some r3 ∧
        r3.context.state = run_state.STATE_DONE) := by
  refine ⟨?_, ?_, ?_⟩
  · intro ctx recorded errs hrec hsame
    exact on_data_path_message_quit_returned open_env env2 ctx q recorded errs hq hrec hsame hw
  · intro ctx errs
    exact on_data_path_message_end open_env env3 ctx e errs he
  · intro hrun hnone
    obtain ⟨r1, h1, hs1, hq1, -⟩ :=
      on_data_path_message_first_quit open_env env1 context q error_records hq hrun hnone
    have h2 := on_data_path_message_quit_returned open_env env2 r1.context q q r1.error_records
      hq hq1 rfl hw
    have h3 := on_data_path_message_end open_env env3
      { r1.context with
        end_msg := some (data_path_message_new env2.new_msg
          data_path_message_type.DATA_PATH_END r1.context.shared.signal_msg_num_spectra)
        quit_msg := none
        shared := { r1.context.shared with
          loop_fd := r1.context.shared.loop_fd ++
            [data_path_message_new env2.new_msg data_path_message_type.DATA_PATH_END
              r1.context.shared.signal_msg_num_spectra] } }
      e r1.error_records he
    have hn : r1.context.shared.signal_msg_num_spectra = context.shared.signal_msg_num_spectra := by
      have h1' := h1
      unfold on_data_path_message at h1'
      rw [hq] at h1'
      simp only [hnone, to_quit_state, hrun] at h1'
      simp only [reduceCtorEq, if_false, ne_eq, not_false_eq_true, if_true,
        Option.some.injEq] at h1'
      rw [← h1']
      cases hfd : context.fd_connections with
      | none => simp only [loopback_msg]; split_ifs <;> rfl
      | some seq =>
        have hf := (to_quit_state_loop_frame env1.disconnect seq (context, error_records)).2.2.2.2.2.2
        simp only [loopback_msg]
        split_ifs <;> exact hf
    refine ⟨r1, _, _, h1, hs1, hq1, h2, hs1, rfl, ?_, ?_, h3, rfl⟩
    · simp only [hn]
    · simp only [hn]

/-- C9 at a concrete input: the example context with one established
connection takes the quit message twice and then the End message. -/
theorem C9_quit_second_phase_witness :
    ∃ r1 r2 r3 : handler_result,
      on_data_path_message open_ok quit_ok
        (example_context example_config [(⟨1, 1⟩, 100)] [100] [(100, example_conn 5 0 [])])
        quit_message [] = some r1 ∧
      r1.context.state = run_state.STATE_QUIT ∧
      r1.context.quit_msg = some quit_message ∧
      on_data_path_message open_ok quit_ok r1.context quit_message r1.error_records = some r2 ∧
      r2.context.state = run_state.STATE_QUIT ∧
      r2.context.quit_msg = none ∧
      r2.context.end_msg = some (data_path_message_new quit_ok.new_msg
        data_path_message_type.DATA_PATH_END
        (example_context example_config [(⟨1, 1⟩, 100)] [100]
          [(100, example_conn 5 0 [])]).shared.signal_msg_num_spectra) ∧
      r2.context.shared.loop_fd = r1.context.shared.loop_fd ++
        [data_path_message_new quit_ok.new_msg data_path_message_type.DATA_PATH_END
          (example_context example_config [(⟨1, 1⟩, 100)] [100]
            [(100, example_conn 5 0 [])]).shared.signal_msg_num_spectra] ∧
      on_data_path_message open_ok quit_ok r2.context end_message r2.error_records = some r3 ∧
      r3.context.state = run_state.STATE_DONE :=
  (C9_quit_second_phase open_ok quit_ok quit_ok quit_ok
    (example_context example_config [(⟨1, 1⟩, 100)] [100] [(100, example_conn 5 0 [])])
    quit_message end_message [] rfl rfl rfl).2.2 rfl rfl

/-! ## C10: a second Quit -/

/-- C10: in state quit (every state after a first Quit and before End is
observed), a Quit message that is not the instance held in the quit slot (the
slot holds another instance or is empty) is handled with return code 0 and
leaves the whole context (run state, quit slot, end message, registry,
every connection, loopback pipe) and the error records unchanged.  The loop
iteration that pops it has the effect of an iteration that pops nothing, and
the loop behaves on every further input as it does without that message. -/
theorem C10_second_quit_is_idle (open_env : open_outcome) (env : quit_outcome)
    (context : spectrum_reader_context_) (msg : data_path_message)
    (error_records : List error_record) (rc : Int) (inputs : List tick_input)
    (hstate : context.state = run_state.STATE_QUIT)
    (htyp : msg.typ = data_path_message_type.DATA_PATH_QUIT)
    (hdiff : ∀ q, context.quit_msg = some q → q.addr ≠ msg.addr) :
    on_data_path_message open_env env context msg error_records
      = some ⟨context, error_records, 0⟩ ∧
    message_tick ⟨some msg, open_env, env⟩ context error_records
      = message_tick ⟨none, open_env, env⟩ context error_records ∧
    message_ticks (⟨some msg, open_env, env⟩ :: inputs) ⟨context, error_records, rc⟩
      = message_ticks inputs ⟨context, error_records, rc⟩ := by
  have h := on_data_path_message_quit_again open_env env context msg error_records hstate htyp
    hdiff
  have hnq : loop_quit context = false := by
    simp [loop_quit, hstate]
  refine ⟨h, ?_, ?_⟩
  · simp [message_tick, h]
  · simp [message_ticks, message_tick, h, hnq]

/-- C10 at a concrete input: the example context after a first Quit, and a
second Quit message at another address. -/
theorem C10_second_quit_is_idle_witness :
    on_data_path_message open_ok quit_ok quit_context second_quit_message []
      = some ⟨quit_context, [], 0⟩ :=
  (C10_second_quit_is_idle open_ok quit_ok quit_context second_quit_message [] 0 []
    (by decide) (by decide) (by decide)).1

/-! ## Lemmas on completion-event accounting -/

theorem table_lookup_remove_same {κ ν : Type} [DecidableEq κ] (t : List (κ × ν)) (k : κ) :
    table_lookup (table_remove t k) k = none := by
  induction t with
  | nil => simp [table_remove, table_lookup]
  | cons e rest ih =>
    by_cases h : e.1 = k
    · simp only [table_remove, h, if_true, ih]
    · simp only [table_remove, h, if_false, table_lookup, ih]

theorem table_lookup_remove_other {κ ν : Type} [DecidableEq κ] (t : List (κ × ν)) (k k' : κ)
    (hk : k' ≠ k) : table_lookup (table_remove t k) k' = table_lookup t k' := by
  induction t with
  | nil => simp [table_remove, table_lookup]
  | cons e rest ih =>
    by_cases h : e.1 = k
    · have h' : ¬ e.1 = k' := fun h2 => hk (h2.symm.trans h)
      simp only [table_remove, table_lookup, if_pos h, if_neg h', ih]
    · simp only [table_remove, h, if_false, table_lookup, ih]

theorem ack_completions_accounting (c : server_connection_context) (n : Nat) :
    (ack_completions c n).id.cq_events_acked + (ack_completions c n).num_not_ack
        = c.id.cq_events_acked + c.num_not_ack ∧
    (ack_completions c n).id.cq_events_acquired = c.id.cq_events_acquired ∧
    ((ack_completions c n).num_not_ack = 0 ∨ (ack_completions c n).num_not_ack < n) := by
  unfold ack_completions
  split_ifs with h
  · simp
  · exact ⟨rfl, rfl, Or.inr (by omega)⟩

theorem poll_completions_ack_frame (md5 : List Nat → List Nat) (c : server_connection_context)
    (polled : ibv_poll_cq_result) (error_records : List error_record) (r : poll_result)
    (h : poll_completions md5 c polled error_records = some r) :
    r.conn_ctx.id = c.id ∧ r.conn_ctx.num_not_ack = c.num_not_ack := by
  unfold poll_completions at h
  cases polled with
  | error errno =>
    simp only [Option.some.injEq] at h
    subst h
    exact ⟨rfl, rfl⟩
  | completions wcs =>
    simp only at h
    split_ifs at h with h1 h2
    · simp only [Option.some.injEq] at h
      subst h
      exact ⟨rfl, rfl⟩
    · simp only [Option.some.injEq] at h
      subst h
      exact ⟨rfl, rfl⟩

/-- What the reaping of `get_completed_requests` does to the counters of
completion events. -/
theorem get_completed_requests_conn_accounting (md5 : List Nat → List Nat)
    (env : completion_outcome) (c : server_connection_context)
    (error_records : List error_record) (r : poll_result)
    (h : get_completed_requests_conn md5 env c error_records = some r) :
    (r.conn_ctx.id.cq_events_acked + r.conn_ctx.num_not_ack + c.id.cq_events_acquired
        = c.id.cq_events_acked + c.num_not_ack + r.conn_ctx.id.cq_events_acquired) ∧
    (env.get_cq_event.rc = 0 →
      r.conn_ctx.id.cq_events_acquired = c.id.cq_events_acquired + 1 ∧
      (r.conn_ctx.num_not_ack = 0 ∨ r.conn_ctx.num_not_ack < c.min_ack)) ∧
    (env.get_cq_event.rc ≠ 0 → r.conn_ctx = c) := by
  simp only [get_completed_requests_conn] at h
  have hack := ack_completions_accounting
    { c with
      id := { c.id with cq_events_acquired := c.id.cq_events_acquired + 1 }
      num_not_ack := c.num_not_ack + 1 } c.min_ack
  simp only at hack
  generalize hA : ack_completions _ _ = A at h hack
  obtain ⟨a1, a2, a3⟩ := hack
  split_ifs at h with h1 h2
  · simp only [Option.some.injEq] at h
    subst h
    exact ⟨rfl, fun h0 => absurd h0 h1, fun _ => rfl⟩
  · simp only [Option.some.injEq] at h
    subst h
    refine ⟨?_, fun _ => ⟨a2, a3⟩, fun h0 => absurd (not_not.mp h1) h0⟩
    simp only
    omega
  · obtain ⟨p1, p2⟩ := poll_completions_ack_frame md5 _ _ _ r h
    refine ⟨?_, fun _ => ⟨?_, ?_⟩, fun h0 => absurd (not_not.mp h1) h0⟩
    · rw [p1, p2]
      omega
    · rw [p1]
      exact a2
    · rw [p2]
      exact a3

theorem conn_step_accounting (config : vysmaw_configuration) (md5 : List Nat → List Nat)
    (op : conn_op) (c c' : server_connection_context)
    (hstep : conn_step config md5 op c = some c')
    (hinv : c.id.cq_events_acked + c.num_not_ack = c.id.cq_events_acquired) :
    c'.id.cq_events_acked + c'.num_not_ack = c'.id.cq_events_acquired := by
  cases op with
  | addr_resolved env =>
    simp only [conn_step, Option.some.injEq] at hstep
    subst hstep
    unfold on_server_addr_resolved_conn
    split_ifs <;> simpa [set_max_posted_wr] using hinv
  | route_resolved env =>
    simp only [conn_step, Option.some.injEq] at hstep
    subst hstep
    exact hinv
  | established rkey depth env =>
    simp only [conn_step, Option.some.injEq] at hstep
    subst hstep
    exact hinv
  | signal payload consumers =>
    simp only [conn_step, Option.some.injEq] at hstep
    subst hstep
    unfold on_signal_message_conn
    split_ifs <;> exact hinv
  | post env =>
    simp only [conn_step, Option.some.injEq] at hstep
    subst hstep
    exact hinv
  | reap env =>
    simp only [conn_step, Option.map_eq_some'] at hstep
    obtain ⟨r, hr, hrc⟩ := hstep
    subst hrc
    have h := (get_completed_requests_conn_accounting md5 env c [] r hr).1
    omega
  | access now =>
    simp only [conn_step, Option.some.injEq] at hstep
    subst hstep
    exact hinv
  | begin_disconnect disc =>
    simp only [conn_step, Option.some.injEq] at hstep
    subst hstep
    unfold begin_server_disconnect
    split_ifs <;> exact hinv

theorem conn_run_accounting (config : vysmaw_configuration) (md5 : List Nat → List Nat)
    (ops : List conn_op) (c c' : server_connection_context)
    (hrun : conn_run config md5 ops c = some c')
    (hinv : c.id.cq_events_acked + c.num_not_ack = c.id.cq_events_acquired) :
    c'.id.cq_events_acked + c'.num_not_ack = c'.id.cq_events_acquired := by
  induction ops generalizing c with
  | nil =>
    simp only [conn_run, Option.some.injEq] at hrun
    subst hrun
    exact hinv
  | cons op ops ih =>
    simp only [conn_run] at hrun
    cases hstep : conn_step config md5 op c with
    | none => simp [hstep] at hrun
    | some c1 =>
      simp only [hstep, Option.some_bind] at hrun
      exact ih c1 hrun (conn_step_accounting config md5 op c c1 hstep hinv)

/-- What `complete_server_disconnect` does to the context when it returns. -/
theorem complete_server_disconnect_context (env : teardown_outcome)
    (context : spectrum_reader_context_) (p : Nat) (error_records : List error_record)
    (r : handler_result)
    (h : complete_server_disconnect env context p error_records = some r) :
    ∃ c fd, conn_at context p = some c ∧ c.id.send_cq_channel = some fd ∧
      r.context
        = { context with
            connections := context.connections.map (fun t => table_remove t c.id.dst_sin)
            fd_connections := context.fd_connections.map
              (fun seq => seq.eraseIdx (find_server_connection_context_iter context fd))
            new_pollfds := remove_pollfd fd (staged_pollfds context)
            heap := table_remove context.heap p
            shared := { context.shared with
              closed := context.shared.closed ++ [ack_completions { c with reqs := [] } 1] } } := by
  unfold complete_server_disconnect at h
  cases hc : conn_at context p with
  | none => simp [hc] at h
  | some c =>
    cases hfd : c.id.send_cq_channel with
    | none => simp [hc, hfd] at h
    | some fd =>
      simp only [hc, hfd, Option.some.injEq] at h
      subst h
      exact ⟨c, fd, rfl, hfd, rfl⟩

/-! ## C19: accounting of completion events -/

/-- C19: a connection is opened and taken through any sequence of operations
to the state `c`.  (1) The completion events acknowledged so far plus
`num_not_ack` equal the completion events acquired so far.  (2) When
`get_completed_requests` acquires a further event, the equation holds again
afterwards and, after its acknowledgement step, `num_not_ack` is 0 or less
than `min_ack`.  (3) When `complete_server_disconnect` releases the
connection (acknowledgement with threshold 1), the released connection has
`num_not_ack = 0` and every completion event it acquired has been
acknowledged, and the connection context is gone. -/
theorem C19_ack_accounting (config : vysmaw_configuration) (md5 : List Nat → List Nat)
    (sockaddr : sockaddr_in) (now : Nat) (ops : List conn_op) (c : server_connection_context)
    (hrun : conn_run config md5 ops (new_server_connection config sockaddr now) = some c) :
    c.id.cq_events_acked + c.num_not_ack = c.id.cq_events_acquired ∧
    (∀ (env : completion_outcome) (error_records : List error_record) (r : poll_result),
      get_completed_requests_conn md5 env c error_records = some r →
      env.get_cq_event.rc = 0 →
      r.conn_ctx.id.cq_events_acquired = c.id.cq_events_acquired + 1 ∧
      r.conn_ctx.id.cq_events_acked + r.conn_ctx.num_not_ack
        = r.conn_ctx.id.cq_events_acquired ∧
      (r.conn_ctx.num_not_ack = 0 ∨ r.conn_ctx.num_not_ack < r.conn_ctx.min_ack)) ∧
    (∀ (env : teardown_outcome) (context : spectrum_reader_context_) (p : Nat)
        (error_records : List error_record) (r : handler_result),
      conn_at context p = some c →
      complete_server_disconnect env context p error_records = some r →
      ∃ closed, r.context.shared.closed = context.shared.closed ++ [closed] ∧
        closed.num_not_ack = 0 ∧
        closed.id.cq_events_acked = closed.id.cq_events_acquired ∧
        closed.id.cq_events_acquired = c.id.cq_events_acquired ∧
        conn_at r.context p = none) := by
  have hinv := conn_run_accounting config md5 ops _ c hrun rfl
  refine ⟨hinv, ?_, ?_⟩
  · intro env error_records r hr hev
    have h := get_completed_requests_conn_accounting md5 env c error_records r hr
    have hmin := (get_completed_requests_conn_frame md5 env c error_records r hr).2.2.1
    obtain ⟨h1, h2, -⟩ := h
    obtain ⟨h3, h4⟩ := h2 hev
    refine ⟨h3, by omega, ?_⟩
    rw [hmin]
    exact h4
  · intro env context p error_records r hc hr
    obtain ⟨c0, fd, hc0, -, hctx⟩ := complete_server_disconnect_context env context p
      error_records r hr
    rw [hc] at hc0
    cases hc0
    have hack := ack_completions_accounting { c with reqs := [] } 1
    simp only at hack
    obtain ⟨a1, a2, a3⟩ := hack
    refine ⟨ack_completions { c with reqs := [] } 1, ?_, ?_, ?_, a2, ?_⟩
    · rw [hctx]
    · omega
    · omega
    · rw [hctx]
      simp only [conn_at]
      exact table_lookup_remove_same _ _

/-- C19 at a concrete input: the example life of a connection, in which one
completion event is acquired and, the threshold being zero, acknowledged. -/
theorem C19_ack_accounting_witness :
    ∃ c, conn_run backlog_config example_md5 example_life
        (new_server_connection backlog_config ⟨1, 1⟩ 0) = some c ∧
      c.id.cq_events_acked + c.num_not_ack = c.id.cq_events_acquired := by
  have h : (conn_run backlog_config example_md5 example_life
      (new_server_connection backlog_config ⟨1, 1⟩ 0)).isSome = true := by decide
  obtain ⟨c, hc⟩ := Option.isSome_iff_exists.mp h
  exact ⟨c, hc, (C19_ack_accounting backlog_config example_md5 ⟨1, 1⟩ 0 example_life c hc).1⟩

/-! ## Lemmas on the posting loop -/

theorem post_server_reads_loop_stopped (env : Nat → post_outcome) (max_posted_wr : Nat)
    (mrs : Option (List (Nat × Nat))) (rkey : Nat) (reqs : List rdma_req) (k : Nat)
    (st : post_state) (hst : st.rc ≠ 0) :
    post_server_reads_loop env max_posted_wr mrs rkey reqs k st = (reqs, st) := by
  cases reqs with
  | nil => rfl
  | cons req rest => simp [post_server_reads_loop, hst]

/-- What one iteration of the posting loop does with the request at the head
of the FIFO, by the outcome of its library calls. -/
theorem post_server_reads_loop_cons (env : Nat → post_outcome) (max_posted_wr : Nat)
    (mrs : Option (List (Nat × Nat))) (rkey : Nat) (req : rdma_req) (rest : List rdma_req)
    (k : Nat) (st : post_state) (hrc : st.rc = 0) (hnum : st.num_posted_wr < max_posted_wr) :
    ((env k).alloc = none ∧
      post_server_reads_loop env max_posted_wr mrs rkey (req :: rest) k st
        = post_server_reads_loop env max_posted_wr mrs rkey rest (k + 1)
            { st with freed := st.freed ++ [req] }) ∨
    (∃ b mr pool, (env k).alloc = some b ∧ (env k).post.rc = 0 ∧
      post_server_reads_loop env max_posted_wr mrs rkey (req :: rest) k st
        = post_server_reads_loop env max_posted_wr mrs rkey rest (k + 1)
            { st with
              rc := 0
              mr := mr
              pool_id := pool
              num_posted_wr := st.num_posted_wr + 1
              posted := st.posted ++
                [⟨{ req with
                    message := (valid_buffer_message_new req.data_info (env k).alloc).map
                      (fun m => m.1) }, mr, rkey⟩] }) ∨
    (∃ b mr pool, (env k).alloc = some b ∧ (env k).post.rc ≠ 0 ∧
      post_server_reads_loop env max_posted_wr mrs rkey (req :: rest) k st
        = (rest,
            { st with
              rc := (env k).post.rc
              mr := mr
              pool_id := pool
              error_records := MSG_ERROR st.error_records (env k).post.errno "rdma_post_read" })) := by
  cases halloc : (env k).alloc with
  | none =>
    left
    refine ⟨rfl, ?_⟩
    simp [post_server_reads_loop, hrc, hnum, halloc, valid_buffer_message_new]
  | some b =>
    right
    by_cases hpost : (env k).post.rc = 0
    · left
      refine ⟨b,
        if (st.mr.isNone || decide (some b.pool_id ≠ st.pool_id)) = true then
          mrs_lookup mrs b.pool_id else st.mr,
        if (st.mr.isNone || decide (some b.pool_id ≠ st.pool_id)) = true then
          some b.pool_id else st.pool_id, rfl, hpost, ?_⟩
      simp only [post_server_reads_loop, hrc, hnum, halloc, valid_buffer_message_new, and_self,
        if_true, hpost, Option.map_some']
    · right
      refine ⟨b,
        if (st.mr.isNone || decide (some b.pool_id ≠ st.pool_id)) = true then
          mrs_lookup mrs b.pool_id else st.mr,
        if (st.mr.isNone || decide (some b.pool_id ≠ st.pool_id)) = true then
          some b.pool_id else st.pool_id, rfl, hpost, ?_⟩
      simp only [post_server_reads_loop, hrc, hnum, halloc, valid_buffer_message_new, and_self,
        if_true, hpost, if_false]
      exact post_server_reads_loop_stopped env max_posted_wr mrs rkey rest (k + 1) _ hpost

/-- The posting loop started with return code 0: it consumes a prefix of the
FIFO, request by request, as the outcomes of the library calls dictate. -/
theorem post_server_reads_loop_spec (env : Nat → post_outcome) (max_posted_wr : Nat)
    (mrs : Option (List (Nat × Nat))) (rkey : Nat) (reqs : List rdma_req) (k : Nat)
    (st : post_state) (hrc : st.rc = 0) :
    ∃ n, n ≤ reqs.length ∧
      (post_server_reads_loop env max_posted_wr mrs rkey reqs k st).1 = reqs.drop n ∧
      (post_server_reads_loop env max_posted_wr mrs rkey reqs k st).2.freed
        = st.freed ++ (((reqs.take n).enumFrom k).filter
            (fun e => (env e.1).alloc_failed)).map (fun e => e.2) ∧
      (post_server_reads_loop env max_posted_wr mrs rkey reqs k st).2.posted.map
          (fun w => w.wr_id)
        = st.posted.map (fun w => w.wr_id) ++ (((reqs.take n).enumFrom k).filter
            (fun e => (env e.1).accepted)).map
            (fun e => { e.2 with
              message := (valid_buffer_message_new e.2.data_info (env e.1).alloc).map
                (fun m => m.1) }) ∧
      (post_server_reads_loop env max_posted_wr mrs rkey reqs k st).2.num_posted_wr
        = st.num_posted_wr + (((reqs.take n).enumFrom k).filter
            (fun e => (env e.1).accepted)).length ∧
      (∀ j, j + 1 < n → (env (k + j)).post_failed = false) ∧
      (∀ j, j < n → st.num_posted_wr + (((reqs.take j).enumFrom k).filter
            (fun e => (env e.1).accepted)).length < max_posted_wr) ∧
      ((post_server_reads_loop env max_posted_wr mrs rkey reqs k st).2.rc ≠ 0 →
        ∃ j, n = j + 1 ∧ (env (k + j)).post_failed = true ∧
          (post_server_reads_loop env max_posted_wr mrs rkey reqs k st).2.rc
            = (env (k + j)).post.rc) ∧
      ((post_server_reads_loop env max_posted_wr mrs rkey reqs k st).2.rc = 0 →
        (∀ j, j < n → (env (k + j)).post_failed = false) ∧
        (max_posted_wr ≤
            (post_server_reads_loop env max_posted_wr mrs rkey reqs k st).2.num_posted_wr ∨
          (post_server_reads_loop env max_posted_wr mrs rkey reqs k st).1 = [])) := by
  induction reqs generalizing k st with
  | nil =>
    refine ⟨0, le_refl _, ?_⟩
    simp [post_server_reads_loop, hrc]
  | cons req rest ih =>
    by_cases hnum : st.num_posted_wr < max_posted_wr
    · rcases post_server_reads_loop_cons env max_posted_wr mrs rkey req rest k st hrc hnum with
        ⟨halloc, heq⟩ | ⟨b, mr, pool, halloc, hpost, heq⟩ | ⟨b, mr, pool, halloc, hpost, heq⟩
      · -- the buffer pool has no buffer: the request is destroyed
        obtain ⟨n, hn, h1, h2, h3, h4, h5, h6, h7, h8⟩ := ih (k + 1)
          { st with freed := st.freed ++ [req] } hrc
        have hfail : (env k).alloc_failed = true := by simp [post_outcome.alloc_failed, halloc]
        have hacc : (env k).accepted = false := by simp [post_outcome.accepted, halloc]
        have hpf : (env k).post_failed = false := by simp [post_outcome.post_failed, halloc]
        rw [heq]
        refine ⟨n + 1, Nat.succ_le_succ hn, ?_, ?_, ?_, ?_, ?_, ?_, ?_, ?_⟩
        · simpa using h1
        · rw [h2]
          simp [List.enumFrom_cons, List.filter_cons, hfail]
        · rw [h3]
          simp [List.enumFrom_cons, List.filter_cons, hacc]
        · rw [h4]
          simp [List.enumFrom_cons, List.filter_cons, hacc]
        · intro j hj
          cases j with
          | zero => simpa using hpf
          | succ j =>
            have := h5 j (by omega)
            rwa [Nat.add_assoc, Nat.add_comm 1 j] at this
        · intro j hj
          cases j with
          | zero => simpa using hnum
          | succ j =>
            have := h6 j (by omega)
            simpa [List.enumFrom_cons, List.filter_cons, hacc] using this
        · intro hne
          obtain ⟨j, hj, hjf, hjrc⟩ := h7 hne
          refine ⟨j + 1, by omega, ?_, ?_⟩
          · rwa [Nat.add_assoc, Nat.add_comm 1 j] at hjf
          · rwa [Nat.add_assoc, Nat.add_comm 1 j] at hjrc
        · intro hz
          obtain ⟨ha, hb⟩ := h8 hz
          refine ⟨?_, hb⟩
          intro j hj
          cases j with
          | zero => simpa using hpf
          | succ j =>
            have := ha j (by omega)
            rwa [Nat.add_assoc, Nat.add_comm 1 j] at this
      · -- the read is posted
        obtain ⟨n, hn, h1, h2, h3, h4, h5, h6, h7, h8⟩ := ih (k + 1)
          { st with
            rc := 0
            mr := mr
            pool_id := pool
            num_posted_wr := st.num_posted_wr + 1
            posted := st.posted ++
              [⟨{ req with
                  message := (valid_buffer_message_new req.data_info (env k).alloc).map
                    (fun m => m.1) }, mr, rkey⟩] } rfl
        have hfail : (env k).alloc_failed = false := by simp [post_outcome.alloc_failed, halloc]
        have hacc : (env k).accepted = true := by simp [post_outcome.accepted, halloc, hpost]
        have hpf : (env k).post_failed = false := by
          simp [post_outcome.post_failed, halloc, hpost]
        rw [heq]
        refine ⟨n + 1, Nat.succ_le_succ hn, ?_, ?_, ?_, ?_, ?_, ?_, ?_, ?_⟩
        · simpa using h1
        · rw [h2]
          simp [List.enumFrom_cons, List.filter_cons, hfail]
        · rw [h3]
          simp [List.enumFrom_cons, List.filter_cons, hacc]
        · rw [h4]
          simp [List.enumFrom_cons, List.filter_cons, hacc]
          omega
        · intro j hj
          cases j with
          | zero => simpa using hpf
          | succ j =>
            have := h5 j (by omega)
            rwa [Nat.add_assoc, Nat.add_comm 1 j] at this
        · intro j hj
          cases j with
          | zero => simpa using hnum
          | succ j =>
            have := h6 j (by omega)
            simp only [List.take_succ_cons, List.enumFrom_cons, List.filter_cons, hacc, if_true,
              List.length_cons]
            simp only at this
            omega
        · intro hne
          obtain ⟨j, hj, hjf, hjrc⟩ := h7 hne
          refine ⟨j + 1, by omega, ?_, ?_⟩
          · rwa [Nat.add_assoc, Nat.add_comm 1 j] at hjf
          · rwa [Nat.add_assoc, Nat.add_comm 1 j] at hjrc
        · intro hz
          obtain ⟨ha, hb⟩ := h8 hz
          refine ⟨?_, hb⟩
          intro j hj
          cases j with
          | zero => simpa using hpf
          | succ j =>
            have := ha j (by omega)
            rwa [Nat.add_assoc, Nat.add_comm 1 j] at this
      · -- the post fails: the loop stops
        have hfail : (env k).alloc_failed = false := by simp [post_outcome.alloc_failed, halloc]
        have hacc : (env k).accepted = false := by simp [post_outcome.accepted, halloc, hpost]
        have hpf : (env k).post_failed = true := by
          simp [post_outcome.post_failed, halloc, hpost]
        rw [heq]
        refine ⟨1, by simp, ?_, ?_, ?_, ?_, ?_, ?_, ?_, ?_⟩
        · simp
        · simp [List.enumFrom_cons, List.filter_cons, hfail]
        · simp [List.enumFrom_cons, List.filter_cons, hacc]
        · simp [List.enumFrom_cons, List.filter_cons, hacc]
        · intro j hj
          omega
        · intro j hj
          have hj0 : j = 0 := by omega
          subst hj0
          simpa using hnum
        · intro _
          exact ⟨0, rfl, by simpa using hpf, by simp⟩
        · intro hz
          exact absurd hz hpost
    · -- no credit: the loop does not run
      have heq : post_server_reads_loop env max_posted_wr mrs rkey (req :: rest) k st
          = (req :: rest, st) := by
        simp [post_server_reads_loop, hnum]
      rw [heq]
      refine ⟨0, Nat.zero_le _, ?_⟩
      simp only [List.drop_zero, List.take_zero, List.enumFrom_nil, List.filter_nil,
        List.map_nil, List.append_nil, List.length_nil, Nat.add_zero, true_and]
      refine ⟨fun j hj => by omega, fun j hj => by omega, fun h => absurd hrc h, fun _ =>
        ⟨fun j hj => by omega, Or.inl (by omega)⟩⟩

/-! ## C17: posting reads -/

/-- C17: `post_server_reads` is a total function (it terminates).  On a
connection within its credit it consumes a prefix of the pending FIFO, the
first `n` requests in FIFO order, the `j`-th with the library outcomes
`env j`, and leaves the rest of the FIFO untouched.  Each request is taken
while `num_posted_wr < max_posted_wr`.  A consumed request whose buffer
allocation fails is destroyed and does not change `num_posted_wr`; a consumed
request that gets a buffer and is posted with success is posted with that
buffer as its message and adds one to `num_posted_wr`.  Only the last consumed
request can be one whose post fails, and the result is non-zero exactly then
(it is the return value of that post).  When no post fails the result is 0 and
either `num_posted_wr = max_posted_wr` or the pending FIFO is empty. -/
theorem C17_post_server_reads (env : Nat → post_outcome) (c : server_connection_context)
    (error_records : List error_record) (hcredit : c.num_posted_wr ≤ c.max_posted_wr) :
    ∃ n, n ≤ c.reqs.length ∧
      (post_server_reads env c error_records).conn_ctx.reqs = c.reqs.drop n ∧
      (post_server_reads env c error_records).freed
        = (((c.reqs.take n).enum).filter (fun e => (env e.1).alloc_failed)).map (fun e => e.2) ∧
      (post_server_reads env c error_records).posted.map (fun w => w.wr_id)
        = (((c.reqs.take n).enum).filter (fun e => (env e.1).accepted)).map
            (fun e => { e.2 with
              message := (valid_buffer_message_new e.2.data_info (env e.1).alloc).map
                (fun m => m.1) }) ∧
      (post_server_reads env c error_records).conn_ctx.num_posted_wr
        = c.num_posted_wr + (post_server_reads env c error_records).posted.length ∧
      (∀ j, j + 1 < n → (env j).post_failed = false) ∧
      (∀ j, j < n → c.num_posted_wr + (((c.reqs.take j).enum).filter
            (fun e => (env e.1).accepted)).length < c.max_posted_wr) ∧
      ((post_server_reads env c error_records).rc ≠ 0 →
        ∃ j, n = j + 1 ∧ (env j).post_failed = true ∧
          (post_server_reads env c error_records).rc = (env j).post.rc) ∧
      ((post_server_reads env c error_records).rc = 0 →
        (∀ j, j < n → (env j).post_failed = false) ∧
        ((post_server_reads env c error_records).conn_ctx.num_posted_wr = c.max_posted_wr ∨
          (post_server_reads env c error_records).conn_ctx.reqs = [])) := by
  obtain ⟨n, hn, h1, h2, h3, h4, h5, h6, h7, h8⟩ :=
    post_server_reads_loop_spec env c.max_posted_wr c.mrs c.rkey c.reqs 0
      { rc := 0
        num_posted_wr := c.num_posted_wr
        mr := none
        pool_id := none
        error_records := error_records
        posted := []
        freed := [] } rfl
  have hle := post_server_reads_num_le env c error_records hcredit
  have hlen : (post_server_reads env c error_records).posted.length
      = (((c.reqs.take n).enum).filter (fun e => (env e.1).accepted)).length := by
    have := congrArg List.length h3
    simpa [post_server_reads, List.enum] using this
  refine ⟨n, hn, h1, ?_, ?_, ?_, ?_, ?_, ?_, ?_⟩
  · simpa [post_server_reads, List.enum] using h2
  · simpa [post_server_reads, List.enum] using h3
  · rw [hlen]
    exact h4
  · intro j hj
    simpa using h5 j hj
  · intro j hj
    exact h6 j hj
  · intro hne
    obtain ⟨j, hj, hjf, hjrc⟩ := h7 hne
    exact ⟨j, hj, by simpa using hjf, by simpa using hjrc⟩
  · intro hz
    obtain ⟨ha, hb⟩ := h8 hz
    refine ⟨fun j hj => by simpa using ha j hj, ?_⟩
    rcases hb with hb | hb
    · left
      exact le_antisymm hle hb
    · right
      exact hb

/-- C17 at a concrete input: an established connection with credit for four
reads and two pending requests, every library call succeeding. -/
theorem C17_post_server_reads_witness :
    ∃ n, n ≤ 2 ∧
      (post_server_reads post_ok (example_conn 5 0 [example_req 1 [], example_req 2 []])
        []).conn_ctx.reqs = [example_req 1 [], example_req 2 []].drop n := by
  obtain ⟨n, h1, h2, -⟩ := C17_post_server_reads post_ok
    (example_conn 5 0 [example_req 1 [], example_req 2 []]) [] (by decide)
  exact ⟨n, h1, h2⟩

/-! ## C16: lookup by completion fd -/

/-- C16 (the code at a failing input): the sorted sequence holds one
connection, with completion fd 5.  The lookup of fd 5 finds it; the lookups of
fd 7 and of fd 3, which no connection of the sequence has, return that same
connection instead of no connection. -/
theorem C16_lookup_of_absent_fd_returns_a_connection :
    find_server_connection_context
        (example_context example_config [(⟨1, 1⟩, 100)] [100] [(100, example_conn 5 0 [])]) 5
      = some 100 ∧
    find_server_connection_context
        (example_context example_config [(⟨1, 1⟩, 100)] [100] [(100, example_conn 5 0 [])]) 7
      = some 100 ∧
    find_server_connection_context
        (example_context example_config [(⟨1, 1⟩, 100)] [100] [(100, example_conn 5 0 [])]) 3
      = some 100 := by
  decide

/-! ## C18: accounting of read requests -/

/-- C18 (the code at a failing input): (1) `post_server_reads` on a connection
with one pending request, for which a buffer is obtained and `rdma_post_read`
fails: afterwards the request is not pending, has not been posted and has not
been destroyed.  (2) Read-completion handling that reaps one completion while
one request is pending and the follow-up post fails: it returns the error, the
reaped request has been neither delivered nor destroyed, and the pending
request is lost as in (1). -/
theorem C18_failed_post_loses_requests :
    ((post_server_reads post_fails (example_conn 5 0 [example_req 1 []]) []).rc,
      (post_server_reads post_fails (example_conn 5 0 [example_req 1 []]) []).conn_ctx.reqs,
      (post_server_reads post_fails (example_conn 5 0 [example_req 1 []]) []).posted,
      (post_server_reads post_fails (example_conn 5 0 [example_req 1 []]) []).freed)
      = (-1, [], [], []) ∧
    (on_read_completion example_md5
        (completion_post_fails [⟨example_req 2 [], IBV_WC_SUCCESS⟩])
        (example_context example_config [(⟨1, 1⟩, 100)] [100]
          [(100, example_conn 5 1 [example_req 1 []])]) 2 []).map
      (fun r => (r.rc, r.context.shared.queues, r.context.shared.freed_reqs,
        r.context.shared.posted,
        (conn_at r.context 100).map (fun c => (c.reqs, c.num_posted_wr))))
      = some (-1, [], [], [], some ([], 0)) := by
  constructor
  · rfl
  · rfl

/-! ## Lemmas on the final result -/

theorem string_foldl_append (l : List String) (s : String) :
    List.foldl (fun r x => r ++ x) s l = s ++ List.foldl (fun r x => r ++ x) "" l := by
  induction l generalizing s with
  | nil => simp
  | cons a l ih =>
    simp only [List.foldl_cons]
    rw [ih (s ++ a), ih ("" ++ a)]
    simp [String.append_assoc]

theorem append_descriptions_eq (records : List error_record) (str : String) :
    append_descriptions records str
      = str ++ String.join (records.map (fun r => r.desc ++ "\n")) := by
  induction records generalizing str with
  | nil => simp [append_descriptions, String.join]
  | cons er rest ih =>
    simp only [append_descriptions, ih, List.map_cons, String.join, List.foldl_cons]
    rw [string_foldl_append _ ("" ++ (er.desc ++ "\n"))]
    simp [String.append_assoc]

/-! ## C11: the final End result -/

/-- C11: at the end of `spectrum_reader`, with an End message in `end_msg`,
the result posted to the consumer queues is made from the combined list, the
error records of the reactor followed by those attached to the End message.
It has code `no_error` and no description if and only if the combined list is
empty; otherwise it has code `syserr` and its description is the
concatenation, in list order, of each record's description followed by a
newline. -/
theorem C11_final_end_result (error_records : List error_record) (m : data_path_message)
    (hend : m.typ = data_path_message_type.DATA_PATH_END) :
    ∃ result, spectrum_reader_result error_records (some m) = some result ∧
      ((result.code = vysmaw_result_code.VYSMAW_NO_ERROR ∧ result.syserr_desc = none) ↔
        error_records ++ m.error_records = []) ∧
      (error_records ++ m.error_records ≠ [] →
        result.code = vysmaw_result_code.VYSMAW_SYSERR ∧
        result.syserr_desc
          = some (String.join ((error_records ++ m.error_records).map
              (fun r => r.desc ++ "\n")))) := by
  unfold spectrum_reader_result
  simp only [hend, ne_eq, not_true_eq_false, if_false]
  cases hrec : error_records ++ m.error_records with
  | nil => exact ⟨_, rfl, by simp, by simp⟩
  | cons er rest =>
    refine ⟨_, rfl, by simp, fun _ => ⟨rfl, ?_⟩⟩
    simp only [append_descriptions_eq, Option.some.injEq]
    simp

/-- C11 at a concrete input: the reactor has recorded one error, the End
message carries another. -/
theorem C11_final_end_result_witness :
    spectrum_reader_result [⟨-1, "rdma_connect"⟩]
        (some { end_message with error_records := [⟨5, "receive"⟩] })
      = some ⟨vysmaw_result_code.VYSMAW_SYSERR, some "rdma_connect\nreceive\n"⟩ := by
  obtain ⟨result, h1, -, h3⟩ := C11_final_end_result [⟨-1, "rdma_connect"⟩]
    { end_message with error_records := [⟨5, "receive"⟩] } rfl
  rw [h1]
  have h := h3 (by simp)
  cases result with
  | mk code desc =>
    simp only at h
    rw [h.1, h.2]
    rfl

/-! ## Lemmas on sweeps that begin disconnects -/

theorem begin_server_disconnect_conn (disc : call_result) (c : server_connection_context)
    (error_records : List error_record) :
    (begin_server_disconnect disc c error_records).conn_ctx
      = { c with reqs := [], established := false } := by
  unfold begin_server_disconnect
  cases hc : c.established with
  | true => simp
  | false =>
    simp only [Bool.false_eq_true, if_false]

theorem conn_at_log_freed (context : spectrum_reader_context_) (reqs : List rdma_req) (p : Nat) :
    conn_at (log_freed context reqs) p = conn_at context p := rfl

theorem disconnect_inactive_loop_frame (env : inactivity_outcome) (timeout : Nat)
    (entries : List (sockaddr_in × Nat)) (st : spectrum_reader_context_ × List error_record) :
    (disconnect_inactive_loop env timeout entries st).1.connections = st.1.connections ∧
    (disconnect_inactive_loop env timeout entries st).1.fd_connections = st.1.fd_connections ∧
    (disconnect_inactive_loop env timeout entries st).1.state = st.1.state ∧
    (disconnect_inactive_loop env timeout entries st).1.pollfds = st.1.pollfds ∧
    (disconnect_inactive_loop env timeout entries st).1.new_pollfds = st.1.new_pollfds := by
  induction entries generalizing st with
  | nil => simp [disconnect_inactive_loop]
  | cons e rest ih =>
    unfold disconnect_inactive_loop
    cases conn_at st.1 e.2 with
    | none => exact ih st
    | some c =>
      simp only
      split_ifs
      · exact ih _
      · exact ih st

theorem disconnect_inactive_loop_conn (env : inactivity_outcome) (timeout : Nat)
    (entries : List (sockaddr_in × Nat)) (st : spectrum_reader_context_ × List error_record)
    (p : Nat) :
    conn_at (disconnect_inactive_loop env timeout entries st).1 p
      = (conn_at st.1 p).map (fun c =>
          if p ∈ entries.map (fun e => e.2) ∧ g_timer_elapsed c env.now ≥ timeout then
            { c with reqs := [], established := false }
          else c) := by
  induction entries generalizing st with
  | nil => simp [disconnect_inactive_loop]
  | cons e rest ih =>
    unfold disconnect_inactive_loop
    cases hq : conn_at st.1 e.2 with
    | none =>
      simp only
      rw [ih st]
      by_cases hp : p = e.2
      · subst hp
        simp [hq]
      · simp only [List.map_cons, List.mem_cons, hp, false_or]
    | some cq =>
      simp only
      split_ifs with hel
      · rw [ih, begin_server_disconnect_conn]
        by_cases hp : p = e.2
        · subst hp
          simp only [conn_at_log_freed, conn_at_conn_store, hq, Option.map_some',
            List.map_cons, List.mem_cons, true_or, true_and, Option.some.injEq]
          have hel' : g_timer_elapsed { cq with reqs := [], established := false } env.now
              ≥ timeout := hel
          simp [hel, hel']
        · simp only [conn_at_log_freed, conn_at_conn_store_other _ _ _ _ hp, List.map_cons,
            List.mem_cons, hp, false_or]
      · rw [ih st]
        by_cases hp : p = e.2
        · subst hp
          simp [hq, hel]
        · simp only [List.map_cons, List.mem_cons, hp, false_or]

/-! ## C15: the inactivity sweep -/

/-- C15: after `on_inactivity_timer_event` the registry is the same table as
before (no connection is added or removed), and every registered connection,
with state `c` before the event, is as follows: if the time elapsed on its
access timer is at least `inactive_server_timeout_sec`, its disconnect has
been begun (it is `c` with an empty pending FIFO and not marked established);
if the elapsed time is smaller, it is unchanged. -/
theorem C15_inactivity_sweep (env : inactivity_outcome) (context : spectrum_reader_context_)
    (error_records : List error_record) (key : sockaddr_in) (p : Nat)
    (c : server_connection_context)
    (hreg : (key, p) ∈ context.connections.getD [])
    (hconn : conn_at context p = some c) :
    (on_inactivity_timer_event env context error_records).context.connections
      = context.connections ∧
    (g_timer_elapsed c env.now ≥ context.shared.config.inactive_server_timeout_sec →
      conn_at (on_inactivity_timer_event env context error_records).context p
        = some { c with reqs := [], established := false }) ∧
    (g_timer_elapsed c env.now < context.shared.config.inactive_server_timeout_sec →
      conn_at (on_inactivity_timer_event env context error_records).context p = some c) := by
  have hmem : p ∈ (context.connections.getD []).map (fun e => e.2) :=
    List.mem_map.mpr ⟨(key, p), hreg, rfl⟩
  have hloop := disconnect_inactive_loop_conn env
    context.shared.config.inactive_server_timeout_sec (context.connections.getD [])
    (context, error_records) p
  simp only [hconn, Option.map_some', hmem, true_and] at hloop
  refine ⟨(disconnect_inactive_loop_frame env _ _ (context, error_records)).1, ?_, ?_⟩
  · intro hel
    simp only [on_inactivity_timer_event, hloop, hel, if_true]
  · intro hel
    have hnot : ¬ g_timer_elapsed c env.now
        ≥ context.shared.config.inactive_server_timeout_sec := by omega
    simp only [on_inactivity_timer_event, hloop, hnot, if_false]

/-- C15 at a concrete input: at time 100 with a timeout of 60, a registered
connection last accessed at time 0 with one pending request has its disconnect
begun. -/
theorem C15_inactivity_sweep_witness :
    conn_at (on_inactivity_timer_event sweep_ok
        (example_context example_config [(⟨1, 1⟩, 100)] [100]
          [(100, example_conn 5 0 [example_req 1 []])]) []).context 100
      = some { example_conn 5 0 [example_req 1 []] with reqs := [], established := false } :=
  (C15_inactivity_sweep sweep_ok
    (example_context example_config [(⟨1, 1⟩, 100)] [100]
      [(100, example_conn 5 0 [example_req 1 []])]) [] ⟨1, 1⟩ 100
    (example_conn 5 0 [example_req 1 []]) (by decide) (by decide)).2.1 (by decide)

/-! ## Lemmas on a tick that handles a connection-manager error event -/

theorem to_quit_state_loop_conn (disconnect : Nat → call_result) (seq : List Nat)
    (st : spectrum_reader_context_ × List error_record) (p : Nat) :
    conn_at (to_quit_state_loop disconnect seq st).1 p
      = (conn_at st.1 p).map (fun c =>
          if p ∈ seq then { c with reqs := [], established := false } else c) := by
  induction seq generalizing st with
  | nil => simp [to_quit_state_loop]
  | cons q rest ih =>
    unfold to_quit_state_loop
    cases hq : conn_at st.1 q with
    | none =>
      simp only
      rw [ih st]
      by_cases hp : p = q
      · subst hp
        simp [hq]
      · simp only [List.mem_cons, hp, false_or]
    | some cq =>
      simp only
      rw [ih, begin_server_disconnect_conn]
      by_cases hp : p = q
      · subst hp
        simp only [conn_at_log_freed, conn_at_conn_store, hq, Option.map_some',
          List.mem_cons, true_or, if_true, Option.some.injEq]
        split_ifs <;> rfl
      · simp only [conn_at_log_freed, conn_at_conn_store_other _ _ _ _ hp, List.mem_cons, hp,
          false_or]

theorem begin_server_disconnect_errors (disc : call_result) (c : server_connection_context)
    (error_records : List error_record) :
    ∃ extra, (begin_server_disconnect disc c error_records).error_records
      = error_records ++ extra := by
  unfold begin_server_disconnect
  split_ifs
  · exact ⟨_, rfl⟩
  · exact ⟨[], by simp⟩
  · exact ⟨[], by simp⟩

theorem to_quit_state_loop_errors (disconnect : Nat → call_result) (seq : List Nat)
    (st : spectrum_reader_context_ × List error_record) :
    ∃ extra, (to_quit_state_loop disconnect seq st).2 = st.2 ++ extra := by
  induction seq generalizing st with
  | nil => exact ⟨[], by simp [to_quit_state_loop]⟩
  | cons q rest ih =>
    unfold to_quit_state_loop
    cases conn_at st.1 q with
    | none => exact ih st
    | some cq =>
      simp only
      obtain ⟨e1, h1⟩ := begin_server_disconnect_errors (disconnect q) cq st.2
      obtain ⟨e2, h2⟩ := ih (log_freed (conn_store st.1 q
        (begin_server_disconnect (disconnect q) cq st.2).conn_ctx)
        (begin_server_disconnect (disconnect q) cq st.2).freed,
        (begin_server_disconnect (disconnect q) cq st.2).error_records)
      refine ⟨e1 ++ e2, ?_⟩
      rw [h2]
      simp only [h1, List.append_assoc]

/-- What `to_quit_state` does in state run: the state becomes quit, the
registry is untouched, the disconnect is begun on the connections of the
sorted sequence and on no other, and the error records are extended. -/
theorem to_quit_state_from_run (env : quit_outcome) (context : spectrum_reader_context_)
    (quit_msg : Option data_path_message) (error_records : List error_record)
    (hrun : context.state = run_state.STATE_RUN) :
    ∃ r : handler_result,
      to_quit_state env context quit_msg error_records = some r ∧
      r.context.state = run_state.STATE_QUIT ∧
      r.context.connections = context.connections ∧
      r.context.fd_connections = context.fd_connections ∧
      (∀ p, conn_at r.context p
        = (conn_at context p).map (fun c =>
            if p ∈ context.fd_connections.getD [] then
              { c with reqs := [], established := false }
            else c)) ∧
      ∃ extra, r.error_records = error_records ++ extra := by
  simp only [to_quit_state, hrun, reduceCtorEq, if_false, ne_eq, not_false_eq_true, if_true]
  refine ⟨_, rfl, rfl, ?_, ?_, ?_, ?_⟩
  · cases hfd : context.fd_connections with
    | none => simp only [loopback_msg]; split_ifs <;> rfl
    | some seq =>
      have hf := (to_quit_state_loop_frame env.disconnect seq (context, error_records)).2.2.2.1
      simp only [loopback_msg]
      split_ifs <;> exact hf
  · cases hfd : context.fd_connections with
    | none => simp only [loopback_msg]; split_ifs <;> exact hfd
    | some seq =>
      have hf := (to_quit_state_loop_frame env.disconnect seq
        (context, error_records)).2.2.2.2.1
      simp only [loopback_msg]
      split_ifs
      · exact hf.trans hfd
      · exact hf.trans hfd
  · intro p
    cases hfd : context.fd_connections with
    | none =>
      simp only [loopback_msg, Option.getD_none, List.not_mem_nil, if_false]
      by_cases hw : env.write.rc = 0
      · simp [hw, conn_at]
      · simp [hw, conn_at]
    | some seq =>
      have hc := to_quit_state_loop_conn env.disconnect seq (context, error_records) p
      simp only [loopback_msg, Option.getD_some]
      by_cases hw : env.write.rc = 0
      · simp only [hw, if_true, conn_at] at hc ⊢
        exact hc
      · simp only [hw, if_false, conn_at] at hc ⊢
        exact hc
  · cases hfd : context.fd_connections with
    | none =>
      simp only [loopback_msg]
      split_ifs
      · exact ⟨[], by simp⟩
      · exact ⟨_, rfl⟩
    | some seq =>
      obtain ⟨e, he⟩ := to_quit_state_loop_errors env.disconnect seq (context, error_records)
      simp only [loopback_msg]
      split_ifs
      · exact ⟨e, he⟩
      · refine ⟨e ++ [⟨env.write.errno, "Failed to write to loop pipe"⟩], ?_⟩
        simp only [MSG_ERROR, he, List.append_assoc]

theorem on_cm_event_error (env : cm_event_outcome) (context : spectrum_reader_context_) (p : Nat)
    (hget : env.get_cm_event.rc = 0)
    (hlookup : connections_lookup context.connections env.event.dst_sin = some p)
    (hack : env.ack_cm_event.rc = 0)
    (herr : env.event.event.is_error = true) :
    on_cm_event env context []
      = some ⟨context,
          [⟨-1, rdma_event_str env.event.event ++ " on " ++ env.addr_text⟩], -1⟩ := by
  unfold on_cm_event
  simp only [hget, ne_eq, not_true_eq_false, if_false, hlookup, Option.isNone_some, hack,
    Bool.false_eq_true]
  cases hev : env.event.event <;> simp [hev, rdma_cm_event_type.is_error] at herr <;>
    simp [MSG_ERROR]

theorem set_revents_nil_zero (l : List pollfd) : ∀ ev ∈ set_revents l [], ev.revents = 0 := by
  induction l with
  | nil => simp [set_revents]
  | cons pfd rest ih =>
    intro ev hev
    simp only [set_revents, List.mem_cons] at hev
    rcases hev with h | h
    · rw [h]
    · exact ih ev h

theorem on_poll_events_loop_idle (md5 : List Nat → List Nat) (env : poll_events_outcome)
    (l : List pollfd) (i : Nat) (r : handler_result)
    (hl : ∀ ev ∈ l, ev.revents = 0) (hrc : r.rc ≠ 0) :
    on_poll_events_loop md5 env l i r = some r := by
  induction l generalizing i with
  | nil => rfl
  | cons ev rest ih =>
    have h0 : ev.revents = 0 := hl ev (List.mem_cons_self _ _)
    have hrest : ∀ e ∈ rest, e.revents = 0 := fun e he => hl e (List.mem_cons_of_mem _ he)
    simp only [on_poll_events_loop, h0, Nat.zero_and, ne_eq, not_true_eq_false, if_false,
      Option.some_bind, hrc, false_and]
    exact ih (i + 1) hrest

/-- A tick in state run in which only the connection-manager channel is
readable, the event is one of the five error events for a registered
connection, no error has been recorded before and no message is popped. -/
theorem tick_cm_error (md5 : List Nat → List Nat) (input : tick_outcome)
    (context : spectrum_reader_context_) (e0 e1 : pollfd) (rest : List pollfd) (p : Nat)
    (hpollfds : context.pollfds = e0 :: e1 :: rest)
    (hnfd : input.poll.nfd > 0) (hrevents : input.poll.revents = [POLLIN])
    (hmsg : input.msg = none)
    (hrun : context.state = run_state.STATE_RUN)
    (hget : input.events.cm.get_cm_event.rc = 0)
    (hlookup : connections_lookup context.connections input.events.cm.event.dst_sin = some p)
    (hack : input.events.cm.ack_cm_event.rc = 0)
    (herr : input.events.cm.event.event.is_error = true) :
    ∃ r : handler_result,
      spectrum_reader_tick md5 input context [] = some r ∧
      r.rc = -1 ∧
      r.context.state = run_state.STATE_QUIT ∧
      r.context.connections = context.connections ∧
      (∀ q, conn_at r.context q
        = (conn_at context q).map (fun c =>
            if q ∈ context.fd_connections.getD [] then
              { c with reqs := [], established := false }
            else c)) ∧
      ∃ extra, r.error_records
        = ⟨-1, rdma_event_str input.events.cm.event.event ++ " on " ++
            input.events.cm.addr_text⟩ :: extra := by
  have hnfd' : input.poll.nfd ≥ 0 := le_of_lt hnfd
  have hcm := on_cm_event_error input.events.cm
    { context with pollfds := set_revents context.pollfds input.poll.revents } p hget hlookup
    hack herr
  have hidle := on_poll_events_loop_idle md5 input.events (set_revents rest []) 2
    ⟨{ context with pollfds := set_revents context.pollfds input.poll.revents },
      [⟨-1, rdma_event_str input.events.cm.event.event ++ " on " ++
        input.events.cm.addr_text⟩], -1⟩ (set_revents_nil_zero rest) (by simp)
  obtain ⟨r, hr, hstate, hconns, hfds, hconn, extra, hextra⟩ := to_quit_state_from_run input.env
    (swap_pollfds { context with pollfds := set_revents context.pollfds input.poll.revents })
    none [⟨-1, rdma_event_str input.events.cm.event.event ++ " on " ++
        input.events.cm.addr_text⟩]
    (by unfold swap_pollfds; split_ifs <;> exact hrun)
  have hswap_conn : ∀ q, conn_at (swap_pollfds
      { context with pollfds := set_revents context.pollfds input.poll.revents }) q
      = conn_at context q := by
    intro q
    unfold swap_pollfds
    split_ifs <;> rfl
  have hswap_fd : (swap_pollfds
      { context with pollfds := set_revents context.pollfds input.poll.revents }).fd_connections
      = context.fd_connections := by
    unfold swap_pollfds
    split_ifs <;> rfl
  have hswap_conns : (swap_pollfds
      { context with pollfds := set_revents context.pollfds input.poll.revents }).connections
      = context.connections := by
    unfold swap_pollfds
    split_ifs <;> rfl
  refine ⟨⟨r.context, r.error_records, -1⟩, ?_, rfl, hstate, hconns.trans hswap_conns, ?_,
    ⟨extra, by simpa using hextra⟩⟩
  · simp only [spectrum_reader_tick, hnfd, hnfd', if_true, on_poll_events, hpollfds, hrevents,
      set_revents, List.getElem?_cons_zero, List.getElem?_cons_succ]
    have hp : POLLIN &&& POLLIN ≠ 0 := by decide
    simp only [hp, if_true, ne_eq, not_false_eq_true]
    simp only [hpollfds, hrevents, set_revents] at hcm hidle hr
    simp only [hcm, Option.some_bind, Nat.zero_and, not_true_eq_false, if_false,
      List.drop_succ_cons, List.drop_zero, hidle, Option.map_some', hmsg, true_or, if_true,
      reduceCtorEq, not_false_eq_true, hr]
  · intro q
    rw [hconn q, hswap_conn q, hswap_fd]

/-- C13 (counterexample): a tick in state run handles REJECTED for the
connection to `1:1` while the connection to `2:2` is established with one read
posted and one pending request.  After the tick the reactor is in state quit
and the connection to `2:2` is no longer established and has lost its pending
request. -/
theorem C13_rejected_event_stops_other_connection :
    two_context.state = run_state.STATE_RUN ∧
    (conn_at two_context 101).map (fun c => (c.established, c.reqs.length, c.num_posted_wr))
      = some (true, 1, 1) ∧
    (spectrum_reader_tick example_md5 rejected_tick two_context []).map
        (fun r => (r.context.state,
          (conn_at r.context 101).map (fun c => (c.established, c.reqs.length, c.num_posted_wr))))
      = some (run_state.STATE_QUIT, some (false, 0, 1)) := by
  refine ⟨rfl, rfl, ?_⟩
  decide

/-- C13 (amended): in a tick in state run in which only the connection-manager
channel is readable, no error was recorded before and no message is popped,
an error event (ADDR_ERROR, ROUTE_ERROR, CONNECT_ERROR, UNREACHABLE or
REJECTED) for a registered connection moves the reactor to state quit.  Every
connection `b` keeps its `num_posted_wr`; if it is in the fd index its
disconnect is begun (pending FIFO emptied, not established), otherwise it is
unchanged.  A signal handled after the tick is only returned to its pool:
context and error records are otherwise unchanged. -/
theorem C13_cm_error_quits (md5 : List Nat → List Nat) (input : tick_outcome)
    (context : spectrum_reader_context_) (e0 e1 : pollfd) (rest : List pollfd) (p q : Nat)
    (b : server_connection_context)
    (hpollfds : context.pollfds = e0 :: e1 :: rest)
    (hnfd : input.poll.nfd > 0) (hrevents : input.poll.revents = [POLLIN])
    (hmsg : input.msg = none)
    (hrun : context.state = run_state.STATE_RUN)
    (hget : input.events.cm.get_cm_event.rc = 0)
    (hlookup : connections_lookup context.connections input.events.cm.event.dst_sin = some p)
    (hack : input.events.cm.ack_cm_event.rc = 0)
    (herr : input.events.cm.event.event.is_error = true)
    (hb : conn_at context q = some b) :
    ∃ r : handler_result,
      spectrum_reader_tick md5 input context [] = some r ∧
      r.context.state = run_state.STATE_QUIT ∧
      r.context.connections = context.connections ∧
      (∃ b1, conn_at r.context q = some b1 ∧
        b1.num_posted_wr = b.num_posted_wr ∧
        (q ∈ context.fd_connections.getD [] →
          b1 = { b with reqs := [], established := false }) ∧
        (q ∉ context.fd_connections.getD [] → b1 = b)) ∧
      ∀ (open_env : open_outcome) (env : quit_outcome) (msg : data_path_message)
        (errs : List error_record),
        msg.typ = data_path_message_type.DATA_PATH_SIGNAL_MSG →
        on_data_path_message open_env env r.context msg errs
          = some ⟨{ r.context with
                    shared := { r.context.shared with
                      signal_msg_buffers :=
                        r.context.shared.signal_msg_buffers ++ [msg.signal_msg] } },
              errs, 0⟩ := by
  obtain ⟨r, hr, _, hstate, hconns, hconn, _⟩ := tick_cm_error md5 input context e0 e1 rest p
    hpollfds hnfd hrevents hmsg hrun hget hlookup hack herr
  refine ⟨r, hr, hstate, hconns, ?_, ?_⟩
  · have hq := hconn q
    rw [hb, Option.map_some'] at hq
    refine ⟨_, hq, ?_, ?_, ?_⟩
    · split_ifs <;> rfl
    · intro hin
      rw [if_pos hin]
    · intro hnot
      rw [if_neg hnot]
  · intro open_env env msg errs htyp
    simp only [on_data_path_message, htyp, hstate, reduceCtorEq, if_false]

/-- C13 (amended) at a concrete input: REJECTED for the connection to `1:1`
of `two_context`; the connection to `2:2` is in the fd index. -/
theorem C13_cm_error_quits_witness :
    ∃ r : handler_result,
      spectrum_reader_tick example_md5 rejected_tick two_context [] = some r ∧
      r.context.state = run_state.STATE_QUIT ∧
      conn_at r.context 101 = some { other_conn with reqs := [], established := false } := by
  obtain ⟨r, hr, hstate, _, ⟨b1, hb1, _, hin, _⟩, _⟩ :=
    C13_cm_error_quits example_md5 rejected_tick two_context ⟨3, POLLIN, 0⟩ ⟨4, POLLIN, 0⟩
      [⟨5, POLLIN, 0⟩, ⟨6, POLLIN, 0⟩] 100 101 other_conn rfl (by decide) rfl rfl rfl rfl rfl
      rfl rfl rfl
  exact ⟨r, hr, hstate, by rw [hb1, hin (by decide)]⟩

/-! ## Lemmas on the handlers that leave the registry alone -/

theorem on_signal_message_conn_established (config : vysmaw_configuration)
    (payload : signal_msg_payload) (consumers : List (List consumer))
    (c : server_connection_context) :
    (on_signal_message_conn config payload consumers c).established = c.established := by
  unfold on_signal_message_conn
  split_ifs <;> rfl

/-- C21 (the code at a failing input): the loop is started in state run with
an empty registry and runs through `shutdown_inputs`.  Afterwards the state is
done, the quit slot is empty, the connection to `1:1` is still registered, so
the loop goes on, and no error has been recorded.  In the next iteration (1) an
ADDR_ERROR event for that connection, (2) a failure of `poll`, or (3) a second
Quit message each lead to `to_quit_state` in state done, where its assertion
fails: the dispatch of (1) returns -1, and the iteration has no result.  In
general `to_quit_state` has no result in state done, and an iteration in state
done in which `poll` fails has none. -/
theorem C21_to_quit_state_asserts_in_state_done :
    (spectrum_reader_loop example_md5 shutdown_inputs ⟨start_context example_config, [], 0⟩).map
        (fun r => (r.context.state, r.context.quit_msg,
          connections_lookup r.context.connections ⟨1, 1⟩, loop_quit r.context,
          r.error_records, r.rc))
      = some (run_state.STATE_DONE, none, some 100, false, [], 0) ∧
    (spectrum_reader_loop example_md5 shutdown_inputs ⟨start_context example_config, [], 0⟩).map
        (fun r => (on_poll_events example_md5
            (cm_input rdma_cm_event_type.RDMA_CM_EVENT_ADDR_ERROR).events
            { r.context with pollfds := set_revents r.context.pollfds [POLLIN] }
            r.error_records).map (fun h => h.rc))
      = some (some (-1)) ∧
    spectrum_reader_loop example_md5
        (shutdown_inputs ++ [cm_input rdma_cm_event_type.RDMA_CM_EVENT_ADDR_ERROR])
        ⟨start_context example_config, [], 0⟩ = none ∧
    spectrum_reader_loop example_md5 (shutdown_inputs ++ [poll_failure_input])
        ⟨start_context example_config, [], 0⟩ = none ∧
    spectrum_reader_loop example_md5 (shutdown_inputs ++ [message_input second_quit_message])
        ⟨start_context example_config, [], 0⟩ = none ∧
    (∀ (env : quit_outcome) (context : spectrum_reader_context_)
        (quit_msg : Option data_path_message) (error_records : List error_record),
      context.state = run_state.STATE_DONE →
      to_quit_state env context quit_msg error_records = none) ∧
    (∀ (md5 : List Nat → List Nat) (input : tick_outcome) (context : spectrum_reader_context_)
        (error_records : List error_record),
      context.state = run_state.STATE_DONE →
      input.poll.nfd < 0 → input.poll.errno ≠ EINTR → input.msg = none →
      spectrum_reader_tick md5 input context error_records = none) := by
  refine ⟨rfl, by decide, by decide, by decide, by decide, ?_, ?_⟩
  · intro env context quit_msg error_records hdone
    simp only [to_quit_state, hdone, if_true]
  · intro md5 input context error_records hdone hnfd herrno hmsg
    have h1 : ¬ input.poll.nfd ≥ 0 := by omega
    have h2 : ¬ input.poll.nfd > 0 := by omega
    simp only [spectrum_reader_tick, h1, h2, if_false, hnfd, herrno, ne_eq, not_false_eq_true,
      and_self, if_true, Option.some_bind, hmsg, Int.reduceNeg, reduceCtorEq, or_false,
      to_quit_state, hdone, Option.map_none', true_or]

/-! ## C22: posting and the established flag -/

theorem post_server_reads_nil (env : Nat → post_outcome) (c : server_connection_context)
    (error_records : List error_record) (h : c.reqs = []) :
    (post_server_reads env c error_records).posted = [] ∧
    (post_server_reads env c error_records).conn_ctx.num_posted_wr = c.num_posted_wr ∧
    (post_server_reads env c error_records).conn_ctx.reqs = [] := by
  simp only [post_server_reads, h, post_server_reads_loop, and_self]

theorem conn_step_pending_empty (config : vysmaw_configuration) (md5 : List Nat → List Nat)
    (op : conn_op) (c0 c : server_connection_context)
    (hconfig : config.preconnect_backlog = false)
    (h0 : c0.established = false → c0.reqs = [])
    (hstep : conn_step config md5 op c0 = some c) :
    c.established = false → c.reqs = [] := by
  cases op with
  | addr_resolved env =>
    simp only [conn_step, Option.some.injEq] at hstep
    subst hstep
    have hfr : (on_server_addr_resolved_conn config.rdma_read_min_ack_part env c0
          []).conn_ctx.established = c0.established ∧
        (on_server_addr_resolved_conn config.rdma_read_min_ack_part env c0
          []).conn_ctx.reqs = c0.reqs := by
      unfold on_server_addr_resolved_conn set_max_posted_wr
      split_ifs <;> exact ⟨rfl, rfl⟩
    rw [hfr.1, hfr.2]
    exact h0
  | route_resolved env =>
    simp only [conn_step, Option.some.injEq] at hstep
    subst hstep
    exact h0
  | established rkey depth env =>
    simp only [conn_step, Option.some.injEq] at hstep
    subst hstep
    intro hest
    have h1 : (on_server_established config.rdma_read_min_ack_part env c0 rkey depth
        []).conn_ctx.established = true := rfl
    rw [h1] at hest
    cases hest
  | signal payload consumers =>
    simp only [conn_step, Option.some.injEq] at hstep
    subst hstep
    intro hest
    rw [on_signal_message_conn_established] at hest
    have hsame : on_signal_message_conn config payload consumers c0 = c0 := by
      simp [on_signal_message_conn, hest, hconfig]
    rw [hsame]
    exact h0 hest
  | post env =>
    simp only [conn_step, Option.some.injEq] at hstep
    subst hstep
    intro hest
    have hest0 : c0.established = false := hest
    exact (post_server_reads_nil env c0 [] (h0 hest0)).2.2
  | reap env =>
    simp only [conn_step, Option.map_eq_some'] at hstep
    obtain ⟨pr, hpr, hc⟩ := hstep
    subst hc
    have hfr := get_completed_requests_conn_frame md5 env c0 [] pr hpr
    rw [hfr.2.2.2.1, hfr.2.2.2.2]
    exact h0
  | access now =>
    simp only [conn_step, Option.some.injEq] at hstep
    subst hstep
    exact h0
  | begin_disconnect disc =>
    simp only [conn_step, Option.some.injEq] at hstep
    subst hstep
    intro _
    rw [begin_server_disconnect_conn]

theorem conn_run_pending_empty (config : vysmaw_configuration) (md5 : List Nat → List Nat)
    (ops : List conn_op) (c0 c : server_connection_context)
    (hconfig : config.preconnect_backlog = false)
    (h0 : c0.established = false → c0.reqs = [])
    (hrun : conn_run config md5 ops c0 = some c) :
    c.established = false → c.reqs = [] := by
  induction ops generalizing c0 with
  | nil =>
    simp only [conn_run, Option.some.injEq] at hrun
    subst hrun
    exact h0
  | cons op rest ih =>
    simp only [conn_run, Option.bind_eq_some] at hrun
    obtain ⟨c1, hstep, hrest⟩ := hrun
    exact ih c1 (conn_step_pending_empty config md5 op c0 c1 hconfig h0 hstep) hrest

/-- C22 (the code at a failing input): the loop is started in state run with
an empty registry and a configuration that backlogs requests before
connection, and runs through `peer_disconnect_inputs`.  Afterwards no error has
been recorded, the connection to `1:1` is not established (its disconnect has
been begun), has two reads outstanding and three requests pending, and two
reads have been posted in all.  In the next iteration one of the outstanding
reads completes, flushed with an error status: read-completion handling posts
the three pending requests on the connection that is not established, so that
four reads are outstanding and five have been posted in all.  When requests
are not backlogged before connection this cannot happen: after every sequence
of operations on a newly opened connection, a connection that is not
established has an empty pending FIFO, and `post_server_reads` posts nothing
on it. -/
theorem C22_read_completion_posts_after_disconnect_begun :
    (spectrum_reader_loop example_md5 peer_disconnect_inputs
        ⟨start_context backlog_config, [], 0⟩).map
      (fun r => (r.context.state, r.error_records, r.context.shared.posted.length,
        (conn_at r.context 100).map
          (fun c => (c.established, c.num_posted_wr, c.reqs.length))))
      = some (run_state.STATE_RUN, [], 2, some (false, 2, 3)) ∧
    (spectrum_reader_loop example_md5
        (peer_disconnect_inputs ++ [completion_input [⟨example_req 1 [], 5⟩]])
        ⟨start_context backlog_config, [], 0⟩).map
      (fun r => (r.context.state, r.error_records, r.context.shared.posted.length,
        (conn_at r.context 100).map
          (fun c => (c.established, c.num_posted_wr, c.reqs.length))))
      = some (run_state.STATE_RUN, [], 5, some (false, 4, 0)) ∧
    (∀ (config : vysmaw_configuration) (md5 : List Nat → List Nat) (sockaddr : sockaddr_in)
        (now : Nat) (ops : List conn_op) (c : server_connection_context)
        (env : Nat → post_outcome) (error_records : List error_record),
      config.preconnect_backlog = false →
      conn_run config md5 ops (new_server_connection config sockaddr now) = some c →
      c.established = false →
      c.reqs = [] ∧
      (post_server_reads env c error_records).posted = [] ∧
      (post_server_reads env c error_records).conn_ctx.num_posted_wr = c.num_posted_wr) := by
  refine ⟨rfl, rfl, ?_⟩
  intro config md5 sockaddr now ops c env error_records hconfig hrun hest
  have hnew : (new_server_connection config sockaddr now).established = false →
      (new_server_connection config sockaddr now).reqs = [] := by
    intro _
    unfold new_server_connection set_max_posted_wr
    rfl
  have hreqs := conn_run_pending_empty config md5 ops _ c hconfig hnew hrun hest
  have hpost := post_server_reads_nil env c error_records hreqs
  exact ⟨hreqs, hpost.1, hpost.2.1⟩

end SpectrumReader
